import Mathlib

/-!
# hg_repmgr: failover, election and split-brain core

A shallow embedding of the decision procedures of `repmgrd-physical.c`
(`do_election`, `do_primary_failover`, `promote_self`, `check_BS`,
`check_timeline`) together with the properties of the specification that
they decide.

Conventions of the embedding:

* Everything the C code reads from a database connection, a shell command
  or the clock is an explicit input (a field of an environment structure),
  so every function below is a total, executable function of its inputs.
* `int` values are `Int`; `XLogRecPtr` (an unsigned 64-bit LSN) and
  `TimeLineID` are `Nat`. Only comparisons are made on them here.
* `strncmp (a, b, MAXLEN) == 0` on two `char[MAXLEN]` fields is string
  equality.
-/

namespace Repmgr

/-! ## Constants of `repmgr.h` -/

def UNKNOWN_PID : Int := -1
def UNKNOWN_NODE_ID : Int := -1
def ELECTION_RERUN_NOTIFICATION : Int := -2
def VOTING_TERM_NOT_SET : Int := -1

/-! ## Data model -/

inductive ElectionResult
  | ELECTION_NOT_CANDIDATE
  | ELECTION_WON
  | ELECTION_LOST
  | ELECTION_CANCELLED
  | ELECTION_RERUN
  deriving DecidableEq, Repr

inductive t_server_type
  | UNKNOWN
  | PRIMARY
  | STANDBY
  | WITNESS
  | BDR
  deriving DecidableEq, Repr

inductive MonitoringState
  | MS_NORMAL
  | MS_DEGRADED
  deriving DecidableEq, Repr

inductive t_failover_mode
  | FAILOVER_MANUAL
  | FAILOVER_AUTOMATIC
  deriving DecidableEq, Repr

inductive RecoveryType
  | RECTYPE_UNKNOWN
  | RECTYPE_PRIMARY
  | RECTYPE_STANDBY
  deriving DecidableEq, Repr

inductive NodeStatus
  | NODE_STATUS_UNKNOWN
  | NODE_STATUS_UP
  | NODE_STATUS_SHUTTING_DOWN
  | NODE_STATUS_DOWN
  | NODE_STATUS_UNCLEAN_SHUTDOWN
  | NODE_STATUS_REJECTED
  deriving DecidableEq, Repr

/-- The fields of `t_node_info` that the failover code reads or writes. -/
structure t_node_info where
  node_id : Int
  node_name : String
  type : t_server_type
  upstream_node_id : Int
  location : String
  priority : Int
  active : Bool
  last_wal_receive_lsn : Nat
  deriving DecidableEq, Repr

/-- The fields of `ReplInfo` that the election reads. -/
structure ReplInfo where
  in_recovery : Bool
  last_wal_receive_lsn : Nat
  last_wal_replay_lsn : Nat
  wal_replay_paused : Bool
  upstream_last_seen : Int
  deriving DecidableEq, Repr

/-- One row of the node table as seen by an elector, together with what the
node answers when the elector probes it during `do_election`:
`conn_ok` is `PQstatus (conn) == CONNECTION_OK` after
`establish_db_connection`, `repmgrd_pid` is the value of `repmgrd_get_pid`,
`repl_info` is `none` when `get_replication_info` returns false, and
`can_follow` is the value of `check_node_can_follow` for this node. -/
structure SiblingProbe where
  node_info : t_node_info
  conn_ok : Bool
  repmgrd_pid : Int
  repl_info : Option ReplInfo
  can_follow : Bool
  deriving DecidableEq, Repr

/-- Outcome of running a shell command through `popen`/`pclose`:
`popen_ok` is false when `popen` returns NULL, `pclose_status` is the wait
status returned by `pclose`. -/
structure LocalCommandRun where
  popen_ok : Bool
  pclose_status : Int
  deriving DecidableEq, Repr

/-- Everything `do_election` reads from its surroundings. -/
structure ElectionEnv where
  /-- value of `get_current_term (local_conn)` -/
  electoral_term : Int
  /-- Option `config_file_options.failover` -/
  failover : t_failover_mode
  local_node_info : t_node_info
  upstream_node_info : t_node_info
  /-- the node table read through `local_conn`, with each node's answers -/
  nodes : List SiblingProbe
  /-- Value or call of `get_replication_info (local_conn, STANDBY, ...)`, `none` on failure -/
  local_replication_info : Option ReplInfo
  /-- value of `resume_wal_replay (local_conn)` -/
  resume_wal_replay : Bool
  /-- Option `config_file_options.failover_validation_command` -/
  failover_validation_command : String
  /-- how the validation command behaves if it is run -/
  validation_run : LocalCommandRun
  /-- Option `config_file_options.primary_visibility_consensus` -/
  primary_visibility_consensus : Bool
  /-- Option `config_file_options.monitor_interval_secs` -/
  monitor_interval_secs : Int
  deriving Repr

/-- What `do_election` leaves behind: its return value, `*new_primary_id`,
the global `monitoring_state` and the caller's `sibling_nodes` list (which
`do_primary_failover` passes in empty). -/
structure ElectionOutcome where
  result : ElectionResult
  new_primary_id : Int
  monitoring_state : MonitoringState
  sibling_nodes : List SiblingProbe
  deriving DecidableEq, Repr

/-! ## `sysutils.c`: running a local command -/

/-- The macro `WEXITSTATUS` applied to a wait status held in a 32-bit `int`. -/
def WEXITSTATUS (status : Int) : Int := ((status % 4294967296) / 256) % 256

/-- The macro `WTERMSIG` applied to a wait status held in a 32-bit `int`:
the number of the signal that ended the process, zero for a process that
exited. -/
def WTERMSIG (status : Int) : Int := (status % 4294967296) % 128

/-- The macro `WIFEXITED`: the process ended by exiting, not by a signal. -/
def WIFEXITED (status : Int) : Bool := decide (WTERMSIG status = 0)

/-- The function `local_command_return_value` with a non-NULL output buffer: returns the
success flag and the new content of `*return_value`, which is left as it
was when `popen` fails. -/
def local_command_return_value (run : LocalCommandRun) (return_value : Int) : Bool × Int :=
  if run.popen_ok = false then
    (false, return_value)
  else
    (decide (WEXITSTATUS run.pclose_status = 0 ∨ WEXITSTATUS run.pclose_status = 141),
      WEXITSTATUS run.pclose_status)

/-- The function `execute_failover_validation_command`: `return_value` starts at `-1`
and the result is decided on it alone. -/
def execute_failover_validation_command (run : LocalCommandRun) : ElectionResult :=
  let return_value := (local_command_return_value run (-1)).2
  if return_value ≠ 0 then ElectionResult.ELECTION_RERUN else ElectionResult.ELECTION_WON

/-! ## `do_election` -/

/-- The value `InvalidXLogRecPtr`. -/
def InvalidXLogRecPtr : Nat := 0

/-- Modelled from the spec: `get_active_sibling_node_records` lives in
`dbutils.c`, which is not part of the sources at hand. Per the
specification (`get_active_siblings (self_id, upstream_id)`) it returns
only the `active = true` records sharing `upstream_id`, excluding self. -/
def get_active_sibling_node_records (nodes : List SiblingProbe) (node_id upstream_node_id : Int) :
    List SiblingProbe :=
  nodes.filter (fun n =>
    n.node_info.active && decide (n.node_info.upstream_node_id = upstream_node_id)
      && decide (n.node_info.node_id ≠ node_id))

/-- The local variables of `do_election` that the sibling loop updates. -/
structure ElectionLoopState where
  candidate_node : t_node_info
  visible_nodes : Int
  primary_location_seen : Bool
  nodes_with_primary_still_visible : Int
  deriving DecidableEq, Repr

/-- The comparison at the end of the loop body: does `cell` replace the
current candidate? First the LSN, then the priority, then the node id. -/
def replaces_candidate (cell candidate_node : t_node_info) : Bool :=
  if cell.last_wal_receive_lsn > candidate_node.last_wal_receive_lsn then
    true
  else if cell.last_wal_receive_lsn = candidate_node.last_wal_receive_lsn then
    if cell.priority > candidate_node.priority then
      true
    else if cell.priority = candidate_node.priority then
      decide (cell.node_id < candidate_node.node_id)
    else
      false
  else
    false

/-- One iteration of the `for (cell = sibling_nodes->head; ...)` loop.
`Except.error id` is the early `return ELECTION_CANCELLED` with
`*new_primary_id = id`; `Except.ok` is falling out of (or `continue`-ing)
the loop body. -/
def election_loop_body (upstream_location : String) (monitor_interval_secs : Int)
    (st : ElectionLoopState) (cell : SiblingProbe) : Except Int ElectionLoopState :=
  if cell.conn_ok = false then
    .ok st
  else
    let st1 : ElectionLoopState :=
      { st with
        visible_nodes := st.visible_nodes + 1
        primary_location_seen :=
          if st.primary_location_seen = false then
            decide (cell.node_info.location = upstream_location)
          else true }
    if cell.repmgrd_pid = UNKNOWN_PID then
      .ok st1
    else
      match cell.repl_info with
      | none => .ok st1
      | some sibling_replication_info =>
        if sibling_replication_info.in_recovery = false then
          if cell.can_follow = true then
            .error cell.node_info.node_id
          else
            .ok st1
        else
          let st2 : ElectionLoopState :=
            if sibling_replication_info.upstream_last_seen ≥ 0
                ∧ sibling_replication_info.upstream_last_seen < monitor_interval_secs * 2 then
              { st1 with
                nodes_with_primary_still_visible := st1.nodes_with_primary_still_visible + 1 }
            else st1
          if cell.node_info.type = t_server_type.WITNESS then
            .ok st2
          else if cell.node_info.priority ≤ 0 then
            .ok st2
          else
            let cell_node : t_node_info :=
              { cell.node_info with
                last_wal_receive_lsn := sibling_replication_info.last_wal_receive_lsn }
            if replaces_candidate cell_node st2.candidate_node = true then
              .ok { st2 with candidate_node := cell_node }
            else
              .ok st2

/-- The whole sibling loop. -/
def election_loop (upstream_location : String) (monitor_interval_secs : Int) :
    ElectionLoopState → List SiblingProbe → Except Int ElectionLoopState
  | st, [] => .ok st
  | st, cell :: rest =>
    match election_loop_body upstream_location monitor_interval_secs st cell with
    | .error id => .error id
    | .ok st1 => election_loop upstream_location monitor_interval_secs st1 rest

/-- The local variables of `do_election` on entry to the sibling loop: the
candidate is the local node with the LSN just read, `visible_nodes` is 1,
and `primary_location_seen` is set when the local node is in the primary's
location. -/
def election_loop_init (env : ElectionEnv) (local_replication_info : ReplInfo) :
    ElectionLoopState :=
  { candidate_node :=
      { env.local_node_info with
        last_wal_receive_lsn := local_replication_info.last_wal_receive_lsn }
    visible_nodes := 1
    primary_location_seen :=
      decide (env.upstream_node_info.location = env.local_node_info.location)
    nodes_with_primary_still_visible := 0 }

/-- The function `do_election`, given the value of `monitoring_state` and of
`*new_primary_id` on entry. `visible_nodes <= (total_nodes / 2.0)` is
written `2 * visible_nodes ≤ total_nodes`. -/
def do_election (env : ElectionEnv) (monitoring_state : MonitoringState)
    (new_primary_id : Int) : ElectionOutcome :=
  if env.electoral_term = -1 then
    ⟨.ELECTION_NOT_CANDIDATE, new_primary_id, monitoring_state, []⟩
  else if env.failover = t_failover_mode.FAILOVER_MANUAL then
    ⟨.ELECTION_NOT_CANDIDATE, new_primary_id, monitoring_state, []⟩
  else if env.local_node_info.priority ≤ 0 then
    ⟨.ELECTION_LOST, new_primary_id, monitoring_state, []⟩
  else
    let sibling_nodes :=
      get_active_sibling_node_records env.nodes env.local_node_info.node_id
        env.upstream_node_info.node_id
    let total_nodes : Int := (sibling_nodes.length : Int) + 1
    if sibling_nodes.length = 0 then
      if env.upstream_node_info.location = env.local_node_info.location then
        if env.failover_validation_command ≠ "" then
          ⟨execute_failover_validation_command env.validation_run, new_primary_id,
            monitoring_state, sibling_nodes⟩
        else
          ⟨.ELECTION_WON, new_primary_id, monitoring_state, sibling_nodes⟩
      else
        ⟨.ELECTION_NOT_CANDIDATE, new_primary_id, .MS_DEGRADED, sibling_nodes⟩
    else
      match env.local_replication_info with
      | none => ⟨.ELECTION_LOST, new_primary_id, monitoring_state, sibling_nodes⟩
      | some local_replication_info =>
        if local_replication_info.wal_replay_paused = true ∧ env.resume_wal_replay = false then
          ⟨.ELECTION_LOST, new_primary_id, monitoring_state, sibling_nodes⟩
        else
          match election_loop env.upstream_node_info.location env.monitor_interval_secs
              (election_loop_init env local_replication_info) sibling_nodes with
          | .error id => ⟨.ELECTION_CANCELLED, id, monitoring_state, sibling_nodes⟩
          | .ok st =>
            if st.primary_location_seen = false then
              ⟨.ELECTION_CANCELLED, new_primary_id, .MS_DEGRADED, sibling_nodes⟩
            else if st.nodes_with_primary_still_visible > 0
                ∧ env.primary_visibility_consensus = true then
              ⟨.ELECTION_CANCELLED, new_primary_id, .MS_DEGRADED, sibling_nodes⟩
            else if 2 * st.visible_nodes ≤ total_nodes then
              ⟨.ELECTION_CANCELLED, new_primary_id, .MS_DEGRADED, sibling_nodes⟩
            else if st.candidate_node.node_id = env.local_node_info.node_id then
              if env.failover_validation_command ≠ "" then
                ⟨execute_failover_validation_command env.validation_run, new_primary_id,
                  monitoring_state, sibling_nodes⟩
              else
                ⟨.ELECTION_WON, new_primary_id, monitoring_state, sibling_nodes⟩
            else
              ⟨.ELECTION_LOST, new_primary_id, monitoring_state, sibling_nodes⟩

/-- The value that `do_election` leaves in the global
`local_node_info.last_wal_receive_lsn`, given the value on entry. The field
is untouched when the election returns at one of the three eligibility
tests; past them it is set to `InvalidXLogRecPtr` (line 3744), and once the
local replication info is read and WAL replay is not left paused it is set
to the LSN just read (line 3818). -/
def do_election_last_wal_receive_lsn (env : ElectionEnv) (last_wal_receive_lsn : Nat) : Nat :=
  if env.electoral_term = -1 then last_wal_receive_lsn
  else if env.failover = t_failover_mode.FAILOVER_MANUAL then last_wal_receive_lsn
  else if env.local_node_info.priority ≤ 0 then last_wal_receive_lsn
  else
    let sibling_nodes :=
      get_active_sibling_node_records env.nodes env.local_node_info.node_id
        env.upstream_node_info.node_id
    if sibling_nodes.length = 0 then InvalidXLogRecPtr
    else
      match env.local_replication_info with
      | none => InvalidXLogRecPtr
      | some local_replication_info =>
        if local_replication_info.wal_replay_paused = true ∧ env.resume_wal_replay = false then
          InvalidXLogRecPtr
        else local_replication_info.last_wal_receive_lsn

/-! ## The failover driver: `promote_self` and `do_primary_failover` -/

inductive FailoverState
  | FAILOVER_STATE_UNKNOWN
  | FAILOVER_STATE_NONE
  | FAILOVER_STATE_PROMOTED
  | FAILOVER_STATE_PROMOTION_FAILED
  | FAILOVER_STATE_PRIMARY_REAPPEARED
  | FAILOVER_STATE_LOCAL_NODE_FAILURE
  | FAILOVER_STATE_WAITING_NEW_PRIMARY
  | FAILOVER_STATE_FOLLOW_NEW_PRIMARY
  | FAILOVER_STATE_REQUIRES_MANUAL_FAILOVER
  | FAILOVER_STATE_FOLLOWED_NEW_PRIMARY
  | FAILOVER_STATE_FOLLOWING_ORIGINAL_PRIMARY
  | FAILOVER_STATE_NO_NEW_PRIMARY
  | FAILOVER_STATE_FOLLOW_FAIL
  | FAILOVER_STATE_NODE_NOTIFICATION_ERROR
  | FAILOVER_STATE_ELECTION_RERUN
  deriving DecidableEq, Repr

/-- The exit codes named by the specification (`errcode.h` is not part of
the sources at hand; only the names matter here). -/
inductive ExitCode
  | SUCCESS
  | ERR_BAD_CONFIG
  | ERR_DB_CONN
  | ERR_DB_QUERY
  | ERR_BAD_SSH
  | ERR_INTERNAL
  | ERR_NODE_STATUS
  | ERR_MONITORING_TIMEOUT
  | ERR_BRAIN_SPLIT
  deriving DecidableEq, Repr

/-- The externally visible steps the daemon takes, in the order taken. -/
inductive Action
  /-- Value or call of `sleep (seconds)` -/
  | sleep (seconds : Int)
  /-- Value or call of `system (promote_command)` -/
  | promote_command
  /-- Value or call of `increment_current_term (local_conn)` -/
  | increment_current_term
  /-- Value or call of `create_event_notification` with the given event name -/
  | event (name : String)
  /-- Value or call of `notify_followers (&standby_nodes, follow_node_id)`, with the ids of
  the nodes of the list -/
  | notify_followers (standby_nodes : List Int) (follow_node_id : Int)
  /-- Value or call of `follow_new_primary (new_primary_id)` -/
  | follow_new_primary (new_primary_id : Int)
  /-- Value or call of `bind_virtual_ip` -/
  | bind_virtual_ip
  /-- Value or call of `unbind_virtual_ip` -/
  | unbind_virtual_ip
  /-- Value or call of `system ("pg_ctl -D ... stop")`, with `-m fast` when `fast` -/
  | stop_database (fast : Bool)
  /-- Value or call of `update_node_record_set_primary (local_conn, node_id)` -/
  | update_node_record_set_primary (node_id : Int)
  /-- Value or call of `exec_node_rejoin_primary` -/
  | exec_node_rejoin_primary
  /-- Value or call of `exit (code)` / `terminate (code)` -/
  | terminate (code : ExitCode)
  deriving DecidableEq, Repr

/-- The part of the daemon's global state (and of the shared `voting_term`
row) that the failover driver reads and writes. `actions` is the trace of
the steps taken so far, oldest first. -/
structure DaemonState where
  electoral_term : Int
  failover_state : FailoverState
  monitoring_state : MonitoringState
  local_node_info : t_node_info
  upstream_node_status : NodeStatus
  actions : List Action
  deriving DecidableEq, Repr

/-- Everything `promote_self` reads from its surroundings. -/
structure PromoteEnv where
  /-- Option `config_file_options.promote_delay` -/
  promote_delay : Int
  /-- Value or call of `get_node_record (local_conn, local_node_info.upstream_node_id, ...)` -/
  failed_primary : Option t_node_info
  /-- Value or call of `r = system (promote_command)` -/
  promote_command_status : Int
  /-- Whether `PQstatus (local_conn) == CONNECTION_OK` after the command -/
  local_conn_ok : Bool
  /-- result of the reconnection attempt when the connection was lost -/
  local_reconnect_ok : Bool
  /-- Whether `PQstatus (upstream_conn) == CONNECTION_OK` after `get_primary_connection` -/
  primary_conn_ok : Bool
  /-- the id returned by `get_primary_connection` -/
  primary_node_id : Int
  /-- Value or call of `get_node_record (local_conn, local_node_info.node_id, ...)` after the
  promotion, `none` when the record is not found -/
  own_record : Option t_node_info
  deriving Repr

/-- Modelled from the spec: `increment_current_term` lives in `dbutils.c`,
which is not part of the sources at hand. Per the specification
(`increment_term ()`, "atomic; increment is only called by the newly
promoted node") it adds one to the shared term. -/
def increment_current_term (st : DaemonState) : DaemonState :=
  { st with
    electoral_term := st.electoral_term + 1
    actions := st.actions ++ [Action.increment_current_term] }

/-- Appends one step to the trace. -/
def DaemonState.record (st : DaemonState) (a : Action) : DaemonState :=
  { st with actions := st.actions ++ [a] }

/-- Re-reading the local node's own record: `get_node_record (conn, id,
&local_node_info)` selects the row `WHERE node_id = id`, so a found record
keeps the node id. -/
def refresh_local_node_info (own_record : Option t_node_info) (st : DaemonState) : DaemonState :=
  match own_record with
  | none => st
  | some r => { st with local_node_info := { r with node_id := st.local_node_info.node_id } }

/-- The function `promote_self`: its return value and the state it leaves. -/
def promote_self (env : PromoteEnv) (st : DaemonState) : FailoverState × DaemonState :=
  let st0 := if env.promote_delay > 0 then st.record (.sleep env.promote_delay) else st
  match env.failed_primary with
  | none => (.FAILOVER_STATE_PROMOTION_FAILED, st0)
  | some failed_primary =>
    let st1 := st0.record .promote_command
    if env.local_conn_ok = false ∧ env.local_reconnect_ok = false then
      (.FAILOVER_STATE_LOCAL_NODE_FAILURE, st1)
    else if env.promote_command_status ≠ 0 then
      if env.primary_conn_ok = true ∧ env.primary_node_id = failed_primary.node_id then
        (.FAILOVER_STATE_PRIMARY_REAPPEARED, st1.record (.event "repmgrd_failover_abort"))
      else
        (.FAILOVER_STATE_PROMOTION_FAILED, st1.record (.event "repmgrd_promote_error"))
    else
      let st2 := increment_current_term st1
      let st3 := refresh_local_node_info env.own_record st2
      (.FAILOVER_STATE_PROMOTED, st3.record (.event "repmgrd_failover_promote"))

/-- Everything `do_primary_failover` reads from its surroundings, from the
call of `do_election` on. -/
structure FailoverEnv where
  election : ElectionEnv
  promote : PromoteEnv
  /-- Value or call of `check_vip_conf (virtual_ip, network_card)` -/
  check_vip_conf : Bool
  /-- Value or call of `wait_primary_notification`: the id received, `none` on a timeout -/
  notification : Option Int
  /-- the state returned by `follow_new_primary (id)` -/
  follow_new_primary : Int → FailoverState
  /-- Value or call of `get_node_record (local_conn, new_primary_id, ...) == RECORD_FOUND` in
  the manual-failover branch -/
  new_primary_record_found : Bool
  /-- Option `config_file_options.election_rerun_interval` -/
  election_rerun_interval : Int

/-- The ids of the nodes of a sibling list. -/
def node_ids (l : List SiblingProbe) : List Int := l.map (fun n => n.node_info.node_id)

/-- What `do_primary_failover` holds after the `if`/`else if` chain on the
election result: `none` is the early `return false` of a cancelled election
without a new primary. -/
def failover_election_dispatch (env : FailoverEnv) (e : ElectionOutcome) (st : DaemonState) :
    Option DaemonState :=
  match e.result with
  | .ELECTION_CANCELLED =>
    if e.new_primary_id = UNKNOWN_NODE_ID then none
    else some { st with failover_state := .FAILOVER_STATE_FOLLOW_NEW_PRIMARY }
  | .ELECTION_RERUN =>
    some { (st.record (.notify_followers (node_ids e.sibling_nodes) ELECTION_RERUN_NOTIFICATION))
            with failover_state := .FAILOVER_STATE_ELECTION_RERUN }
  | .ELECTION_WON =>
    let r := promote_self env.promote st
    let st1 := { r.2 with failover_state := r.1 }
    if r.1 = .FAILOVER_STATE_PROMOTED ∧ env.check_vip_conf = true then
      some (st1.record .bind_virtual_ip)
    else
      some st1
  | .ELECTION_LOST => some { st with failover_state := .FAILOVER_STATE_WAITING_NEW_PRIMARY }
  | .ELECTION_NOT_CANDIDATE =>
    some { st with failover_state := .FAILOVER_STATE_WAITING_NEW_PRIMARY }

/-- The second `if`/`else if` of `do_primary_failover`: following a new
primary that the election found, or waiting for a notification. Returns
the state together with the sibling list and `new_primary_id`. -/
def failover_follow_or_wait (env : FailoverEnv) (sibling_nodes : List SiblingProbe)
    (new_primary_id : Int) (st : DaemonState) : DaemonState × List SiblingProbe :=
  if st.failover_state = .FAILOVER_STATE_FOLLOW_NEW_PRIMARY then
    ({ (st.record (.follow_new_primary new_primary_id))
        with failover_state := env.follow_new_primary new_primary_id }, sibling_nodes)
  else if st.failover_state = .FAILOVER_STATE_WAITING_NEW_PRIMARY then
    match env.notification with
    | some id =>
      if id = env.election.upstream_node_info.node_id then
        ({ st with failover_state := .FAILOVER_STATE_FOLLOWING_ORIGINAL_PRIMARY }, sibling_nodes)
      else if id = st.local_node_info.node_id then
        let r := promote_self env.promote st
        ({ r.2 with failover_state := r.1 },
          get_active_sibling_node_records env.election.nodes r.2.local_node_info.node_id
            env.election.upstream_node_info.node_id)
      else if id = ELECTION_RERUN_NOTIFICATION then
        ({ st with failover_state := .FAILOVER_STATE_ELECTION_RERUN }, sibling_nodes)
      else if env.election.failover = t_failover_mode.FAILOVER_MANUAL then
        let st1 :=
          if env.new_primary_record_found = true then
            st.record (.event "standby_disconnect_manual")
          else st
        ({ st1 with failover_state := .FAILOVER_STATE_REQUIRES_MANUAL_FAILOVER }, sibling_nodes)
      else
        ({ (st.record (.follow_new_primary id))
            with failover_state := env.follow_new_primary id }, sibling_nodes)
    | none =>
      ({ st with
          monitoring_state := .MS_DEGRADED
          failover_state := .FAILOVER_STATE_NO_NEW_PRIMARY }, sibling_nodes)
  else
    (st, sibling_nodes)

/-- The final `switch (failover_state)` of `do_primary_failover`: the state
it leaves and `final_result`. -/
def failover_resolve (env : FailoverEnv) (sibling_nodes : List SiblingProbe) (st : DaemonState) :
    DaemonState × Bool :=
  match st.failover_state with
  | .FAILOVER_STATE_PROMOTED =>
    ({ (st.record (.notify_followers (node_ids sibling_nodes) st.local_node_info.node_id))
        with failover_state := .FAILOVER_STATE_NONE }, true)
  | .FAILOVER_STATE_ELECTION_RERUN =>
    ({ (st.record (.sleep env.election_rerun_interval)) with
        upstream_node_status := .NODE_STATUS_UP
        failover_state := .FAILOVER_STATE_NONE }, false)
  | .FAILOVER_STATE_PRIMARY_REAPPEARED =>
    ({ (st.record (.notify_followers (node_ids sibling_nodes)
          env.election.upstream_node_info.node_id))
        with failover_state := .FAILOVER_STATE_NONE }, true)
  | .FAILOVER_STATE_FOLLOWED_NEW_PRIMARY =>
    ({ st with failover_state := .FAILOVER_STATE_NONE }, true)
  | .FAILOVER_STATE_FOLLOWING_ORIGINAL_PRIMARY =>
    ({ st with failover_state := .FAILOVER_STATE_NONE }, true)
  | .FAILOVER_STATE_PROMOTION_FAILED => ({ st with monitoring_state := .MS_DEGRADED }, false)
  | .FAILOVER_STATE_FOLLOW_FAIL => ({ st with monitoring_state := .MS_DEGRADED }, false)
  | .FAILOVER_STATE_REQUIRES_MANUAL_FAILOVER =>
    ({ st with monitoring_state := .MS_DEGRADED }, false)
  | .FAILOVER_STATE_NO_NEW_PRIMARY => (st, false)
  | .FAILOVER_STATE_WAITING_NEW_PRIMARY => (st, false)
  | .FAILOVER_STATE_NODE_NOTIFICATION_ERROR => (st, false)
  | .FAILOVER_STATE_LOCAL_NODE_FAILURE => (st, false)
  | .FAILOVER_STATE_UNKNOWN => (st, false)
  | .FAILOVER_STATE_NONE => (st, false)
  | .FAILOVER_STATE_FOLLOW_NEW_PRIMARY => (st, false)

/-- The daemon's state right after the call of `do_election` in
`do_primary_failover` and the assignment
`failover_state = FAILOVER_STATE_UNKNOWN`: the election has set
`monitoring_state` and has written the global
`local_node_info.last_wal_receive_lsn`. -/
def after_election (env : FailoverEnv) (st : DaemonState) : DaemonState :=
  { st with
    failover_state := .FAILOVER_STATE_UNKNOWN
    monitoring_state :=
      (do_election env.election st.monitoring_state UNKNOWN_NODE_ID).monitoring_state
    local_node_info :=
      { st.local_node_info with
        last_wal_receive_lsn :=
          do_election_last_wal_receive_lsn env.election
            st.local_node_info.last_wal_receive_lsn } }

/-- The function `do_primary_failover` from the call of `do_election` on
(the optional wait for the siblings' WAL receivers that precedes it does
not touch the state kept here). `st` is the daemon's state on entry; the
global `local_node_info` appears both as `env.election.local_node_info`,
which the election reads, and as `st.local_node_info`, in which the election
writes `last_wal_receive_lsn` and which `promote_self` refreshes. -/
def do_primary_failover (env : FailoverEnv) (st : DaemonState) : DaemonState × Bool :=
  let e := do_election env.election st.monitoring_state UNKNOWN_NODE_ID
  let st1 : DaemonState := after_election env st
  match failover_election_dispatch env e st1 with
  | none => (st1, false)
  | some st2 =>
    let r := failover_follow_or_wait env e.sibling_nodes e.new_primary_id st2
    failover_resolve env r.2 r.1

/-! ## Degraded monitoring on a standby: was the local node promoted? -/

/-- What the check of the local node in the degraded branch of
`monitor_streaming_standby` reads. -/
structure DegradedLocalEnv where
  /-- Value or call of `get_recovery_type (local_conn)` -/
  local_recovery_type : RecoveryType
  /-- the node table read through `local_conn`, for the sibling query -/
  nodes : List SiblingProbe
  /-- the local node's own record as re-read from the metadata -/
  own_record : Option t_node_info
  deriving Repr

/-- The block of `monitor_streaming_standby` headed "local node has been
promoted", run in degraded monitoring when the upstream cannot be reached.
Returns the new state and whether the monitor function returned (to be
restarted in primary mode). -/
def standby_degraded_check_local_promoted (env : DegradedLocalEnv) (st : DaemonState) :
    DaemonState × Bool :=
  if env.local_recovery_type = RecoveryType.RECTYPE_PRIMARY then
    if st.failover_state = .FAILOVER_STATE_PROMOTION_FAILED then
      let former_upstream_node_id := st.local_node_info.upstream_node_id
      let st1 := st.record (.update_node_record_set_primary st.local_node_info.node_id)
      let st2 := refresh_local_node_info env.own_record st1
      let st3 := st2.record (.event "repmgrd_failover_promote")
      let sibling_nodes :=
        get_active_sibling_node_records env.nodes st3.local_node_info.node_id
          former_upstream_node_id
      let st4 := st3.record (.notify_followers (node_ids sibling_nodes) st3.local_node_info.node_id)
      ({ st4 with monitoring_state := .MS_NORMAL }, true)
    else
      let st1 := refresh_local_node_info env.own_record st
      if st1.local_node_info.type = t_server_type.PRIMARY then
        ({ st1 with monitoring_state := .MS_NORMAL }, true)
      else
        (st1, false)
  else
    (st, false)

/-! ## The split-brain guard: `check_BS` and `check_timeline` -/

inductive BS_ACTION
  | DO_NOTHING
  | DO_REJOIN
  | DO_STOP
  deriving DecidableEq, Repr

inductive TL_RET
  | TL_LOW
  | TL_HIGH
  | TL_SAME
  | TL_UNKNOWN
  deriving DecidableEq, Repr

/-- One entry of the node list handed to `check_BS`, together with what the
node answers: `conn_ok` says that `establish_db_connection` gave a usable
connection, `recovery_type` is what `get_recovery_type` answers over it,
`record_found` says that `get_node_record (conn, node_id, ...)` is
`RECORD_FOUND`, `repl_conn_ok` that the replication connection of
`check_timeline` is `CONNECTION_OK`, and `identify_system` is the timeline
reported by `IDENTIFY_SYSTEM` (`none` when `identify_system` fails). -/
structure PeerProbe where
  node_info : t_node_info
  conn_ok : Bool
  recovery_type : RecoveryType
  record_found : Bool
  repl_conn_ok : Bool
  identify_system : Option Nat
  deriving DecidableEq, Repr

/-- Modelled from the spec: `get_recovery_type` lives in `dbutils.c`, which
is not part of the sources at hand. Per the specification
(`is_in_recovery () → {PRIMARY, STANDBY, UNKNOWN}`) it reports the node's
answer over an open connection; over the NULL connection that `check_BS`
leaves for an unreachable node the query cannot run and the answer is
UNKNOWN. -/
def get_recovery_type (p : PeerProbe) : RecoveryType :=
  if p.conn_ok = true then p.recovery_type else RecoveryType.RECTYPE_UNKNOWN

/-- The function `check_timeline`, with `local_tli` the value of
`get_timeline (data_directory)`. -/
def check_timeline (local_tli : Nat) (peer : PeerProbe) : TL_RET :=
  if peer.repl_conn_ok = false then
    .TL_UNKNOWN
  else
    match peer.identify_system with
    | none => .TL_UNKNOWN
    | some remote_timeline =>
      if local_tli < remote_timeline then .TL_LOW
      else if local_tli > remote_timeline then .TL_HIGH
      else .TL_SAME

/-- The first loop of `check_BS`: the counter `found_other_primary`. -/
def count_other_primaries (local_node_id : Int) : List PeerProbe → Int → Int
  | [], found_other_primary => found_other_primary
  | mycell :: rest, found_other_primary =>
    if mycell.conn_ok = false then
      count_other_primaries local_node_id rest found_other_primary
    else if mycell.node_info.node_id = local_node_id
        ∨ mycell.node_info.type = t_server_type.WITNESS then
      count_other_primaries local_node_id rest found_other_primary
    else if get_recovery_type mycell = RecoveryType.RECTYPE_PRIMARY then
      count_other_primaries local_node_id rest (found_other_primary + 1)
    else
      count_other_primaries local_node_id rest found_other_primary

/-- The second loop of `check_BS`: `Except.error ()` is the
`return DO_NOTHING` taken when the other primary's record cannot be read,
`Except.ok (some p)` is leaving the loop with `found_peer` set, and
`Except.ok none` is leaving it without a peer. -/
def find_peer (local_node_id : Int) : List PeerProbe → Except Unit (Option PeerProbe)
  | [] => .ok none
  | mycell :: rest =>
    if mycell.node_info.node_id = local_node_id
        ∨ mycell.node_info.type = t_server_type.WITNESS then
      find_peer local_node_id rest
    else if get_recovery_type mycell = RecoveryType.RECTYPE_PRIMARY then
      if mycell.record_found = true then .ok (some mycell) else .error ()
    else
      find_peer local_node_id rest

/-- The function `check_BS`, run on the node `local_node_info` whose
timeline is `local_tli`, over the node list `my_node_list`. -/
def check_BS (local_node_info : t_node_info) (local_tli : Nat) (my_node_list : List PeerProbe) :
    BS_ACTION :=
  let found_other_primary := count_other_primaries local_node_info.node_id my_node_list 0
  if found_other_primary = 0 then
    .DO_NOTHING
  else if found_other_primary > 1 then
    .DO_STOP
  else
    match find_peer local_node_info.node_id my_node_list with
    | .error _ => .DO_NOTHING
    | .ok none => .DO_NOTHING
    | .ok (some peer) =>
      let remote_priority := peer.node_info.priority
      let remote_node_id := peer.node_info.node_id
      match check_timeline local_tli peer with
      | .TL_LOW => .DO_REJOIN
      | .TL_HIGH => .DO_NOTHING
      | .TL_UNKNOWN => .DO_NOTHING
      | .TL_SAME =>
        if local_node_info.priority < remote_priority then .DO_REJOIN
        else if local_node_info.priority > remote_priority then .DO_NOTHING
        else if local_node_info.node_id < remote_node_id then .DO_NOTHING
        else .DO_REJOIN

/-- The reaction of `monitor_streaming_primary` to the result of
`check_BS`: the steps taken, in order, and the monitoring state. On
`DO_STOP` the process ends with `exit (ERR_BRAIN_SPLIT)`. -/
def primary_monitor_on_brain_split (ret : BS_ACTION) (primary_notification_timeout : Int)
    (st : DaemonState) : DaemonState :=
  match ret with
  | .DO_STOP =>
    { st with
      actions := st.actions ++
        [.unbind_virtual_ip, .sleep 5, .stop_database false, .sleep 2,
          .terminate .ERR_BRAIN_SPLIT] }
  | .DO_REJOIN =>
    { st with
      monitoring_state := .MS_DEGRADED
      actions := st.actions ++
        [.unbind_virtual_ip, .stop_database true, .sleep primary_notification_timeout,
          .exec_node_rejoin_primary] }
  | .DO_NOTHING => st

/-- One pass of the split-brain block of `monitor_streaming_primary`, taken
when `config_file_options.check_brain_split` is set. -/
def primary_monitor_check_brain_split (local_tli : Nat) (my_node_list : List PeerProbe)
    (primary_notification_timeout : Int) (st : DaemonState) : DaemonState :=
  primary_monitor_on_brain_split (check_BS st.local_node_info local_tli my_node_list)
    primary_notification_timeout st

/-- The node record that the loop body compares with the current candidate,
for a sibling that gets as far as the comparison. -/
def compared_sibling (s : SiblingProbe) : Option t_node_info :=
  if s.conn_ok = true ∧ s.repmgrd_pid ≠ UNKNOWN_PID then
    match s.repl_info with
    | none => none
    | some ri =>
      if ri.in_recovery = true ∧ s.node_info.type ≠ t_server_type.WITNESS
          ∧ s.node_info.priority > 0 then
        some { s.node_info with last_wal_receive_lsn := ri.last_wal_receive_lsn }
      else none
  else none

/-- A standby record attached to primary 1 in location "default". -/
def standby_node (id : Int) (prio : Int) (loc : String) : t_node_info :=
  { node_id := id, node_name := "node", type := .STANDBY, upstream_node_id := 1,
    location := loc, priority := prio, active := true, last_wal_receive_lsn := 0 }

def healthy_sibling (id : Int) (prio : Int) (lsn : Nat) : SiblingProbe :=
  { node_info := standby_node id prio "default", conn_ok := true, repmgrd_pid := 4242,
    repl_info := some ⟨true, lsn, lsn, false, -1⟩, can_follow := false }

def primary_node : t_node_info :=
  { node_id := 1, node_name := "node1", type := .PRIMARY, upstream_node_id := -1,
    location := "default", priority := 100, active := true, last_wal_receive_lsn := 0 }

def three_node_env (self : Int) (lsn2 lsn3 : Nat) (p2 p3 : Int) : ElectionEnv :=
  { electoral_term := 1, failover := .FAILOVER_AUTOMATIC,
    local_node_info := standby_node self (if self = 2 then p2 else p3) "default",
    upstream_node_info := primary_node,
    nodes := [healthy_sibling 2 p2 lsn2, healthy_sibling 3 p3 lsn3],
    local_replication_info :=
      some ⟨true, if self = 2 then lsn2 else lsn3, if self = 2 then lsn2 else lsn3, false, -1⟩,
    resume_wal_replay := true,
    failover_validation_command := "", validation_run := ⟨true, 0⟩,
    primary_visibility_consensus := false, monitor_interval_secs := 2 }

/-! ## Vocabulary of the election properties -/

/-- What the electors compare of one standby: the values
`(last_wal_receive_lsn, priority, node_id)`. -/
structure StandbyFacts where
  node_id : Int
  priority : Int
  last_wal_receive_lsn : Nat
  deriving DecidableEq, Repr

/-- The election order of the specification: `a` comes before `b` when its
LSN is greater, or the LSNs are equal and its priority is greater, or both
are equal and its node id is lower. -/
def ahead_of (a b : StandbyFacts) : Prop :=
  a.last_wal_receive_lsn > b.last_wal_receive_lsn
    ∨ (a.last_wal_receive_lsn = b.last_wal_receive_lsn ∧ a.priority > b.priority)
    ∨ (a.last_wal_receive_lsn = b.last_wal_receive_lsn ∧ a.priority = b.priority
        ∧ a.node_id < b.node_id)

instance (a b : StandbyFacts) : Decidable (ahead_of a b) := by
  unfold ahead_of
  infer_instance

/-- The values an elector reads off a sibling: id and priority from its node
record, the LSN from its replication info. -/
def observed (s : SiblingProbe) : StandbyFacts :=
  { node_id := s.node_info.node_id
    priority := s.node_info.priority
    last_wal_receive_lsn :=
      match s.repl_info with
      | some ri => ri.last_wal_receive_lsn
      | none => 0 }

/-- A sibling that is reachable, has repmgrd running, is not a witness,
delivers its replication info, is in recovery and has not seen the primary
within the last `2 * monitor_interval_secs` seconds. -/
def healthy_standby (monitor_interval_secs : Int) (s : SiblingProbe) : Bool :=
  s.conn_ok && decide (s.repmgrd_pid ≠ UNKNOWN_PID)
    && decide (s.node_info.type ≠ t_server_type.WITNESS)
    && match s.repl_info with
       | some ri =>
         ri.in_recovery
           && !decide (ri.upstream_last_seen ≥ 0
                ∧ ri.upstream_last_seen < monitor_interval_secs * 2)
       | none => false

/-- The elector reads its own replication info and finds the given LSN. -/
def local_lsn_observed (env : ElectionEnv) (lsn : Nat) : Bool :=
  match env.local_replication_info with
  | some lri => decide (lri.last_wal_receive_lsn = lsn)
  | none => false

/-- WAL replay on the elector is not paused, or `resume_wal_replay`
succeeds. -/
def wal_replay_resumable (env : ElectionEnv) : Bool :=
  match env.local_replication_info with
  | some lri => !lri.wal_replay_paused || env.resume_wal_replay
  | none => true

/-- The conditions that the specification's convergence property lists for
the election `env` run by member `x` of the group `group` of standbys: `x`
is the local node, in the primary's location, with no validation command,
and its sibling list shows, in some order, exactly the other members of the
group, all healthy, with the same values as everybody else sees. -/
structure StatedElectorView (group : List StandbyFacts) (x : StandbyFacts)
    (env : ElectionEnv) : Prop where
  no_validation_command : env.failover_validation_command = ""
  self_id : env.local_node_info.node_id = x.node_id
  self_priority : env.local_node_info.priority = x.priority
  self_location : env.upstream_node_info.location = env.local_node_info.location
  self_observed : local_lsn_observed env x.last_wal_receive_lsn = true
  siblings_healthy :
    ∀ s ∈ get_active_sibling_node_records env.nodes env.local_node_info.node_id
        env.upstream_node_info.node_id,
      healthy_standby env.monitor_interval_secs s = true
  siblings_observed :
    ((get_active_sibling_node_records env.nodes env.local_node_info.node_id
        env.upstream_node_info.node_id).map observed).Perm (group.erase x)

/-- The stated conditions together with the gates that `do_election` tests
before it looks at any sibling: the electoral term is readable, the node is
in automatic failover mode, and WAL replay is running or resumed. -/
structure ElectorView (group : List StandbyFacts) (x : StandbyFacts) (env : ElectionEnv)
    extends StatedElectorView group x env : Prop where
  term_readable : env.electoral_term ≠ -1
  automatic : env.failover = t_failover_mode.FAILOVER_AUTOMATIC
  replay_resumable : wal_replay_resumable env = true

/-- Scenario 1 of the specification: the standbys 2 and 3, both at LSN 200
with priority 100. -/
def two_standbys : List StandbyFacts := [⟨2, 100, 200⟩, ⟨3, 100, 200⟩]

/-- The sibling list that `do_election` reads for the election `env`. -/
abbrev election_siblings (env : ElectionEnv) : List SiblingProbe :=
  get_active_sibling_node_records env.nodes env.local_node_info.node_id
    env.upstream_node_info.node_id

/-- The number of nodes reachable to the elector: itself plus the siblings
it can connect to. -/
def reachable_nodes (env : ElectionEnv) : Nat :=
  1 + ((election_siblings env).filter (fun s => s.conn_ok)).length

/-- The number of nodes of the election: the active siblings plus one. -/
def total_nodes (env : ElectionEnv) : Nat := (election_siblings env).length + 1

/-- The value `⌈n / 2⌉`. -/
def ceil_half (n : Nat) : Nat := (n + 1) / 2

/-- The gates of `do_election` that stand before the sibling loop, for a
node with at least one sibling: the electoral term is readable, failover is
automatic, the priority is positive, the local replication info is
available, and WAL replay is not paused or is resumed. -/
def reaches_sibling_loop (env : ElectionEnv) : Bool :=
  decide (env.electoral_term ≠ -1)
    && decide (env.failover ≠ t_failover_mode.FAILOVER_MANUAL)
    && decide (0 < env.local_node_info.priority)
    && !(election_siblings env).isEmpty
    && env.local_replication_info.isSome
    && wal_replay_resumable env

/-- A daemon state at the start of a failover. -/
def idle_state (node : t_node_info) : DaemonState :=
  { electoral_term := 1, failover_state := .FAILOVER_STATE_NONE,
    monitoring_state := .MS_NORMAL, local_node_info := node,
    upstream_node_status := .NODE_STATUS_DOWN, actions := [] }

/-- A sibling that cannot be reached. -/
def unreachable_sibling (id : Int) (prio : Int) : SiblingProbe :=
  { node_info := standby_node id prio "default", conn_ok := false, repmgrd_pid := UNKNOWN_PID,
    repl_info := none, can_follow := false }

/-- Scenario 4 of the specification: five nodes, the candidate (node 2)
sees only itself and one sibling (node 3) out of four siblings. -/
def minority_env : ElectionEnv :=
  { electoral_term := 1, failover := .FAILOVER_AUTOMATIC,
    local_node_info := standby_node 2 100 "default",
    upstream_node_info := primary_node,
    nodes := [healthy_sibling 2 100 200, healthy_sibling 3 100 200, unreachable_sibling 4 100,
      unreachable_sibling 5 100, unreachable_sibling 6 100],
    local_replication_info := some ⟨true, 200, 200, false, -1⟩,
    resume_wal_replay := true,
    failover_validation_command := "", validation_run := ⟨true, 0⟩,
    primary_visibility_consensus := false, monitor_interval_secs := 2 }

/-- A promote command that succeeds. -/
def promote_ok : PromoteEnv :=
  { promote_delay := 0, failed_primary := some primary_node, promote_command_status := 0,
    local_conn_ok := true, local_reconnect_ok := true, primary_conn_ok := false,
    primary_node_id := UNKNOWN_NODE_ID,
    own_record := some { standby_node 2 100 "default" with type := .PRIMARY } }

/-- A failover environment around an election: the promote command would
succeed, a follow would succeed, and `notification` is what the wait for a
notification delivers. -/
def failover_env (election : ElectionEnv) (notification : Option Int) : FailoverEnv :=
  { election := election, promote := promote_ok, check_vip_conf := false,
    notification := notification,
    follow_new_primary := fun _ => .FAILOVER_STATE_FOLLOWED_NEW_PRIMARY,
    new_primary_record_found := true, election_rerun_interval := 15 }

/-! ## Vocabulary of the split-brain properties -/

/-- A peer that `check_BS` counts as another primary: it is reachable, it is
neither the local node nor a witness, and it reports recovery type
PRIMARY. -/
def is_other_primary (local_node_id : Int) (p : PeerProbe) : Bool :=
  p.conn_ok && decide (p.node_info.node_id ≠ local_node_id)
    && decide (p.node_info.type ≠ t_server_type.WITNESS)
    && decide (p.recovery_type = RecoveryType.RECTYPE_PRIMARY)

/-- A node record for a registered primary. -/
def primary_record (id : Int) (prio : Int) : t_node_info :=
  { node_id := id, node_name := "node", type := .PRIMARY, upstream_node_id := -1,
    location := "default", priority := prio, active := true, last_wal_receive_lsn := 0 }

/-- A reachable peer that runs as primary on timeline `tli`, with a readable
node record and a working replication connection. -/
def primary_peer (id : Int) (prio : Int) (tli : Nat) : PeerProbe :=
  { node_info := primary_record id prio, conn_ok := true,
    recovery_type := .RECTYPE_PRIMARY, record_found := true, repl_conn_ok := true,
    identify_system := some tli }

/-- A reachable peer that runs as standby. -/
def standby_peer (id : Int) (prio : Int) (tli : Nat) : PeerProbe :=
  { node_info := { primary_record id prio with type := .STANDBY, upstream_node_id := 1 },
    conn_ok := true, recovery_type := .RECTYPE_STANDBY, record_found := true,
    repl_conn_ok := true, identify_system := some tli }

/-- Scenario 6 of the specification: nodes 1 and 4 are both primary, on
timeline 7 with priority 100; the list holds every registered node, the
local one included. -/
def two_primaries : List PeerProbe := [primary_peer 1 100 7, primary_peer 4 100 7]

/-- Scenario 7 of the specification: three nodes are primary at once. -/
def three_primaries : List PeerProbe :=
  [primary_peer 1 100 7, primary_peer 2 100 7, primary_peer 3 100 7]

/-- A promote command that returns a non-zero status (for instance because
it timed out) while the original primary stays away. -/
def promote_timed_out : PromoteEnv := { promote_ok with promote_command_status := 256 }

/-- The daemon state of node 2 after `do_primary_failover` in scenario 1 of
the specification (node 2 wins the election) when the promote command
returns a non-zero status. -/
def promotion_failed_state : DaemonState :=
  (do_primary_failover
    { failover_env (three_node_env 2 200 200 100 100) none with promote := promote_timed_out }
    (idle_state (standby_node 2 100 "default"))).1

/-- What the next degraded-monitoring pass of node 2 finds when the
promotion did in fact complete: the local node is out of recovery. -/
def promoted_after_all : DegradedLocalEnv :=
  { local_recovery_type := .RECTYPE_PRIMARY
    nodes := [healthy_sibling 2 100 200, healthy_sibling 3 100 200]
    own_record := some { standby_node 2 100 "default" with type := .PRIMARY } }

/-- Node 2 of the three-node cluster with priority 0, in automatic failover
mode. -/
def zero_priority_env : ElectionEnv :=
  { three_node_env 2 200 200 100 100 with local_node_info := standby_node 2 0 "default" }

/-- Node 2 sits in location "dc2" while the failed primary and the reachable
sibling 3 (at a lower LSN) are in location "default". -/
def other_location_env : ElectionEnv :=
  { three_node_env 2 200 150 100 100 with local_node_info := standby_node 2 100 "dc2" }

/-- Node 2 sits in location "dc2" and has no sibling at all. -/
def sole_other_location_env : ElectionEnv :=
  { three_node_env 2 200 150 100 100 with
    local_node_info := standby_node 2 100 "dc2"
    nodes := [healthy_sibling 2 100 200] }

/-- Node 2 and its only sibling 3 both sit in location "dc2", away from the
failed primary. -/
def split_location_env : ElectionEnv :=
  { three_node_env 2 200 150 100 100 with
    local_node_info := standby_node 2 100 "dc2"
    nodes :=
      [healthy_sibling 2 100 200,
        { healthy_sibling 3 100 150 with node_info := standby_node 3 100 "dc2" }] }

/-- The loop body of `do_election` ends the election at this sibling: it is
reachable, repmgrd runs on it, its replication info is read, it is not in
recovery and `check_node_can_follow` accepts it. -/
def ends_election (s : SiblingProbe) : Bool :=
  s.conn_ok && decide (s.repmgrd_pid ≠ UNKNOWN_PID)
    && match s.repl_info with
       | some ri => !ri.in_recovery && s.can_follow
       | none => false

/-- The cells that the sibling loop of `do_election` visits: all of the
list, or the cells up to the one at which the loop returns. -/
def loop_visited : List SiblingProbe → List SiblingProbe
  | [] => []
  | s :: rest => if ends_election s = true then [s] else s :: loop_visited rest

/-- The siblings that a run of `do_election` probes: none when it returns
before the sibling loop, else the cells that the loop visits. -/
def probed_siblings (env : ElectionEnv) : List SiblingProbe :=
  if reaches_sibling_loop env = true then loop_visited (election_siblings env) else []

/-- The lowest valid node id (`MIN_NODE_ID` of `repmgr.h`). -/
def MIN_NODE_ID : Int := 1

/-- A reachable sibling that has left recovery (it was promoted outside of
the failover mechanism) and that the local node can follow. -/
def promoted_sibling (id : Int) (prio : Int) (lsn : Nat) : SiblingProbe :=
  { node_info := standby_node id prio "default", conn_ok := true, repmgrd_pid := 4242,
    repl_info := some ⟨false, lsn, lsn, false, -1⟩, can_follow := true }

/-- Node 2 of a three-node cluster finds its sibling 3 out of recovery. -/
def detour_env : ElectionEnv :=
  { three_node_env 2 200 200 100 100 with
    nodes := [healthy_sibling 2 100 200, promoted_sibling 3 100 200] }

/-- The node that `do_election` has selected when it reaches its final
decision: the local node on the fast path of a node without siblings in the
primary's location, the loop's candidate when the loop ran to its end and
none of the three cancelling tests fired, and `none` when the election
returned before. -/
def selected_candidate (env : ElectionEnv) : Option t_node_info :=
  if env.electoral_term = -1 then none
  else if env.failover = t_failover_mode.FAILOVER_MANUAL then none
  else if env.local_node_info.priority ≤ 0 then none
  else if (election_siblings env).length = 0 then
    if env.upstream_node_info.location = env.local_node_info.location then
      some env.local_node_info
    else none
  else
    match env.local_replication_info with
    | none => none
    | some local_replication_info =>
      if local_replication_info.wal_replay_paused = true ∧ env.resume_wal_replay = false then
        none
      else
        match election_loop env.upstream_node_info.location env.monitor_interval_secs
            (election_loop_init env local_replication_info) (election_siblings env) with
        | .error _ => none
        | .ok st =>
          if st.primary_location_seen = false then none
          else if st.nodes_with_primary_still_visible > 0
              ∧ env.primary_visibility_consensus = true then none
          else if 2 * st.visible_nodes ≤ ((election_siblings env).length : Int) + 1 then none
          else some st.candidate_node

/-- Node 2 alone (no sibling) in the primary's location, with a
`failover_validation_command` whose run ends as `run` says. -/
def validated_env (run : LocalCommandRun) : ElectionEnv :=
  { three_node_env 2 200 200 100 100 with
    nodes := [healthy_sibling 2 100 200]
    failover_validation_command := "/usr/local/bin/validate %n %a"
    validation_run := run }

/-- The state of `do_primary_failover` right after the election, for a node
that lost or is not a candidate: `failover_state` is
FAILOVER_STATE_WAITING_NEW_PRIMARY and `monitoring_state` is what the
election left. -/
def waiting_state (env : FailoverEnv) (st : DaemonState) : DaemonState :=
  { after_election env st with failover_state := .FAILOVER_STATE_WAITING_NEW_PRIMARY }

/-- The state that `do_primary_failover` has resolved to when it enters its
final `switch (failover_state)`, with the sibling list held at that point;
`none` is the early return of a cancelled election without a new
primary. -/
def failover_before_resolve (env : FailoverEnv) (st : DaemonState) :
    Option (DaemonState × List SiblingProbe) :=
  let e := do_election env.election st.monitoring_state UNKNOWN_NODE_ID
  let st1 : DaemonState := after_election env st
  match failover_election_dispatch env e st1 with
  | none => none
  | some st2 => some (failover_follow_or_wait env e.sibling_nodes e.new_primary_id st2)

/-- Node 3 of the three-node cluster in manual failover mode. -/
def manual_env : ElectionEnv :=
  { three_node_env 3 200 200 100 100 with failover := .FAILOVER_MANUAL }

/-- Everything `follow_new_primary` reads from its surroundings. -/
structure FollowEnv where
  /-- Whether the record of the new primary is found through `local_conn` -/
  new_primary_record_found : Bool
  /-- Whether the record of the failed primary is found through `local_conn` -/
  failed_primary_record_found : Bool
  /-- Whether the connection to the new primary is `CONNECTION_OK` -/
  new_primary_conn_ok : Bool
  /-- Recovery type that the new primary reports -/
  new_primary_recovery_type : RecoveryType
  /-- Return value of `system (parsed_follow_command)` -/
  follow_command_status : Int
  /-- Whether the connection to the old primary is `CONNECTION_OK` -/
  old_primary_conn_ok : Bool
  /-- Recovery type that the old primary reports -/
  old_primary_recovery_type : RecoveryType
  /-- Whether the new primary's record is found on the new primary -/
  upstream_record_found : Bool
  /-- Whether the local node's record is found on the new primary -/
  local_record_found : Bool
  /-- Whether the local node is reached again within
  `repmgrd_standby_startup_timeout` attempts -/
  local_reconnect_ok : Bool
  deriving DecidableEq, Repr

/-- The return value of the function `follow_new_primary`. -/
def follow_new_primary (env : FollowEnv) : FailoverState :=
  if env.new_primary_record_found = false then .FAILOVER_STATE_FOLLOW_FAIL
  else if env.failed_primary_record_found = false then .FAILOVER_STATE_FOLLOW_FAIL
  else if ¬ (env.new_primary_conn_ok = true
      ∧ env.new_primary_recovery_type = RecoveryType.RECTYPE_PRIMARY) then
    .FAILOVER_STATE_FOLLOW_FAIL
  else if env.follow_command_status ≠ 0 then
    if env.old_primary_conn_ok = true
        ∧ env.old_primary_recovery_type = RecoveryType.RECTYPE_PRIMARY then
      .FAILOVER_STATE_PRIMARY_REAPPEARED
    else .FAILOVER_STATE_FOLLOW_FAIL
  else if env.upstream_record_found = false then .FAILOVER_STATE_FOLLOW_FAIL
  else if env.local_record_found = false then .FAILOVER_STATE_FOLLOW_FAIL
  else if env.local_reconnect_ok = false then .FAILOVER_STATE_FOLLOW_FAIL
  else .FAILOVER_STATE_FOLLOWED_NEW_PRIMARY

/-- The follow results of a failover environment are those of the function
`follow_new_primary` in some surroundings. -/
def follows_as_coded (env : FailoverEnv) : Prop :=
  ∃ f : Int → FollowEnv, ∀ id, env.follow_new_primary id = follow_new_primary (f id)

/-- The number of values of an unsigned 64-bit integer (`XLogRecPtr`,
`long long unsigned int`). -/
def UINT64_SIZE : Nat := 18446744073709551616

/-- Subtraction of two unsigned 64-bit integers as C performs it, with
wrap-around. -/
def sub_uint64 (a b : Nat) : Nat := (a + UINT64_SIZE - b % UINT64_SIZE) % UINT64_SIZE

/-- What `update_monitoring_history` reads from its surroundings. -/
structure MonitoringEnv where
  /-- Whether `PQstatus (primary_conn) == CONNECTION_OK` -/
  primary_conn_ok : Bool
  /-- Whether `PQstatus (local_conn) == CONNECTION_OK` -/
  local_conn_ok : Bool
  /-- Value that `get_replication_info (local_conn, STANDBY, ...)` delivers,
  `none` when it returns false -/
  replication_info : Option ReplInfo
  /-- Value of `get_primary_current_lsn (primary_conn)` -/
  primary_last_wal_location : Nat
  deriving DecidableEq, Repr

/-- The LSN and lag arguments that `update_monitoring_history` hands to
`add_monitoring_record`. -/
structure MonitoringRecord where
  primary_last_wal_location : Nat
  last_wal_receive_lsn : Nat
  replication_lag_bytes : Nat
  apply_lag_bytes : Nat
  deriving DecidableEq, Repr

/-- The function `update_monitoring_history`: the row it writes, `none`
when it returns without writing. -/
def update_monitoring_history (env : MonitoringEnv) : Option MonitoringRecord :=
  if env.primary_conn_ok = false then none
  else if env.local_conn_ok = false then none
  else
    match env.replication_info with
    | none => none
    | some replication_info =>
      let primary_last_wal_location := env.primary_last_wal_location
      if primary_last_wal_location = InvalidXLogRecPtr then none
      else
        let apply_lag_bytes :=
          if replication_info.last_wal_receive_lsn ≥ replication_info.last_wal_replay_lsn then
            sub_uint64 replication_info.last_wal_receive_lsn replication_info.last_wal_replay_lsn
          else 0
        let replication_lag_bytes :=
          if primary_last_wal_location ≥ replication_info.last_wal_receive_lsn then
            sub_uint64 primary_last_wal_location replication_info.last_wal_receive_lsn
          else 0
        some
          { primary_last_wal_location := primary_last_wal_location
            last_wal_receive_lsn := replication_info.last_wal_receive_lsn
            replication_lag_bytes := replication_lag_bytes
            apply_lag_bytes := apply_lag_bytes }

/-! ## Failover on a witness -/

/-- The routines whose calls are traced on the failover path of a witness. -/
inductive DaemonCall
  | do_election
  | promote_self
  | wait_primary_notification
  | witness_follow_new_primary (new_primary_id : Int)
  | update_node_record_set_upstream (node_id : Int) (upstream_node_id : Int)
  | witness_copy_node_records
  | create_event_notification (event : String)
  deriving DecidableEq, Repr

/-- What `witness_follow_new_primary` reads from its surroundings. -/
structure WitnessFollowEnv where
  /-- Whether `get_node_record (local_conn, new_primary_id, &new_primary)` is `RECORD_FOUND` -/
  new_primary_record_found : Bool
  /-- Whether `PQstatus (upstream_conn) == CONNECTION_OK` for the new primary -/
  upstream_conn_ok : Bool
  /-- Value of `get_recovery_type (upstream_conn)` -/
  primary_recovery_type : RecoveryType
  /-- Whether `get_node_record (upstream_conn, new_primary_id, &upstream_node_info)` is
  `RECORD_FOUND` -/
  upstream_record_found : Bool
  /-- Whether `get_node_record (upstream_conn, local_node_info.node_id, &local_node_info)`
  is `RECORD_FOUND` -/
  local_record_found : Bool
  deriving DecidableEq, Repr

/-- The function `witness_follow_new_primary`: its return value and the
calls it makes, for the local node `local_node_id`. -/
def witness_follow_new_primary (env : WitnessFollowEnv) (local_node_id new_primary_id : Int) :
    FailoverState × List DaemonCall :=
  if env.new_primary_record_found = false then
    (.FAILOVER_STATE_FOLLOW_FAIL, [])
  else
    let new_primary_ok : Bool :=
      if env.upstream_conn_ok = true then
        match env.primary_recovery_type with
        | .RECTYPE_PRIMARY => true
        | .RECTYPE_STANDBY => false
        | .RECTYPE_UNKNOWN => false
      else false
    if new_primary_ok = false then
      (.FAILOVER_STATE_FOLLOW_FAIL, [])
    else
      let calls : List DaemonCall :=
        [.update_node_record_set_upstream local_node_id new_primary_id,
          .witness_copy_node_records]
      if env.upstream_record_found = false then
        (.FAILOVER_STATE_FOLLOW_FAIL, calls)
      else if env.local_record_found = false then
        (.FAILOVER_STATE_FOLLOW_FAIL, calls)
      else
        (.FAILOVER_STATE_FOLLOWED_NEW_PRIMARY,
          calls ++ [.create_event_notification "repmgrd_failover_follow"])

/-- What `do_witness_failover` reads from its surroundings. -/
structure WitnessFailoverEnv where
  /-- Value or call of `wait_primary_notification`: the id received, `none` on a timeout -/
  notification : Option Int
  /-- Value of `upstream_node_info.node_id` -/
  upstream_node_id : Int
  /-- Value of `local_node_info.node_id` -/
  local_node_id : Int
  /-- What `witness_follow_new_primary` finds -/
  follow : WitnessFollowEnv
  deriving DecidableEq, Repr

/-- What `do_witness_failover` leaves behind: `reached` is the value of
`failover_state` at the `switch`, `failover_state` the value on return. -/
structure WitnessFailoverOutcome where
  reached : FailoverState
  failover_state : FailoverState
  monitoring_state : MonitoringState
  result : Bool
  calls : List DaemonCall
  deriving DecidableEq, Repr

/-- The first half of `do_witness_failover`, up to the `switch`: the failover
state reached, the monitoring state and the calls made. -/
def witness_failover_wait (env : WitnessFailoverEnv) (monitoring_state : MonitoringState) :
    FailoverState × MonitoringState × List DaemonCall :=
  match env.notification with
  | some new_primary_id =>
    if new_primary_id = env.upstream_node_id then
      (.FAILOVER_STATE_FOLLOWING_ORIGINAL_PRIMARY, monitoring_state,
        [.wait_primary_notification])
    else
      let r := witness_follow_new_primary env.follow env.local_node_id new_primary_id
      (r.1, monitoring_state,
        [.wait_primary_notification, .witness_follow_new_primary new_primary_id] ++ r.2)
  | none =>
    (.FAILOVER_STATE_NO_NEW_PRIMARY, .MS_DEGRADED, [.wait_primary_notification])

/-- The function `do_witness_failover`. -/
def do_witness_failover (env : WitnessFailoverEnv) (monitoring_state : MonitoringState) :
    WitnessFailoverOutcome :=
  let w := witness_failover_wait env monitoring_state
  match w.1 with
  | .FAILOVER_STATE_PRIMARY_REAPPEARED =>
    { reached := w.1, failover_state := .FAILOVER_STATE_NONE, monitoring_state := w.2.1,
      result := true, calls := w.2.2 }
  | .FAILOVER_STATE_FOLLOWED_NEW_PRIMARY =>
    { reached := w.1, failover_state := .FAILOVER_STATE_NONE, monitoring_state := w.2.1,
      result := true, calls := w.2.2 }
  | .FAILOVER_STATE_FOLLOWING_ORIGINAL_PRIMARY =>
    { reached := w.1, failover_state := .FAILOVER_STATE_NONE, monitoring_state := w.2.1,
      result := true, calls := w.2.2 }
  | .FAILOVER_STATE_FOLLOW_FAIL =>
    { reached := w.1, failover_state := w.1, monitoring_state := .MS_DEGRADED,
      result := false, calls := w.2.2 }
  | _ =>
    { reached := w.1, failover_state := w.1, monitoring_state := .MS_DEGRADED,
      result := false, calls := w.2.2 }

/-- A new primary that answers as a primary and holds both records. -/
def witness_follow_ok : WitnessFollowEnv :=
  { new_primary_record_found := true, upstream_conn_ok := true,
    primary_recovery_type := .RECTYPE_PRIMARY, upstream_record_found := true,
    local_record_found := true }

/-- Witness 9 of a cluster whose primary 1 failed, with what the wait for a
notification delivers; a follow would succeed. -/
def witness_env (notification : Option Int) : WitnessFailoverEnv :=
  { notification := notification, upstream_node_id := 1, local_node_id := 9,
    follow := witness_follow_ok }

/-- Witness 9 is told to follow node 3, a reachable primary which is not in
the witness's local copy of the node records. -/
def witness_stale_records_env : WitnessFailoverEnv :=
  { witness_env (some 3) with
    follow := { witness_follow_ok with new_primary_record_found := false } }

/-! ## Degraded monitoring timeout -/

/-- How a pass through the `if (monitoring_state == MS_DEGRADED)` block of a
monitoring loop ends: at the end of the block, with `goto loop`, with a
`return` from the monitoring function, or with `terminate (code)`. -/
inductive BlockExit
  | falls_through
  | goto_loop
  | returns
  | terminates (code : ExitCode)
  deriving DecidableEq, Repr

/-- What the degraded block of `monitor_streaming_primary` reads. -/
structure PrimaryDegradedEnv where
  /-- Value of `config_file_options.degraded_monitoring_timeout` -/
  degraded_monitoring_timeout : Int
  /-- Value of `calculate_elapsed (degraded_monitoring_start)` -/
  degraded_monitoring_elapsed : Int
  /-- Value of `is_server_available (local_node_info.conninfo)` -/
  local_server_available : Bool
  /-- Whether `PQstatus (local_conn) == CONNECTION_OK` after reconnecting -/
  local_conn_ok : Bool
  /-- Value of `check_primary_status (degraded_monitoring_elapsed)` -/
  check_primary_status : Bool
  deriving DecidableEq, Repr

/-- The degraded block of `monitor_streaming_primary` (lines 464-520). -/
def monitor_streaming_primary_degraded_block (env : PrimaryDegradedEnv)
    (monitoring_state : MonitoringState) : BlockExit :=
  if monitoring_state = .MS_DEGRADED then
    if env.degraded_monitoring_timeout > 0
        ∧ env.degraded_monitoring_elapsed > env.degraded_monitoring_timeout then
      .terminates .ERR_MONITORING_TIMEOUT
    else if env.local_server_available = true then
      if env.local_conn_ok = false then .falls_through
      else if env.check_primary_status = false then .returns
      else .goto_loop
    else .falls_through
  else .falls_through

/-- What the degraded block of `monitor_streaming_standby` reads;
`no_upstream_exit` is how the branch taken when the upstream node cannot be
reached (lines 1410 and following) leaves the block. -/
structure StandbyDegradedEnv where
  /-- Value of `config_file_options.degraded_monitoring_timeout` -/
  degraded_monitoring_timeout : Int
  /-- Value of `calculate_elapsed (degraded_monitoring_start)` -/
  degraded_monitoring_elapsed : Int
  /-- Value of `check_upstream_connection (&upstream_conn, ...)` -/
  upstream_check : Bool
  /-- Whether `PQstatus (upstream_conn) == CONNECTION_OK` -/
  upstream_conn_ok : Bool
  no_upstream_exit : BlockExit
  deriving DecidableEq, Repr

/-- The degraded block of `monitor_streaming_standby` (from `DEGRADED_LABEL`). -/
def monitor_streaming_standby_degraded_block (env : StandbyDegradedEnv)
    (monitoring_state : MonitoringState) : BlockExit :=
  if monitoring_state = .MS_DEGRADED then
    if env.degraded_monitoring_timeout > 0
        ∧ env.degraded_monitoring_elapsed > env.degraded_monitoring_timeout then
      .terminates .ERR_MONITORING_TIMEOUT
    else if env.upstream_check = true then
      if env.upstream_conn_ok = true then .goto_loop else .falls_through
    else env.no_upstream_exit
  else .falls_through

/-- What the degraded block of `monitor_streaming_witness` has at hand. The
block reads `degraded_monitoring_elapsed` for its log line only, and does not
read `degraded_monitoring_timeout`. -/
structure WitnessDegradedEnv where
  /-- Value of `config_file_options.degraded_monitoring_timeout` -/
  degraded_monitoring_timeout : Int
  /-- Value of `calculate_elapsed (degraded_monitoring_start)` -/
  degraded_monitoring_elapsed : Int
  /-- Value of `check_upstream_connection (&primary_conn, ...)` -/
  upstream_check : Bool
  /-- Whether `PQstatus (primary_conn) == CONNECTION_OK` -/
  primary_conn_ok : Bool
  /-- Value of `get_recovery_type (primary_conn)` -/
  primary_recovery_type : RecoveryType
  /-- Value of `local_node_info.node_id` -/
  local_node_id : Int
  /-- The list filled by `get_active_sibling_node_records`, with what each node answers -/
  sibling_nodes : List PeerProbe
  /-- What `witness_follow_new_primary` finds -/
  follow : WitnessFollowEnv
  deriving DecidableEq, Repr

/-- The scan of the sibling nodes in the degraded block of
`monitor_streaming_witness`: the value of `follow_node_id` after the loop. -/
def witness_scan_new_primary (local_node_id : Int) : List PeerProbe → Int
  | [] => UNKNOWN_NODE_ID
  | cell :: rest =>
    if cell.node_info.node_id = local_node_id then
      witness_scan_new_primary local_node_id rest
    else if cell.node_info.type = t_server_type.WITNESS then
      witness_scan_new_primary local_node_id rest
    else if cell.conn_ok = false then
      witness_scan_new_primary local_node_id rest
    else if get_recovery_type cell = RecoveryType.RECTYPE_PRIMARY then
      cell.node_info.node_id
    else
      witness_scan_new_primary local_node_id rest

/-- The degraded block of `monitor_streaming_witness` (lines 2053-2160):
how it ends and the calls it makes. The return value of
`witness_follow_new_primary` is not used. -/
def monitor_streaming_witness_degraded_block (env : WitnessDegradedEnv)
    (monitoring_state : MonitoringState) : BlockExit × List DaemonCall :=
  if monitoring_state = .MS_DEGRADED then
    if env.upstream_check = true then
      if env.primary_conn_ok = true then
        if env.primary_recovery_type ≠ RecoveryType.RECTYPE_PRIMARY then (.returns, [])
        else (.goto_loop, [.create_event_notification "repmgrd_upstream_reconnect"])
      else (.falls_through, [])
    else
      let follow_node_id := witness_scan_new_primary env.local_node_id env.sibling_nodes
      if follow_node_id ≠ UNKNOWN_NODE_ID then
        (.falls_through,
          DaemonCall.witness_follow_new_primary follow_node_id
            :: (witness_follow_new_primary env.follow env.local_node_id follow_node_id).2)
      else (.falls_through, [])
  else (.falls_through, [])

/-- A primary whose local node has been unreachable for 100 seconds, with
`degraded_monitoring_timeout` set to 10 seconds. -/
def timed_out_primary : PrimaryDegradedEnv :=
  { degraded_monitoring_timeout := 10, degraded_monitoring_elapsed := 100,
    local_server_available := false, local_conn_ok := false, check_primary_status := false }

/-- A standby whose upstream has been unreachable for 100 seconds, with
`degraded_monitoring_timeout` set to 10 seconds. -/
def timed_out_standby : StandbyDegradedEnv :=
  { degraded_monitoring_timeout := 10, degraded_monitoring_elapsed := 100,
    upstream_check := false, upstream_conn_ok := false, no_upstream_exit := .falls_through }

/-- Witness 9 whose primary has been unreachable for 100 seconds, with
`degraded_monitoring_timeout` set to 10 seconds; the only sibling, standby 2,
is unreachable as well. -/
def timed_out_witness : WitnessDegradedEnv :=
  { degraded_monitoring_timeout := 10, degraded_monitoring_elapsed := 100,
    upstream_check := false, primary_conn_ok := false,
    primary_recovery_type := .RECTYPE_UNKNOWN, local_node_id := 9,
    sibling_nodes := [⟨standby_node 2 100 "default", false, .RECTYPE_UNKNOWN, false, false, none⟩],
    follow := witness_follow_ok }

/-! ## The failover validation command template -/

/-- The character at `src_ptr[i]` of the C string `template`: the bytes of
the string are followed by the terminating NUL. -/
def char_at (template : List Char) (i : Nat) : Char :=
  (template ++ ['\x00']).getD i '\x00'

/-- The text that `appendPQExpBuffer (out, "%i", node_id)` appends. -/
def format_int (node_id : Int) : List Char := (toString node_id).toList

/-- The loop of `parse_failover_validation_command`, with `src_ptr` the
offset of the pointer into `template` and `out` the buffer so far; `fuel`
bounds the number of passes, and the result is `none` when it runs out. -/
def parse_failover_validation_command_loop (template : List Char) (node_info : t_node_info) :
    Nat → Nat → List Char → Option (List Char)
  | 0, _, _ => none
  | fuel + 1, src_ptr, out =>
    if char_at template src_ptr = '\x00' then some out
    else if char_at template src_ptr = '%' then
      if char_at template (src_ptr + 1) = '%' then
        parse_failover_validation_command_loop template node_info fuel (src_ptr + 1 + 1)
          (out ++ [char_at template (src_ptr + 1)])
      else if char_at template (src_ptr + 1) = 'n' then
        parse_failover_validation_command_loop template node_info fuel (src_ptr + 1 + 1)
          (out ++ format_int node_info.node_id)
      else if char_at template (src_ptr + 1) = 'a' then
        parse_failover_validation_command_loop template node_info fuel (src_ptr + 1 + 1)
          (out ++ node_info.node_name.toList)
      else
        parse_failover_validation_command_loop template node_info fuel (src_ptr + 1)
          (out ++ [char_at template src_ptr])
    else
      parse_failover_validation_command_loop template node_info fuel (src_ptr + 1)
        (out ++ [char_at template src_ptr])

/-- The function `parse_failover_validation_command`, started on an empty
buffer: every pass of the loop moves `src_ptr` forward, so one pass more than
the template has characters is fuel enough. -/
def parse_failover_validation_command (template : List Char) (node_info : t_node_info) :
    Option (List Char) :=
  parse_failover_validation_command_loop template node_info (template.length + 1) 0 []

/-- The substitution as the specification words it: read from left to right,
each `%%` becomes `%`, each `%n` the node id in decimal, each `%a` the node
name, and every other character is copied. -/
def substitute_placeholders (node_info : t_node_info) : List Char → List Char
  | [] => []
  | [c] => [c]
  | c :: d :: rest =>
    if c = '%' ∧ d = '%' then '%' :: substitute_placeholders node_info rest
    else if c = '%' ∧ d = 'n' then
      format_int node_info.node_id ++ substitute_placeholders node_info rest
    else if c = '%' ∧ d = 'a' then
      node_info.node_name.toList ++ substitute_placeholders node_info rest
    else c :: substitute_placeholders node_info (d :: rest)

/-! ## The cluster matrix -/

/-- One cell of the cluster matrix: the node connected to and the status of
the connection (`-2` unknown, `-1` down, `0` up). -/
structure t_node_status_rec where
  node_id : Int
  node_status : Int
  deriving DecidableEq, Repr

/-- One row of the cluster matrix: the node connecting and its cells. -/
structure t_node_matrix_rec where
  node_id : Int
  node_name : String
  node_status_list : List t_node_status_rec
  deriving DecidableEq, Repr

/-- The inner loop of `matrix_set_node_status`: the first cell for
`connection_node_id` gets the status. -/
def set_node_status (connection_node_id connection_status : Int) :
    List t_node_status_rec → List t_node_status_rec
  | [] => []
  | rec :: rest =>
    if rec.node_id = connection_node_id then
      { rec with node_status := connection_status } :: rest
    else rec :: set_node_status connection_node_id connection_status rest

/-- The function `matrix_set_node_status`: in the first row for `node_id`,
the first cell for `connection_node_id` gets the status. -/
def matrix_set_node_status :
    List t_node_matrix_rec → Int → Int → Int → List t_node_matrix_rec
  | [], _, _, _ => []
  | row :: rest, node_id, connection_node_id, connection_status =>
    if row.node_id = node_id then
      { row with
        node_status_list :=
          set_node_status connection_node_id connection_status row.node_status_list } :: rest
    else row :: matrix_set_node_status rest node_id connection_node_id connection_status

/-- What `sscanf (p, "%d,%d", &x, &y)` finds at the start of a line: both
numbers (return value 2), the first number only (return value 1, `x`
assigned), or nothing (return value 0 or EOF, `x` left as it was). -/
inductive ScanResult
  | both (x : Int) (y : Int)
  | first_only (x : Int)
  | nothing
  deriving DecidableEq, Repr

/-- One node of the list read by `get_all_node_records`, with what
`build_cluster_matrix` finds for it: `conn_ok` says that the connection to
the node is `CONNECTION_OK`, `output_empty` that the output of the remote
`cluster show --csv` starts with NUL or a newline, `output` is what `sscanf`
finds on each successive line of that output, and `x_initial` is the value
the variable `x` holds before the first `sscanf`. -/
structure MatrixNodeProbe where
  node_id : Int
  node_name : String
  conn_ok : Bool
  output_empty : Bool
  output : List ScanResult
  x_initial : Int
  deriving DecidableEq, Repr

/-- What `build_cluster_matrix` reads: the local node id and the node
records (`none` when `get_all_node_records` fails). -/
structure MatrixEnv where
  local_node_id : Int
  nodes : Option (List MatrixNodeProbe)
  deriving DecidableEq, Repr

/-- The first loop of `build_cluster_matrix`: one row per node, one cell per
node, every status `-2`. -/
def init_matrix (nodes : List MatrixNodeProbe) : List t_node_matrix_rec :=
  nodes.map fun cell =>
    { node_id := cell.node_id, node_name := cell.node_name,
      node_status_list :=
        nodes.map fun cell_j => { node_id := cell_j.node_id, node_status := -2 } }

/-- The loop over the lines of the remote output in `build_cluster_matrix`:
`remaining` passes are left, `lines` is what `sscanf` finds from `p` on (past
the end of the output it finds nothing) and `x` the current value of the
variable `x`. -/
def parse_cluster_show (connection_node_id : Int) :
    Nat → List ScanResult → Int → List t_node_matrix_rec → List t_node_matrix_rec
  | 0, _, _, matrix_rec_list => matrix_rec_list
  | remaining + 1, lines, x, matrix_rec_list =>
    match lines.headD ScanResult.nothing with
    | .both x1 y =>
      parse_cluster_show connection_node_id remaining lines.tail x1
        (matrix_set_node_status matrix_rec_list connection_node_id x1 (if y = -1 then -1 else 0))
    | .first_only x1 =>
      parse_cluster_show connection_node_id remaining lines.tail x1
        (matrix_set_node_status matrix_rec_list connection_node_id x1 (-2))
    | .nothing =>
      parse_cluster_show connection_node_id remaining lines.tail x
        (matrix_set_node_status matrix_rec_list connection_node_id x (-2))

/-- The second loop of `build_cluster_matrix`, over the cells still to
visit; `node_count` is `nodes.node_count`. -/
def fill_matrix (local_node_id : Int) (node_count : Nat) :
    List MatrixNodeProbe → List t_node_matrix_rec → List t_node_matrix_rec
  | [], matrix_rec_list => matrix_rec_list
  | cell :: rest, matrix_rec_list =>
    let connection_node_id := cell.node_id
    let connection_status : Int := if cell.conn_ok = true then 0 else -1
    let matrix_rec_list :=
      matrix_set_node_status matrix_rec_list local_node_id connection_node_id connection_status
    if connection_status ≠ 0 then
      fill_matrix local_node_id node_count rest matrix_rec_list
    else if connection_node_id = local_node_id then
      fill_matrix local_node_id node_count rest matrix_rec_list
    else if cell.output_empty = true then
      fill_matrix local_node_id node_count rest matrix_rec_list
    else
      fill_matrix local_node_id node_count rest
        (parse_cluster_show connection_node_id node_count cell.output cell.x_initial
          matrix_rec_list)

/-- The function `build_cluster_matrix`: the matrix it builds, or the exit
code with which it ends the program. -/
def build_cluster_matrix (env : MatrixEnv) : Except ExitCode (List t_node_matrix_rec) :=
  match env.nodes with
  | none => .error .ERR_BAD_CONFIG
  | some nodes =>
    if nodes.length = 0 then .error .ERR_BAD_CONFIG
    else .ok (fill_matrix env.local_node_id nodes.length nodes (init_matrix nodes))

/-- The line that `printf ("%d,%d,%d\n", ...)` prints, without the newline. -/
def csv_line (source_id target_id status : Int) : String :=
  String.mk (format_int source_id ++ [','] ++ format_int target_id ++ [','] ++ format_int status)

/-- The lines that the CSV loops of `do_cluster_matrix` print for a matrix. -/
def print_matrix_csv : List t_node_matrix_rec → List String
  | [] => []
  | row :: rest =>
    row.node_status_list.map (fun rec => csv_line row.node_id rec.node_id rec.node_status)
      ++ print_matrix_csv rest

/-- The lines that `do_cluster_matrix` prints with `--csv`: none when
`build_cluster_matrix` ends the program. -/
def do_cluster_matrix (env : MatrixEnv) : List String :=
  match build_cluster_matrix env with
  | .error _ => []
  | .ok matrix_rec_list => print_matrix_csv matrix_rec_list

/-- A status that the matrix may hold: `-2` unknown, `-1` down, `0` up. -/
def valid_status (status : Int) : Prop := status = -2 ∨ status = -1 ∨ status = 0

/-- A matrix over the node ids `ids`: one row per id, in each row one cell
per id, and a valid status in every cell. -/
def matrix_over (ids : List Int) (matrix_rec_list : List t_node_matrix_rec) : Prop :=
  matrix_rec_list.map (fun row => row.node_id) = ids
    ∧ ∀ row ∈ matrix_rec_list,
        row.node_status_list.map (fun rec => rec.node_id) = ids
          ∧ ∀ rec ∈ row.node_status_list, valid_status rec.node_status

/-- Three nodes seen from node 1: node 2 answers and reports node 3 down,
node 3 does not answer. -/
def matrix_env : MatrixEnv :=
  { local_node_id := 1,
    nodes := some
      [ { node_id := 1, node_name := "node1", conn_ok := true, output_empty := false,
          output := [], x_initial := 0 },
        { node_id := 2, node_name := "node2", conn_ok := true, output_empty := false,
          output := [.both 1 0, .both 2 0, .both 3 (-1)], x_initial := 0 },
        { node_id := 3, node_name := "node3", conn_ok := false, output_empty := true,
          output := [], x_initial := 0 } ] }

/-- Scenario 4 with an out-of-band promotion: the candidate (node 2) sees
only itself and sibling 3 out of four siblings, and sibling 3 has left
recovery and can be followed. -/
def minority_detour_env : ElectionEnv :=
  { minority_env with
    nodes := [healthy_sibling 2 100 200, promoted_sibling 3 100 200, unreachable_sibling 4 100,
      unreachable_sibling 5 100, unreachable_sibling 6 100] }

/-- The failover state that `do_primary_failover` has resolved to when it
enters its final `switch (failover_state)`; on the early return of a
cancelled election without a new primary it is FAILOVER_STATE_UNKNOWN, the
value assigned right after the election. -/
def resolved_failover_state (env : FailoverEnv) (st : DaemonState) : FailoverState :=
  match failover_before_resolve env st with
  | none => .FAILOVER_STATE_UNKNOWN
  | some r => r.1.failover_state

/-- Node 2 of the three-node cluster with a `failover_validation_command`
that exits with status 1. -/
def rerun_env : ElectionEnv :=
  { three_node_env 2 200 200 100 100 with
    failover_validation_command := "/usr/local/bin/validate %n %a"
    validation_run := ⟨true, 256⟩ }

/-! ## Can the local node follow a node? -/

/-- The fields of `t_system_identification` that `check_node_can_follow`
reads after `identify_system`. -/
structure t_system_identification where
  system_identifier : Nat
  timeline : Nat
  deriving DecidableEq, Repr

/-- The fields of a `TimeLineHistoryEntry`; `end_lsn` is the field `end`,
the LSN at which the timeline `tli` was left. -/
structure TimeLineHistoryEntry where
  tli : Nat
  end_lsn : Nat
  deriving DecidableEq, Repr

/-- What `check_node_can_follow` reads from its surroundings. -/
structure CanFollowEnv where
  /-- Whether `PQstatus (local_repl_conn) == CONNECTION_OK` -/
  local_repl_conn_ok : Bool
  /-- Value that `identify_system (local_repl_conn, ...)` delivers, `none` when it fails -/
  local_identification : Option t_system_identification
  /-- Whether `PQstatus (follow_target_repl_conn) == CONNECTION_OK` -/
  follow_target_repl_conn_ok : Bool
  /-- Value that `identify_system (follow_target_repl_conn, ...)` delivers, `none` when it
  fails -/
  follow_target_identification : Option t_system_identification
  /-- Value of `get_node_current_lsn (follow_target_conn)` -/
  follow_target_xlogpos : Nat
  /-- Value of `get_timeline_history (follow_target_repl_conn, tli)`, `none` for NULL -/
  get_timeline_history : Nat → Option TimeLineHistoryEntry

/-- The function `check_node_can_follow`, for the local position
`local_xlogpos`. -/
def check_node_can_follow (env : CanFollowEnv) (local_xlogpos : Nat) : Bool :=
  if env.local_repl_conn_ok = false then false
  else
    match env.local_identification with
    | none => false
    | some local_identification =>
      if env.follow_target_repl_conn_ok = false then false
      else
        match env.follow_target_identification with
        | none => false
        | some follow_target_identification =>
          if follow_target_identification.system_identifier
              ≠ local_identification.system_identifier then false
          else if follow_target_identification.timeline < local_identification.timeline then
            false
          else if follow_target_identification.timeline = local_identification.timeline then
            if local_xlogpos = InvalidXLogRecPtr
                ∨ env.follow_target_xlogpos = InvalidXLogRecPtr then false
            else if local_xlogpos ≤ env.follow_target_xlogpos then true
            else false
          else
            match env.get_timeline_history (local_identification.timeline + 1) with
            | none => false
            | some follow_target_history =>
              if local_xlogpos > follow_target_history.end_lsn then false else true

/-- A follow target on timeline 8 that left timeline 7 at LSN 5000, seen
from a local node on timeline 7 of the same cluster. -/
def forked_target_env : CanFollowEnv :=
  { local_repl_conn_ok := true, local_identification := some ⟨6912, 7⟩,
    follow_target_repl_conn_ok := true, follow_target_identification := some ⟨6912, 8⟩,
    follow_target_xlogpos := 9000,
    get_timeline_history := fun tli => if tli = 8 then some ⟨7, 5000⟩ else none }

/-! ## Is the local node still a primary? -/

/-- The value `NO_DEGRADED_MONITORING_ELAPSED`. -/
def NO_DEGRADED_MONITORING_ELAPSED : Int := -1

/-- Modelled from the spec: the type `RecordStatus` is declared in
`dbutils.h`, which is not part of the sources at hand. The code at hand
tests `!= RECORD_FOUND` and `== RECORD_NOT_FOUND` separately; `RECORD_ERROR`
stands for every status that is neither of the two. -/
inductive RecordStatus
  | RECORD_ERROR
  | RECORD_FOUND
  | RECORD_NOT_FOUND
  deriving DecidableEq, Repr

/-- What `check_primary_status` reads from its surroundings. -/
structure PrimaryStatusEnv where
  /-- Value of `get_recovery_type (local_conn)` -/
  recovery_type : RecoveryType
  /-- Whether `PQstatus (new_primary_conn) == CONNECTION_OK` after
  `get_primary_connection_quiet` -/
  new_primary_conn_ok : Bool
  /-- Value of `get_node_record (new_primary_conn, node_id, &local_node_info)` -/
  record_status : RecordStatus
  /-- Value of `local_node_info.type` after that call -/
  local_node_type : t_server_type
  /-- Value of `update_node_record_set_active_standby (new_primary_conn, node_id)` -/
  update_ok : Bool
  /-- Value of the second `get_node_record (new_primary_conn, node_id, &local_node_info)` -/
  refreshed_record_status : RecordStatus
  deriving DecidableEq, Repr

/-- How a call of `check_primary_status` ends: with a return value, or with
`terminate (code)`. -/
inductive PrimaryStatusResult
  | returns (resume_primary_monitoring : Bool)
  | terminates (code : ExitCode)
  deriving DecidableEq, Repr

/-- What a call of `check_primary_status` leaves: how it ends, the monitoring
state, and the events it emits. -/
structure PrimaryStatusOutcome where
  result : PrimaryStatusResult
  monitoring_state : MonitoringState
  events : List String
  deriving DecidableEq, Repr

/-- The function `check_primary_status`. -/
def check_primary_status (env : PrimaryStatusEnv) (degraded_monitoring_elapsed : Int)
    (monitoring_state : MonitoringState) : PrimaryStatusOutcome :=
  if env.recovery_type = RecoveryType.RECTYPE_UNKNOWN then
    ⟨.returns true, monitoring_state, []⟩
  else if env.recovery_type = RecoveryType.RECTYPE_PRIMARY then
    if degraded_monitoring_elapsed ≠ NO_DEGRADED_MONITORING_ELAPSED then
      ⟨.returns true, .MS_NORMAL, ["repmgrd_local_reconnect"]⟩
    else
      ⟨.returns true, monitoring_state, []⟩
  else if env.new_primary_conn_ok = false then
    ⟨.returns true, monitoring_state, []⟩
  else if env.record_status = RecordStatus.RECORD_NOT_FOUND then
    ⟨.terminates .ERR_BAD_CONFIG, monitoring_state, ["repmgrd_shutdown"]⟩
  else
    let resume_monitoring : Bool :=
      if env.local_node_type = t_server_type.PRIMARY then
        if env.update_ok = false then false
        else if env.refreshed_record_status ≠ RecordStatus.RECORD_FOUND then false
        else true
      else true
    if resume_monitoring = true then
      if degraded_monitoring_elapsed ≠ NO_DEGRADED_MONITORING_ELAPSED then
        ⟨.returns false, .MS_NORMAL, ["repmgrd_standby_reconnect"]⟩
      else
        ⟨.returns false, monitoring_state, ["repmgrd_standby_reconnect"]⟩
    else
      ⟨.returns true, monitoring_state, []⟩

/-- The former primary has come back as a standby while no other node can be
reached as primary. -/
def standby_without_primary : PrimaryStatusEnv :=
  { recovery_type := .RECTYPE_STANDBY, new_primary_conn_ok := false,
    record_status := .RECORD_NOT_FOUND, local_node_type := .PRIMARY, update_ok := false,
    refreshed_record_status := .RECORD_NOT_FOUND }

/-- The former primary has come back as a standby of a reachable new primary
that holds its record, already as a standby. -/
def standby_of_new_primary : PrimaryStatusEnv :=
  { recovery_type := .RECTYPE_STANDBY, new_primary_conn_ok := true,
    record_status := .RECORD_FOUND, local_node_type := .STANDBY, update_ok := true,
    refreshed_record_status := .RECORD_FOUND }

/-! ## The synchronous standby setting -/

/-- The first loop of `only_one_sync_node`: `remaining` passes are left, `i`
is the index and `r` the flag so far. -/
def sync_names_has_paren (sync_names : List Char) : Nat → Nat → Bool → Bool
  | 0, _, r => r
  | remaining + 1, i, r =>
    if char_at sync_names i = '(' then
      sync_names_has_paren sync_names remaining (i + 1) true
    else
      sync_names_has_paren sync_names remaining (i + 1) r

/-- The second loop of `only_one_sync_node`: the value of `one_sync` when the
loop is left, with `remaining` passes left and `i` the index. -/
def sync_names_scan (sync_names : List Char) (r : Bool) : Nat → Nat → Bool
  | 0, _ => true
  | remaining + 1, i =>
    if r = false then true
    else if char_at sync_names i = '(' then true
    else if char_at sync_names i > '1' ∧ char_at sync_names i ≤ '9' then false
    else sync_names_scan sync_names r remaining (i + 1)

/-- The function `only_one_sync_node`; both loops run for `i` from 0 to `len`
inclusive. -/
def only_one_sync_node (sync_names : List Char) : Bool :=
  let len := sync_names.length
  if len = 0 then false
  else
    let r := sync_names_has_paren sync_names (len + 1) 0 false
    sync_names_scan sync_names r (len + 1) 0

/-! ## The wait for the siblings' WAL receivers -/

/-- The inner loop of the wait in `do_primary_failover`, over the values of
`get_wal_receiver_pid` for the sibling nodes in one round: the flag
`sibling_node_wal_receiver_connected` after the round. -/
def poll_sibling_wal_receivers : List Int → Bool → Bool
  | [], sibling_node_wal_receiver_connected => sibling_node_wal_receiver_connected
  | sibling_wal_receiver_pid :: rest, sibling_node_wal_receiver_connected =>
    if sibling_wal_receiver_pid = UNKNOWN_PID then
      poll_sibling_wal_receivers rest sibling_node_wal_receiver_connected
    else if sibling_wal_receiver_pid > 0 then
      poll_sibling_wal_receivers rest true
    else
      poll_sibling_wal_receivers rest sibling_node_wal_receiver_connected

/-- What the wait has done when it is left: the number of polling rounds,
the number of calls of `sleep (1)`, and the flag. -/
structure SiblingWaitOutcome where
  rounds : Nat
  sleeps : Nat
  sibling_node_wal_receiver_connected : Bool
  deriving DecidableEq, Repr

/-- The outer loop of the wait in `do_primary_failover`,
`for (i = 0; i < sibling_nodes_disconnect_timeout; i++)`, with `remaining`
the number of values of `i` still to come and `pids i` what the siblings
report in round `i`. The flag is declared before the loop and is not reset
in it. -/
def wait_sibling_wal_receivers (pids : Nat → List Int) :
    Nat → Nat → Bool → SiblingWaitOutcome
  | 0, i, sibling_node_wal_receiver_connected => ⟨i, i, sibling_node_wal_receiver_connected⟩
  | remaining + 1, i, sibling_node_wal_receiver_connected =>
    let connected := poll_sibling_wal_receivers (pids i) sibling_node_wal_receiver_connected
    if connected = false then
      ⟨i + 1, i, connected⟩
    else
      wait_sibling_wal_receivers pids remaining (i + 1) connected

/-- The wait of `do_primary_failover` for a given
`sibling_nodes_disconnect_timeout`; the election follows in every case. -/
def sibling_wal_receiver_wait (sibling_nodes_disconnect_timeout : Int) (pids : Nat → List Int) :
    SiblingWaitOutcome :=
  wait_sibling_wal_receivers pids sibling_nodes_disconnect_timeout.toNat 0 false

/-- A round in which no sibling reports a running WAL receiver. -/
def no_receiver_running (round : List Int) : Bool := round.all (fun pid => decide (pid ≤ 0))

/-- One sibling whose WAL receiver (PID 4711) is still running in the first
round and gone from the second round on. -/
def receiver_stops_after_first_round : Nat → List Int :=
  fun i => if i = 0 then [4711] else [0]

/-! ## `sysutils.c`: disabling and enabling the WAL receiver -/

/-- The value `WALRECEIVER_DISABLE_TIMEOUT_VALUE`, in milliseconds. -/
def WALRECEIVER_DISABLE_TIMEOUT_VALUE : Int := 86400000

/-- What `disable_wal_receiver` and `enable_wal_receiver` find on the
connection, apart from the setting itself. -/
structure WalReceiverEnv where
  /-- Value of `is_superuser_connection (conn, NULL)` -/
  is_superuser : Bool
  /-- Value of `get_recovery_type (conn)` -/
  recovery_type : RecoveryType
  /-- Value of the first `get_wal_receiver_pid (conn)` -/
  wal_receiver_pid : Int
  /-- Value of `get_pg_setting (conn, "wal_retrieve_retry_interval", buf)` -/
  get_pg_setting_ok : Bool
  /-- Value of `atoi (buf)` when `get_pg_setting` did not fill the buffer -/
  unset_buf : Int
  /-- Value of `alter_system_int (conn, "wal_retrieve_retry_interval", ...)` -/
  alter_system_ok : Bool
  /-- Values of `get_wal_receiver_pid (conn)` after each round of killing -/
  pids_after_kill : List Int
  /-- Values of `get_wal_receiver_pid (conn)` in each round of the wait for startup -/
  pids_at_startup : List Int
  deriving DecidableEq, Repr

/-- The loop `for (i = 0; i < max_retries; i++)` of `disable_wal_receiver`:
the value of `wal_receiver_pid` when it is left. -/
def kill_wal_receiver : Nat → List Int → Int → Int
  | 0, _, wal_receiver_pid => wal_receiver_pid
  | remaining + 1, pids, _ =>
    let wal_receiver_pid := pids.headD UNKNOWN_PID
    if wal_receiver_pid = UNKNOWN_PID ∨ wal_receiver_pid = 0 then wal_receiver_pid
    else kill_wal_receiver remaining pids.tail wal_receiver_pid

/-- The function `disable_wal_receiver`, for the current value `setting` of
`wal_retrieve_retry_interval`: the PID it returns and the value of the
setting afterwards. The sum is used only below
`WALRECEIVER_DISABLE_TIMEOUT_VALUE`, where an `int` holds it. -/
def disable_wal_receiver (env : WalReceiverEnv) (setting : Int) : Int × Int :=
  if env.is_superuser = false then (UNKNOWN_PID, setting)
  else if env.recovery_type = RecoveryType.RECTYPE_PRIMARY then (UNKNOWN_PID, setting)
  else
    let wal_receiver_pid := env.wal_receiver_pid
    if wal_receiver_pid = UNKNOWN_PID then (UNKNOWN_PID, setting)
    else
      let wal_retrieve_retry_interval :=
        if env.get_pg_setting_ok = true then setting else env.unset_buf
      let new_wal_retrieve_retry_interval :=
        wal_retrieve_retry_interval + WALRECEIVER_DISABLE_TIMEOUT_VALUE
      let setting1 :=
        if wal_retrieve_retry_interval < WALRECEIVER_DISABLE_TIMEOUT_VALUE then
          if env.alter_system_ok = true then new_wal_retrieve_retry_interval else setting
        else setting
      if wal_receiver_pid = 0 then (UNKNOWN_PID, setting1)
      else (kill_wal_receiver 2 env.pids_after_kill wal_receiver_pid, setting1)

/-- The loop `for (i = 0; i < timeout; i++)` of `enable_wal_receiver`: the
value of `wal_receiver_pid` when it is left. -/
def wait_wal_receiver_startup : Nat → List Int → Int → Int
  | 0, _, wal_receiver_pid => wal_receiver_pid
  | remaining + 1, pids, _ =>
    let wal_receiver_pid := pids.headD UNKNOWN_PID
    if wal_receiver_pid > 0 then wal_receiver_pid
    else wait_wal_receiver_startup remaining pids.tail wal_receiver_pid

/-- The function `enable_wal_receiver`, for the current value `setting` of
`wal_retrieve_retry_interval`: the PID it returns and the value of the
setting afterwards. -/
def enable_wal_receiver (env : WalReceiverEnv) (wait_startup : Bool) (setting : Int) :
    Int × Int :=
  if env.is_superuser = false then (UNKNOWN_PID, setting)
  else if env.recovery_type = RecoveryType.RECTYPE_PRIMARY then (UNKNOWN_PID, setting)
  else if env.get_pg_setting_ok = false then (UNKNOWN_PID, setting)
  else
    let wal_retrieve_retry_interval := setting
    if wal_retrieve_retry_interval > WALRECEIVER_DISABLE_TIMEOUT_VALUE
        ∧ env.alter_system_ok = false then
      (UNKNOWN_PID, setting)
    else
      let setting1 :=
        if wal_retrieve_retry_interval > WALRECEIVER_DISABLE_TIMEOUT_VALUE then
          wal_retrieve_retry_interval - WALRECEIVER_DISABLE_TIMEOUT_VALUE
        else setting
      if wait_startup = false then (UNKNOWN_PID, setting1)
      else
        let wal_receiver_pid := wait_wal_receiver_startup 30 env.pids_at_startup UNKNOWN_PID
        if wal_receiver_pid = UNKNOWN_PID then (UNKNOWN_PID, setting1)
        else if wal_receiver_pid = 0 then (UNKNOWN_PID, setting1)
        else (wal_receiver_pid, setting1)

/-- A standby reached with a superuser connection on which every statement
succeeds; its WAL receiver runs with PID `pid` and is gone after the first
kill. -/
def standby_conn (pid : Int) : WalReceiverEnv :=
  { is_superuser := true, recovery_type := .RECTYPE_STANDBY, wal_receiver_pid := pid,
    get_pg_setting_ok := true, unset_buf := 0, alter_system_ok := true,
    pids_after_kill := [0], pids_at_startup := [4712] }

/-! # Properties -/

/-! ## The state after the election -/

@[simp]
theorem after_election_actions (env : FailoverEnv) (st : DaemonState) :
    (after_election env st).actions = st.actions := rfl

@[simp]
theorem after_election_failover_state (env : FailoverEnv) (st : DaemonState) :
    (after_election env st).failover_state = .FAILOVER_STATE_UNKNOWN := rfl

@[simp]
theorem after_election_monitoring_state (env : FailoverEnv) (st : DaemonState) :
    (after_election env st).monitoring_state
      = (do_election env.election st.monitoring_state UNKNOWN_NODE_ID).monitoring_state := rfl

@[simp]
theorem after_election_electoral_term (env : FailoverEnv) (st : DaemonState) :
    (after_election env st).electoral_term = st.electoral_term := rfl

@[simp]
theorem after_election_upstream_node_status (env : FailoverEnv) (st : DaemonState) :
    (after_election env st).upstream_node_status = st.upstream_node_status := rfl

@[simp]
theorem after_election_node_id (env : FailoverEnv) (st : DaemonState) :
    (after_election env st).local_node_info.node_id = st.local_node_info.node_id := rfl

@[simp]
theorem after_election_type (env : FailoverEnv) (st : DaemonState) :
    (after_election env st).local_node_info.type = st.local_node_info.type := rfl

theorem election_loop_body_candidate (loc : String) (mis : Int) (st st1 : ElectionLoopState)
    (s : SiblingProbe) (h : election_loop_body loc mis st s = .ok st1) :
    st1.candidate_node =
      match compared_sibling s with
      | some c => if replaces_candidate c st.candidate_node = true then c else st.candidate_node
      | none => st.candidate_node := by
  unfold election_loop_body at h
  unfold compared_sibling
  rcases s with ⟨ni, conn, pid, ri, cf⟩
  cases conn <;> simp at h ⊢
  · rw [← h]
  · by_cases hpid : pid = UNKNOWN_PID
    · simp [hpid] at h ⊢; rw [← h]
    · simp [hpid] at h ⊢
      cases ri with
      | none => simp at h ⊢; rw [← h]
      | some ri =>
        simp at h ⊢
        by_cases hrec : ri.in_recovery = true
        · simp [hrec] at h ⊢
          by_cases hw : ni.type = t_server_type.WITNESS
          · simp [hw] at h ⊢; rw [← h]; split <;> rfl
          · simp [hw] at h ⊢
            by_cases hp : ni.priority ≤ 0
            · simp [hp] at h ⊢
              have : ¬ (0 < ni.priority) := by omega
              simp [this]; rw [← h]; split <;> rfl
            · have hp2 : 0 < ni.priority := by omega
              simp [hp, hp2] at h ⊢
              split at h <;> split at h <;> simp_all <;> rw [← h]
        · simp at hrec
          simp [hrec] at h ⊢
          cases cf <;> simp at h
          rw [← h]

theorem compared_sibling_node_id (s : SiblingProbe) (c : t_node_info)
    (h : compared_sibling s = some c) : c.node_id = s.node_info.node_id := by
  unfold compared_sibling at h
  split at h
  · split at h
    · simp at h
    · split at h
      · simp at h; rw [← h]
      · simp at h
  · simp at h

theorem election_loop_never_replaced (loc : String) (mis : Int) (x : Int) :
    ∀ (l : List SiblingProbe) (st st1 : ElectionLoopState),
      election_loop loc mis st l = .ok st1 →
      (∀ s ∈ l, s.node_info.node_id ≠ x) →
      st1.candidate_node.node_id = x →
      st1.candidate_node = st.candidate_node ∧
        ∀ s ∈ l, ∀ c, compared_sibling s = some c →
          replaces_candidate c st.candidate_node = false := by
  intro l
  induction l with
  | nil =>
    intro st st1 h _ _
    simp [election_loop] at h
    simp [h]
  | cons s rest ih =>
    intro st st1 h hid hx
    simp only [election_loop] at h
    cases hb : election_loop_body loc mis st s with
    | error e => simp [hb] at h
    | ok st2 =>
      simp [hb] at h
      have hrest := ih st2 st1 h (fun s hs => hid s (List.mem_cons_of_mem _ hs)) hx
      have hc := election_loop_body_candidate loc mis st st2 s hb
      cases hcs : compared_sibling s with
      | none =>
        simp [hcs] at hc
        rw [hc] at hrest
        refine ⟨hrest.1, ?_⟩
        intro s' hs' c hc'
        rcases List.mem_cons.mp hs' with rfl | hmem
        · rw [hcs] at hc'; simp at hc'
        · exact hrest.2 s' hmem c hc'
      | some c =>
        simp [hcs] at hc
        by_cases hr : replaces_candidate c st.candidate_node = true
        · exfalso
          simp [hr] at hc
          have h1 : st1.candidate_node.node_id = c.node_id := by rw [hrest.1, hc]
          have h2 := compared_sibling_node_id s c hcs
          exact hid s (List.mem_cons_self _ _) (by rw [← h2, ← h1, hx])
        · simp [hr] at hc
          rw [hc] at hrest
          refine ⟨hrest.1, ?_⟩
          intro s' hs' c' hc'
          rcases List.mem_cons.mp hs' with rfl | hmem
          · rw [hcs] at hc'
            simp at hc'
            subst hc'
            simpa using hr
          · exact hrest.2 s' hmem c' hc'

theorem mem_get_active_sibling_node_records (nodes : List SiblingProbe) (node_id up : Int)
    (s : SiblingProbe) (h : s ∈ get_active_sibling_node_records nodes node_id up) :
    s ∈ nodes ∧ s.node_info.active = true ∧ s.node_info.upstream_node_id = up
      ∧ s.node_info.node_id ≠ node_id := by
  unfold get_active_sibling_node_records at h
  simp [List.mem_filter] at h
  tauto

/-- What a run of `do_election` that ends in WON or RERUN went through when
the node has siblings: the local replication info was read, the loop ran to
its end, and none of the three cancelling tests fired. -/
theorem do_election_won_rerun_inv (env : ElectionEnv) (ms : MonitoringState) (npi : Int)
    (h : (do_election env ms npi).result = .ELECTION_WON
      ∨ (do_election env ms npi).result = .ELECTION_RERUN) :
    env.electoral_term ≠ -1 ∧ env.failover ≠ t_failover_mode.FAILOVER_MANUAL
      ∧ 0 < env.local_node_info.priority ∧
    ((get_active_sibling_node_records env.nodes env.local_node_info.node_id
          env.upstream_node_info.node_id = []
        ∧ env.upstream_node_info.location = env.local_node_info.location) ∨
      ∃ lri st,
        env.local_replication_info = some lri ∧
        election_loop env.upstream_node_info.location env.monitor_interval_secs
          (election_loop_init env lri)
          (get_active_sibling_node_records env.nodes env.local_node_info.node_id
            env.upstream_node_info.node_id) = .ok st ∧
        st.primary_location_seen = true ∧
        ¬ (st.nodes_with_primary_still_visible > 0 ∧ env.primary_visibility_consensus = true) ∧
        ¬ (2 * st.visible_nodes ≤
            ((get_active_sibling_node_records env.nodes env.local_node_info.node_id
              env.upstream_node_info.node_id).length : Int) + 1) ∧
        st.candidate_node.node_id = env.local_node_info.node_id) := by
  unfold do_election at h
  split at h
  · simp at h
  split at h
  · simp at h
  split at h
  · simp at h
  rename_i h1 h2 h3
  refine ⟨h1, h2, by omega, ?_⟩
  simp only at h
  split at h
  · rename_i h4
    left
    refine ⟨List.length_eq_zero.mp h4, ?_⟩
    by_contra hloc
    simp [hloc] at h
  · right
    split at h
    · simp at h
    · rename_i lri hlri
      split at h
      · simp at h
      · split at h
        · simp at h
        · rename_i st hst
          refine ⟨lri, st, hlri, hst, ?_⟩
          split at h
          · simp at h
          split at h
          · simp at h
          split at h
          · simp at h
          split at h
          · rename_i a b c d
            refine ⟨by simpa using a, b, c, d⟩
          · simp at h

/-- C1. Whenever `do_election` returns ELECTION_WON for the local node X,
every sibling S of the election's sibling list that is reachable, has
priority > 0, has a known repmgrd PID, delivered its replication info, is in
recovery and is not a witness is dominated by X: X's last receive LSN (the
one read at the start of the election) is greater, or the LSNs are equal
and X's priority is greater, or LSNs and priorities are equal and X's node
id is lower. -/
theorem do_election_winner_dominates_siblings (env : ElectionEnv) (ms : MonitoringState)
    (npi : Int) (S : SiblingProbe) (ri : ReplInfo)
    (hwon : (do_election env ms npi).result = ElectionResult.ELECTION_WON)
    (hS : S ∈ get_active_sibling_node_records env.nodes env.local_node_info.node_id
      env.upstream_node_info.node_id)
    (hconn : S.conn_ok = true)
    (hprio : S.node_info.priority > 0)
    (hpid : S.repmgrd_pid ≠ UNKNOWN_PID)
    (hri : S.repl_info = some ri)
    (hrec : ri.in_recovery = true)
    (hwit : S.node_info.type ≠ t_server_type.WITNESS) :
    ∃ lri, env.local_replication_info = some lri ∧
      (lri.last_wal_receive_lsn > ri.last_wal_receive_lsn
        ∨ (lri.last_wal_receive_lsn = ri.last_wal_receive_lsn
            ∧ env.local_node_info.priority > S.node_info.priority)
        ∨ (lri.last_wal_receive_lsn = ri.last_wal_receive_lsn
            ∧ env.local_node_info.priority = S.node_info.priority
            ∧ env.local_node_info.node_id < S.node_info.node_id)) := by
  obtain ⟨_, _, _, hcase⟩ := do_election_won_rerun_inv env ms npi (Or.inl hwon)
  rcases hcase with ⟨hnil, _⟩ | ⟨lri, st, hlri, hloop, _, _, _, hcand⟩
  · rw [hnil] at hS
    simp at hS
  · refine ⟨lri, hlri, ?_⟩
    have hids : ∀ s ∈ get_active_sibling_node_records env.nodes env.local_node_info.node_id
        env.upstream_node_info.node_id, s.node_info.node_id ≠ env.local_node_info.node_id :=
      fun s hs => (mem_get_active_sibling_node_records _ _ _ s hs).2.2.2
    have hkeep := election_loop_never_replaced _ _ env.local_node_info.node_id _ _ _ hloop
      hids hcand
    have hcmp : compared_sibling S
        = some { S.node_info with last_wal_receive_lsn := ri.last_wal_receive_lsn } := by
      unfold compared_sibling
      simp [hconn, hpid, hri, hrec, hwit, hprio]
    have hno := hkeep.2 S hS _ hcmp
    have hne := hids S hS
    unfold replaces_candidate at hno
    simp only [election_loop_init] at hno
    split at hno
    · simp at hno
    · rename_i hlt
      split at hno
      · rename_i heq
        split at hno
        · simp at hno
        · rename_i hp
          split at hno
          · rename_i hpe
            simp at hno
            right; right
            refine ⟨heq.symm, hpe.symm, by omega⟩
          · rename_i hpe
            right; left
            exact ⟨heq.symm, by omega⟩
      · rename_i hneq
        left
        simp at hlt hneq
        omega



/-- Witness for C1: node 3 at LSN 200 wins against node 2 at LSN 150. -/
theorem do_election_winner_dominates_siblings_witness :
    ∃ lri, (three_node_env 3 150 200 100 100).local_replication_info = some lri ∧
      (lri.last_wal_receive_lsn > 150
        ∨ (lri.last_wal_receive_lsn = 150
            ∧ (three_node_env 3 150 200 100 100).local_node_info.priority
              > (healthy_sibling 2 100 150).node_info.priority)
        ∨ (lri.last_wal_receive_lsn = 150
            ∧ (three_node_env 3 150 200 100 100).local_node_info.priority
              = (healthy_sibling 2 100 150).node_info.priority
            ∧ (three_node_env 3 150 200 100 100).local_node_info.node_id
              < (healthy_sibling 2 100 150).node_info.node_id)) :=
  do_election_winner_dominates_siblings (three_node_env 3 150 200 100 100) .MS_NORMAL (-1)
    (healthy_sibling 2 100 150) ⟨true, 150, 150, false, -1⟩
    (by decide) (by decide) (by decide) (by decide) (by decide) rfl rfl (by decide)

theorem ahead_of_trans (a b c : StandbyFacts) (h1 : ahead_of a b) (h2 : ahead_of b c) :
    ahead_of a c := by
  unfold ahead_of at *
  omega

theorem ahead_of_total (a b : StandbyFacts) (h : a.node_id ≠ b.node_id) :
    ahead_of a b ∨ ahead_of b a := by
  unfold ahead_of
  omega

theorem ahead_of_asymm (a b : StandbyFacts) (h : ahead_of a b) : ¬ ahead_of b a := by
  unfold ahead_of at *
  omega

/-- The candidate comparison of the loop is the election order. -/
theorem replaces_candidate_iff (c d : t_node_info) :
    replaces_candidate c d = true ↔
      ahead_of ⟨c.node_id, c.priority, c.last_wal_receive_lsn⟩
        ⟨d.node_id, d.priority, d.last_wal_receive_lsn⟩ := by
  unfold replaces_candidate ahead_of
  simp only
  split_ifs <;> simp <;> omega

/-- A finite group of standbys with pairwise distinct ids has a member that
is ahead of all others. -/
theorem exists_best (l : List StandbyFacts) (hne : l ≠ [])
    (hnd : (l.map StandbyFacts.node_id).Nodup) :
    ∃ w ∈ l, ∀ y ∈ l, y ≠ w → ahead_of w y := by
  induction l with
  | nil => exact absurd rfl hne
  | cons a rest ih =>
    simp only [List.map_cons, List.nodup_cons] at hnd
    by_cases hrest : rest = []
    · subst hrest
      exact ⟨a, by simp, by simp⟩
    · obtain ⟨w, hw, hbest⟩ := ih hrest hnd.2
      have hid : a.node_id ≠ w.node_id := by
        intro h
        exact hnd.1 (by rw [h]; exact List.mem_map_of_mem _ hw)
      rcases ahead_of_total a w hid with h | h
      · refine ⟨a, by simp, ?_⟩
        intro y hy hya
        rcases List.mem_cons.mp hy with rfl | hyr
        · exact absurd rfl hya
        · by_cases hyw : y = w
          · subst hyw; exact h
          · exact ahead_of_trans _ _ _ h (hbest y hyr hyw)
      · refine ⟨w, List.mem_cons_of_mem _ hw, ?_⟩
        intro y hy hyw
        rcases List.mem_cons.mp hy with rfl | hyr
        · exact h
        · exact hbest y hyr hyw

theorem election_loop_body_healthy (loc : String) (mis : Int) (st : ElectionLoopState)
    (s : SiblingProbe) (h : healthy_standby mis s = true) :
    ∃ st1, election_loop_body loc mis st s = .ok st1
      ∧ st1.visible_nodes = st.visible_nodes + 1
      ∧ (st.primary_location_seen = true → st1.primary_location_seen = true)
      ∧ st1.nodes_with_primary_still_visible = st.nodes_with_primary_still_visible := by
  rcases s with ⟨ni, conn, pid, ri, cf⟩
  unfold healthy_standby at h
  cases ri with
  | none => simp at h
  | some ri =>
    simp only [Bool.and_eq_true, decide_eq_true_eq, Bool.not_eq_true'] at h
    obtain ⟨⟨⟨hconn, hpid⟩, hw⟩, hrec, huls⟩ := h
    simp only [decide_eq_false_iff_not] at huls
    unfold election_loop_body
    simp only [hconn, hpid, hrec, hw, huls]
    simp only [Bool.true_eq_false, if_false, if_true]
    split
    · exact ⟨_, rfl, rfl, by intro h; simp [h], rfl⟩
    · split
      · exact ⟨_, rfl, rfl, by intro h; simp [h], rfl⟩
      · exact ⟨_, rfl, rfl, by intro h; simp [h], rfl⟩

theorem election_loop_healthy (loc : String) (mis : Int) :
    ∀ (l : List SiblingProbe) (st : ElectionLoopState),
      (∀ s ∈ l, healthy_standby mis s = true) →
      ∃ st1, election_loop loc mis st l = .ok st1
        ∧ st1.visible_nodes = st.visible_nodes + l.length
        ∧ (st.primary_location_seen = true → st1.primary_location_seen = true)
        ∧ st1.nodes_with_primary_still_visible = st.nodes_with_primary_still_visible := by
  intro l
  induction l with
  | nil =>
    intro st _
    exact ⟨st, rfl, by simp, id, rfl⟩
  | cons s rest ih =>
    intro st h
    obtain ⟨st1, hb, hv, hp, hn⟩ :=
      election_loop_body_healthy loc mis st s (h s (List.mem_cons_self _ _))
    obtain ⟨st2, hl, hv2, hp2, hn2⟩ := ih st1 (fun s hs => h s (List.mem_cons_of_mem _ hs))
    refine ⟨st2, ?_, ?_, fun h => hp2 (hp h), by rw [hn2, hn]⟩
    · simp only [election_loop, hb]
      exact hl
    · rw [hv2, hv]
      simp only [List.length_cons]
      push_cast
      ring

theorem election_loop_keeps_candidate (loc : String) (mis : Int) :
    ∀ (l : List SiblingProbe) (st st1 : ElectionLoopState),
      election_loop loc mis st l = .ok st1 →
      (∀ s ∈ l, ∀ c, compared_sibling s = some c →
        replaces_candidate c st.candidate_node = false) →
      st1.candidate_node = st.candidate_node := by
  intro l
  induction l with
  | nil =>
    intro st st1 h _
    simp [election_loop] at h
    rw [h]
  | cons s rest ih =>
    intro st st1 h hno
    simp only [election_loop] at h
    cases hb : election_loop_body loc mis st s with
    | error e => simp [hb] at h
    | ok st2 =>
      simp [hb] at h
      have hc := election_loop_body_candidate loc mis st st2 s hb
      have h2 : st2.candidate_node = st.candidate_node := by
        cases hcs : compared_sibling s with
        | none => simpa [hcs] using hc
        | some c =>
          have := hno s (List.mem_cons_self _ _) c hcs
          simpa [hcs, this] using hc
      have := ih st2 st1 h (by
        intro s' hs' c hc'
        rw [h2]
        exact hno s' (List.mem_cons_of_mem _ hs') c hc')
      rw [this, h2]

theorem compared_sibling_of_healthy (mis : Int) (s : SiblingProbe)
    (h : healthy_standby mis s = true) (hp : 0 < s.node_info.priority) :
    ∃ c, compared_sibling s = some c ∧ c.node_id = (observed s).node_id
      ∧ c.priority = (observed s).priority
      ∧ c.last_wal_receive_lsn = (observed s).last_wal_receive_lsn := by
  rcases s with ⟨ni, conn, pid, ri, cf⟩
  unfold healthy_standby at h
  cases ri with
  | none => simp at h
  | some ri =>
    simp only [Bool.and_eq_true, decide_eq_true_eq, Bool.not_eq_true'] at h
    obtain ⟨⟨⟨hconn, hpid⟩, hw⟩, hrec, _⟩ := h
    simp only at hp
    refine ⟨{ ni with last_wal_receive_lsn := ri.last_wal_receive_lsn }, ?_, rfl, rfl, rfl⟩
    unfold compared_sibling
    simp [hconn, hpid, hrec, hw, hp]

/-- The tests that follow the sibling loop of `do_election`, as a function
of the loop's final state. -/
theorem do_election_after_loop (env : ElectionEnv) (ms : MonitoringState) (npi : Int)
    (lri : ReplInfo) (st : ElectionLoopState)
    (hterm : env.electoral_term ≠ -1)
    (hauto : env.failover ≠ t_failover_mode.FAILOVER_MANUAL)
    (hprio : 0 < env.local_node_info.priority)
    (hsib : get_active_sibling_node_records env.nodes env.local_node_info.node_id
      env.upstream_node_info.node_id ≠ [])
    (hlri : env.local_replication_info = some lri)
    (hresume : lri.wal_replay_paused = true → env.resume_wal_replay = true)
    (hloop : election_loop env.upstream_node_info.location env.monitor_interval_secs
      (election_loop_init env lri)
      (get_active_sibling_node_records env.nodes env.local_node_info.node_id
        env.upstream_node_info.node_id) = .ok st) :
    (do_election env ms npi).result =
      if st.primary_location_seen = false then ElectionResult.ELECTION_CANCELLED
      else if st.nodes_with_primary_still_visible > 0
          ∧ env.primary_visibility_consensus = true then ElectionResult.ELECTION_CANCELLED
      else if 2 * st.visible_nodes ≤
          ((get_active_sibling_node_records env.nodes env.local_node_info.node_id
            env.upstream_node_info.node_id).length : Int) + 1 then
        ElectionResult.ELECTION_CANCELLED
      else if st.candidate_node.node_id = env.local_node_info.node_id then
        if env.failover_validation_command ≠ "" then
          execute_failover_validation_command env.validation_run
        else ElectionResult.ELECTION_WON
      else ElectionResult.ELECTION_LOST := by
  have hlen : ¬ (get_active_sibling_node_records env.nodes env.local_node_info.node_id
      env.upstream_node_info.node_id).length = 0 := by
    intro h
    exact hsib (List.length_eq_zero.mp h)
  have hp : ¬ env.local_node_info.priority ≤ 0 := by omega
  have hr : ¬ (lri.wal_replay_paused = true ∧ env.resume_wal_replay = false) := by
    rintro ⟨a, b⟩
    rw [hresume a] at b
    exact Bool.noConfusion b
  unfold do_election
  simp only [hterm, hauto, hp, hlen, hlri, hr, hloop, if_false]
  split_ifs <;> rfl

/-- The early return of the sibling loop: the election is cancelled and the
sibling found out of recovery is reported as the new primary. -/
theorem do_election_loop_cancelled (env : ElectionEnv) (ms : MonitoringState) (npi : Int)
    (lri : ReplInfo) (id : Int)
    (hterm : env.electoral_term ≠ -1)
    (hauto : env.failover ≠ t_failover_mode.FAILOVER_MANUAL)
    (hprio : 0 < env.local_node_info.priority)
    (hsib : get_active_sibling_node_records env.nodes env.local_node_info.node_id
      env.upstream_node_info.node_id ≠ [])
    (hlri : env.local_replication_info = some lri)
    (hresume : lri.wal_replay_paused = true → env.resume_wal_replay = true)
    (hloop : election_loop env.upstream_node_info.location env.monitor_interval_secs
      (election_loop_init env lri)
      (get_active_sibling_node_records env.nodes env.local_node_info.node_id
        env.upstream_node_info.node_id) = .error id) :
    (do_election env ms npi).result = ElectionResult.ELECTION_CANCELLED
      ∧ (do_election env ms npi).new_primary_id = id := by
  have hlen : ¬ (get_active_sibling_node_records env.nodes env.local_node_info.node_id
      env.upstream_node_info.node_id).length = 0 := by
    intro h
    exact hsib (List.length_eq_zero.mp h)
  have hp : ¬ env.local_node_info.priority ≤ 0 := by omega
  have hr : ¬ (lri.wal_replay_paused = true ∧ env.resume_wal_replay = false) := by
    rintro ⟨a, b⟩
    rw [hresume a] at b
    exact Bool.noConfusion b
  unfold do_election
  simp only [hterm, hauto, hp, hlen, hlri, hr, hloop, if_false]
  simp

theorem local_reads_inv (env : ElectionEnv) (lsn : Nat)
    (h : local_lsn_observed env lsn = true) (h2 : wal_replay_resumable env = true) :
    ∃ lri, env.local_replication_info = some lri ∧ lri.last_wal_receive_lsn = lsn
      ∧ (lri.wal_replay_paused = true → env.resume_wal_replay = true) := by
  unfold local_lsn_observed at h
  unfold wal_replay_resumable at h2
  cases hl : env.local_replication_info with
  | none => simp [hl] at h
  | some lri =>
    simp [hl] at h h2
    refine ⟨lri, rfl, h, ?_⟩
    intro hp
    rcases h2 with h2 | h2
    · rw [hp] at h2; exact Bool.noConfusion h2
    · exact h2

/-- C2 (as amended). Independent electors converge on one winner. For every
group of at least two standbys with pairwise distinct node ids and
priority > 0 there is one member `w`, ahead of every other member in the
order "greatest LSN, then greatest priority, then lowest node id", such
that the election run by any member `x` of the group returns ELECTION_WON
when `x` is `w` and ELECTION_LOST otherwise, whatever the order of `x`'s
sibling list. Each elector is in automatic failover mode, reads the
electoral term and its own replication info, has WAL replay running or
resumed, is in the primary's location, has no validation command, and sees
the other members reachable, in recovery, with repmgrd running, not seeing
the primary, with the same `(LSN, priority, id)` values. -/
theorem electors_converge_on_one_winner (group : List StandbyFacts)
    (hk : 2 ≤ group.length)
    (hnd : (group.map StandbyFacts.node_id).Nodup)
    (hprio : ∀ y ∈ group, 0 < y.priority) :
    ∃ w ∈ group, (∀ y ∈ group, y ≠ w → ahead_of w y) ∧
      ∀ x ∈ group, ∀ (env : ElectionEnv) (ms : MonitoringState) (npi : Int),
        ElectorView group x env →
        (do_election env ms npi).result =
          if x = w then ElectionResult.ELECTION_WON else ElectionResult.ELECTION_LOST := by
  have hne : group ≠ [] := by
    intro h
    rw [h] at hk
    simp at hk
  have hgnd : group.Nodup := List.Nodup.of_map _ hnd
  obtain ⟨w, hw, hbest⟩ := exists_best group hne hnd
  refine ⟨w, hw, hbest, ?_⟩
  intro x hx env ms npi hv
  obtain ⟨lri, hlri, hlsn, hres⟩ := local_reads_inv env _ hv.self_observed hv.replay_resumable
  have hauto : env.failover ≠ t_failover_mode.FAILOVER_MANUAL := by
    rw [hv.automatic]
    decide
  have hpx : 0 < env.local_node_info.priority := by
    rw [hv.self_priority]
    exact hprio x hx
  have hlen : (get_active_sibling_node_records env.nodes env.local_node_info.node_id
      env.upstream_node_info.node_id).length = group.length - 1 := by
    have := hv.siblings_observed.length_eq
    rw [List.length_map, List.length_erase_of_mem hx] at this
    exact this
  have hsib : get_active_sibling_node_records env.nodes env.local_node_info.node_id
      env.upstream_node_info.node_id ≠ [] := by
    intro h
    rw [h] at hlen
    simp at hlen
    omega
  obtain ⟨st, hloop, hvis, hpls, hnw⟩ :=
    election_loop_healthy env.upstream_node_info.location env.monitor_interval_secs _
      (election_loop_init env lri) hv.siblings_healthy
  have hres1 := do_election_after_loop env ms npi lri st hv.term_readable hauto hpx hsib hlri
    hres hloop
  have hpls1 : st.primary_location_seen = true := by
    apply hpls
    simp [election_loop_init, hv.self_location]
  have hnw1 : ¬ (st.nodes_with_primary_still_visible > 0
      ∧ env.primary_visibility_consensus = true) := by
    rw [hnw]
    simp [election_loop_init]
  have hq : ¬ (2 * st.visible_nodes ≤
      ((get_active_sibling_node_records env.nodes env.local_node_info.node_id
        env.upstream_node_info.node_id).length : Int) + 1) := by
    rw [hvis]
    simp only [election_loop_init]
    omega
  have hcmd : ¬ (env.failover_validation_command ≠ "") := by
    simp [hv.no_validation_command]
  rw [hres1]
  simp only [hpls1, hnw1, hq, hcmd, if_false, Bool.true_eq_false]
  -- what the elector sees of a sibling is a member of the group other than `x`
  have hobs : ∀ s ∈ get_active_sibling_node_records env.nodes env.local_node_info.node_id
      env.upstream_node_info.node_id, observed s ∈ group ∧ observed s ≠ x := by
    intro s hs
    have : observed s ∈ group.erase x :=
      hv.siblings_observed.subset (List.mem_map_of_mem _ hs)
    rw [List.Nodup.mem_erase_iff hgnd] at this
    exact ⟨this.2, this.1⟩
  have hinit : (⟨(election_loop_init env lri).candidate_node.node_id,
      (election_loop_init env lri).candidate_node.priority,
      (election_loop_init env lri).candidate_node.last_wal_receive_lsn⟩ : StandbyFacts) = x := by
    simp only [election_loop_init]
    rw [hv.self_id, hv.self_priority, hlsn]
  by_cases hxw : x = w
  · simp only [hxw, if_true]
    have hkeep := election_loop_keeps_candidate _ _ _ _ st hloop (by
      intro s hs c hc
      obtain ⟨c', hc', h1, h2, h3⟩ := compared_sibling_of_healthy _ s
        (hv.siblings_healthy s hs) (hprio _ (hobs s hs).1)
      rw [hc] at hc'
      simp only [Option.some.injEq] at hc'
      subst hc'
      by_contra hrep
      simp only [Bool.not_eq_false] at hrep
      rw [replaces_candidate_iff, hinit, h1, h2, h3] at hrep
      have hso := hobs s hs
      rw [hxw] at hso
      have := hbest _ hso.1 hso.2
      rw [hxw] at hrep
      exact ahead_of_asymm _ _ this hrep)
    have : st.candidate_node.node_id = env.local_node_info.node_id := by
      rw [hkeep]
      simp [election_loop_init]
    simp [this]
  · simp only [hxw, if_false]
    have hwmem : w ∈ group.erase x := by
      rw [List.Nodup.mem_erase_iff hgnd]
      exact ⟨fun h => hxw h.symm, hw⟩
    have hwmap := hv.siblings_observed.symm.subset hwmem
    obtain ⟨s, hs, hsw⟩ := List.mem_map.mp hwmap
    have hcand : ¬ st.candidate_node.node_id = env.local_node_info.node_id := by
      intro hc
      have hids : ∀ s ∈ get_active_sibling_node_records env.nodes env.local_node_info.node_id
          env.upstream_node_info.node_id, s.node_info.node_id ≠ env.local_node_info.node_id :=
        fun s hs => (mem_get_active_sibling_node_records _ _ _ s hs).2.2.2
      have hnever := election_loop_never_replaced _ _ env.local_node_info.node_id _ _ _ hloop
        hids hc
      obtain ⟨c, hcs, h1, h2, h3⟩ := compared_sibling_of_healthy _ s
        (hv.siblings_healthy s hs) (hprio _ (hobs s hs).1)
      have hno := hnever.2 s hs c hcs
      have hyes : replaces_candidate c (election_loop_init env lri).candidate_node = true := by
        rw [replaces_candidate_iff, hinit, h1, h2, h3, hsw]
        exact hbest x hx hxw
      rw [hyes] at hno
      exact Bool.noConfusion hno
    simp [hcand]



theorem stated_view_three_node (self : Int) (x : StandbyFacts)
    (h : (self = 2 ∧ x = ⟨2, 100, 200⟩) ∨ (self = 3 ∧ x = ⟨3, 100, 200⟩)) :
    StatedElectorView two_standbys x (three_node_env self 200 200 100 100) := by
  rcases h with ⟨rfl, rfl⟩ | ⟨rfl, rfl⟩
  · exact ⟨by decide, by decide, by decide, by decide, by decide, by decide, by decide⟩
  · exact ⟨by decide, by decide, by decide, by decide, by decide, by decide, by decide⟩

/-- Witness for C2: in scenario 1 of the specification (standbys 2 and 3
at the same LSN and priority) node 2 wins and node 3 loses. -/
theorem electors_converge_on_one_winner_witness :
    (do_election (three_node_env 2 200 200 100 100) .MS_NORMAL UNKNOWN_NODE_ID).result
        = ElectionResult.ELECTION_WON
      ∧ (do_election (three_node_env 3 200 200 100 100) .MS_NORMAL UNKNOWN_NODE_ID).result
        = ElectionResult.ELECTION_LOST := by
  obtain ⟨w, hw, hbest, hall⟩ :=
    electors_converge_on_one_winner two_standbys (by decide) (by decide) (by decide)
  have hw2 : w = ⟨2, 100, 200⟩ := by
    by_contra hne
    have h := hbest ⟨2, 100, 200⟩ (by decide) (fun h => hne h.symm)
    have hw3 : w = ⟨3, 100, 200⟩ := by
      simp only [two_standbys, List.mem_cons, List.mem_singleton] at hw
      rcases hw with h | h | h
      · exact absurd h hne
      · exact h
      · simp at h
    rw [hw3] at h
    revert h
    decide
  subst hw2
  have h2 := hall ⟨2, 100, 200⟩ (by decide) (three_node_env 2 200 200 100 100)
    .MS_NORMAL UNKNOWN_NODE_ID
    ⟨stated_view_three_node 2 _ (Or.inl ⟨rfl, rfl⟩), by decide, by decide, by decide⟩
  have h3 := hall ⟨3, 100, 200⟩ (by decide) (three_node_env 3 200 200 100 100)
    .MS_NORMAL UNKNOWN_NODE_ID
    ⟨stated_view_three_node 3 _ (Or.inr ⟨rfl, rfl⟩), by decide, by decide, by decide⟩
  exact ⟨by simpa using h2, by simpa using h3⟩

/-- Counterexample to C2 as stated. Standbys 2 and 3 satisfy every condition
the property lists and node 2 is ahead, yet nobody wins when node 2 (a) is in
manual failover mode, (b) cannot read the electoral term, or (c) has WAL
replay paused and cannot resume it: node 2 returns NOT_CANDIDATE or LOST and
node 3, which sees node 2 as the better candidate, returns LOST. -/
theorem electors_converge_fails_without_gates :
    ahead_of ⟨2, 100, 200⟩ ⟨3, 100, 200⟩
      ∧ StatedElectorView two_standbys ⟨3, 100, 200⟩ (three_node_env 3 200 200 100 100)
      ∧ (do_election (three_node_env 3 200 200 100 100) .MS_NORMAL UNKNOWN_NODE_ID).result
          = ElectionResult.ELECTION_LOST
      ∧ StatedElectorView two_standbys ⟨2, 100, 200⟩
          { three_node_env 2 200 200 100 100 with failover := .FAILOVER_MANUAL }
      ∧ (do_election { three_node_env 2 200 200 100 100 with failover := .FAILOVER_MANUAL }
          .MS_NORMAL UNKNOWN_NODE_ID).result = ElectionResult.ELECTION_NOT_CANDIDATE
      ∧ StatedElectorView two_standbys ⟨2, 100, 200⟩
          { three_node_env 2 200 200 100 100 with electoral_term := -1 }
      ∧ (do_election { three_node_env 2 200 200 100 100 with electoral_term := -1 }
          .MS_NORMAL UNKNOWN_NODE_ID).result = ElectionResult.ELECTION_NOT_CANDIDATE
      ∧ StatedElectorView two_standbys ⟨2, 100, 200⟩
          { three_node_env 2 200 200 100 100 with
            local_replication_info := some ⟨true, 200, 200, true, -1⟩
            resume_wal_replay := false }
      ∧ (do_election
          { three_node_env 2 200 200 100 100 with
            local_replication_info := some ⟨true, 200, 200, true, -1⟩
            resume_wal_replay := false }
          .MS_NORMAL UNKNOWN_NODE_ID).result = ElectionResult.ELECTION_LOST := by
  refine ⟨by decide, stated_view_three_node 3 _ (Or.inr ⟨rfl, rfl⟩), by decide, ?_, by decide,
    ?_, by decide, ?_, by decide⟩
  · exact ⟨by decide, by decide, by decide, by decide, by decide, by decide, by decide⟩
  · exact ⟨by decide, by decide, by decide, by decide, by decide, by decide, by decide⟩
  · exact ⟨by decide, by decide, by decide, by decide, by decide, by decide, by decide⟩

theorem election_loop_body_visible (loc : String) (mis : Int) (st st1 : ElectionLoopState)
    (s : SiblingProbe) (h : election_loop_body loc mis st s = .ok st1) :
    st1.visible_nodes = st.visible_nodes + (if s.conn_ok = true then 1 else 0) := by
  unfold election_loop_body at h
  rcases s with ⟨ni, conn, pid, ri, cf⟩
  cases conn
  · simp at h
    simp [← h]
  · rcases ri with _ | ri
    · simp only [Bool.true_eq_false, if_false] at h
      split_ifs at h <;> simp at h <;> simp [← h]
    · simp only [Bool.true_eq_false, if_false] at h
      split_ifs at h <;> simp at h <;> simp [← h]

theorem election_loop_visible (loc : String) (mis : Int) :
    ∀ (l : List SiblingProbe) (st st1 : ElectionLoopState),
      election_loop loc mis st l = .ok st1 →
      st1.visible_nodes = st.visible_nodes + ((l.filter (fun s => s.conn_ok)).length : Int) := by
  intro l
  induction l with
  | nil =>
    intro st st1 h
    simp [election_loop] at h
    simp [h]
  | cons s rest ih =>
    intro st st1 h
    simp only [election_loop] at h
    cases hb : election_loop_body loc mis st s with
    | error e => simp [hb] at h
    | ok st2 =>
      simp [hb] at h
      have h1 := election_loop_body_visible loc mis st st2 s hb
      have h2 := ih st2 st1 h
      rw [h2, h1]
      by_cases hc : s.conn_ok = true
      · simp [List.filter, hc]; ring
      · simp at hc
        simp [List.filter, hc]

theorem reaches_sibling_loop_inv (env : ElectionEnv) (h : reaches_sibling_loop env = true) :
    env.electoral_term ≠ -1 ∧ env.failover ≠ t_failover_mode.FAILOVER_MANUAL
      ∧ 0 < env.local_node_info.priority ∧ election_siblings env ≠ []
      ∧ ∃ lri, env.local_replication_info = some lri
          ∧ (lri.wal_replay_paused = true → env.resume_wal_replay = true) := by
  unfold reaches_sibling_loop at h
  simp only [Bool.and_eq_true, decide_eq_true_eq, Bool.not_eq_true'] at h
  obtain ⟨⟨⟨⟨⟨h1, h2⟩, h3⟩, h4⟩, h5⟩, h6⟩ := h
  refine ⟨h1, h2, h3, ?_, ?_⟩
  · intro hnil
    rw [hnil] at h4
    simp at h4
  · cases hl : env.local_replication_info with
    | none => simp [hl] at h5
    | some lri =>
      refine ⟨lri, rfl, ?_⟩
      intro hp
      unfold wal_replay_resumable at h6
      simp [hl, hp] at h6
      exact h6

/-- An election that got as far as the sibling loop and reached too few
nodes is cancelled. -/
theorem do_election_cancelled_of_minority (env : ElectionEnv)
    (hgates : reaches_sibling_loop env = true)
    (hminor : reachable_nodes env < ceil_half (total_nodes env + 1))
    (ms : MonitoringState) (npi : Int) :
    (do_election env ms npi).result = ElectionResult.ELECTION_CANCELLED := by
  obtain ⟨hterm, hauto, hprio, hsib, lri, hlri, hres⟩ := reaches_sibling_loop_inv env hgates
  cases hloop : election_loop env.upstream_node_info.location env.monitor_interval_secs
      (election_loop_init env lri) (election_siblings env) with
  | error id =>
    exact (do_election_loop_cancelled env ms npi lri id hterm hauto hprio hsib hlri hres hloop).1
  | ok st =>
    rw [do_election_after_loop env ms npi lri st hterm hauto hprio hsib hlri hres hloop]
    have hvis := election_loop_visible _ _ _ _ _ hloop
    have hq : 2 * st.visible_nodes ≤ ((election_siblings env).length : Int) + 1 := by
      rw [hvis]
      simp only [election_loop_init]
      unfold reachable_nodes total_nodes ceil_half at hminor
      omega
    split_ifs <;> rfl

/-- After a cancelled election `do_primary_failover` does not run the
promote command: it returns at once, or follows the new primary that the
election found. -/
theorem do_primary_failover_cancelled_no_promote (fenv : FailoverEnv) (st : DaemonState)
    (h : (do_election fenv.election st.monitoring_state UNKNOWN_NODE_ID).result
      = ElectionResult.ELECTION_CANCELLED) :
    (do_primary_failover fenv st).1.actions.count Action.promote_command
      = st.actions.count Action.promote_command := by
  unfold do_primary_failover
  simp only [failover_election_dispatch, h]
  split_ifs with hid
  · rfl
  · simp only [failover_follow_or_wait, if_true]
    cases hf : fenv.follow_new_primary
        (do_election fenv.election st.monitoring_state UNKNOWN_NODE_ID).new_primary_id <;>
      simp [failover_resolve, DaemonState.record, hf, List.count_append]


/-- C3 (as amended). Minority never promotes. For every election run by a
node that passes the gates before the sibling loop (electoral term readable,
automatic failover, priority > 0, local replication info available, WAL
replay not paused or resumed) with at least one sibling: if the number of
nodes reachable to it (itself plus the siblings it can connect to) is below
`⌈(N + 1) / 2⌉`, with `N` the number of active siblings plus one, then
`do_election` returns ELECTION_CANCELLED and `do_primary_failover` does not
run the promote command. -/
theorem minority_never_promotes (fenv : FailoverEnv) (st : DaemonState)
    (hgates : reaches_sibling_loop fenv.election = true)
    (hminor : reachable_nodes fenv.election < ceil_half (total_nodes fenv.election + 1)) :
    (∀ (ms : MonitoringState) (npi : Int),
        (do_election fenv.election ms npi).result = ElectionResult.ELECTION_CANCELLED)
      ∧ (do_primary_failover fenv st).1.actions.count Action.promote_command
          = st.actions.count Action.promote_command :=
  ⟨do_election_cancelled_of_minority fenv.election hgates hminor,
    do_primary_failover_cancelled_no_promote fenv st
      (do_election_cancelled_of_minority fenv.election hgates hminor _ _)⟩

/-- Witness for C3: scenario 4 of the specification, a candidate that sees
itself and one of four siblings (2 reachable of 5, while 3 are needed). -/
theorem minority_never_promotes_witness :
    (∀ (ms : MonitoringState) (npi : Int),
        (do_election minority_env ms npi).result = ElectionResult.ELECTION_CANCELLED)
      ∧ (do_primary_failover (failover_env minority_env none)
            (idle_state minority_env.local_node_info)).1.actions.count Action.promote_command
          = 0 :=
  minority_never_promotes (failover_env minority_env none)
    (idle_state minority_env.local_node_info) (by decide) (by decide)

/-- Counterexample to C3 as stated. The candidate of scenario 4 is in
automatic failover mode with priority 100 and its replication info is
available, and it reaches 2 of 5 nodes. (a) When its WAL replay is paused
and cannot be resumed, `do_election` returns ELECTION_LOST, and
`do_primary_failover`, notified with the node's own id, runs the promote
command. (b) When the electoral term cannot be read, `do_election` returns
ELECTION_NOT_CANDIDATE. -/
theorem minority_not_cancelled_before_gates :
    reachable_nodes minority_env = 2 ∧ ceil_half (total_nodes minority_env + 1) = 3
      ∧ (do_election
          { minority_env with
            local_replication_info := some ⟨true, 200, 200, true, -1⟩
            resume_wal_replay := false }
          .MS_NORMAL UNKNOWN_NODE_ID).result = ElectionResult.ELECTION_LOST
      ∧ Action.promote_command ∈
          (do_primary_failover
            (failover_env
              { minority_env with
                local_replication_info := some ⟨true, 200, 200, true, -1⟩
                resume_wal_replay := false }
              (some 2))
            (idle_state minority_env.local_node_info)).1.actions
      ∧ (do_election { minority_env with electoral_term := -1 }
          .MS_NORMAL UNKNOWN_NODE_ID).result = ElectionResult.ELECTION_NOT_CANDIDATE := by
  refine ⟨by decide, by decide, by decide, by decide, by decide⟩

theorem count_other_primaries_eq (local_node_id : Int) :
    ∀ (l : List PeerProbe) (acc : Int),
      count_other_primaries local_node_id l acc
        = acc + ((l.filter (is_other_primary local_node_id)).length : Int) := by
  intro l
  induction l with
  | nil => intro acc; simp [count_other_primaries]
  | cons p rest ih =>
    intro acc
    rcases p with ⟨ni, conn, rt, rf, rc, idsys⟩
    unfold count_other_primaries
    simp only [get_recovery_type]
    cases conn
    · simp [ih, List.filter, is_other_primary]
    · simp only [Bool.true_eq_false, if_false, if_true]
      by_cases h1 : ni.node_id = local_node_id
      · simp [ih, List.filter, is_other_primary, h1]
      · by_cases h2 : ni.type = t_server_type.WITNESS
        · simp [ih, List.filter, is_other_primary, h2]
        · by_cases h3 : rt = RecoveryType.RECTYPE_PRIMARY
          · simp [ih, List.filter, is_other_primary, h1, h2, h3]
            ring
          · simp [ih, List.filter, is_other_primary, h1, h2, h3]

theorem find_peer_skip (local_node_id : Int) (p : PeerProbe) (rest : List PeerProbe)
    (h : is_other_primary local_node_id p = false) :
    find_peer local_node_id (p :: rest) = find_peer local_node_id rest := by
  rcases p with ⟨ni, conn, rt, rf, rc, idsys⟩
  unfold is_other_primary at h
  conv_lhs => unfold find_peer
  simp only [get_recovery_type]
  by_cases h1 : ni.node_id = local_node_id
  · simp [h1]
  · by_cases h2 : ni.type = t_server_type.WITNESS
    · simp [h2]
    · cases conn
      · simp [h1, h2]
      · by_cases h3 : rt = RecoveryType.RECTYPE_PRIMARY
        · simp [h1, h2, h3] at h
        · simp [h1, h2, h3]

theorem find_peer_hit (local_node_id : Int) (p : PeerProbe) (rest : List PeerProbe)
    (h : is_other_primary local_node_id p = true) :
    find_peer local_node_id (p :: rest)
      = if p.record_found = true then .ok (some p) else .error () := by
  rcases p with ⟨ni, conn, rt, rf, rc, idsys⟩
  unfold is_other_primary at h
  simp only [Bool.and_eq_true, decide_eq_true_eq] at h
  obtain ⟨⟨⟨hc, h1⟩, h2⟩, h3⟩ := h
  conv_lhs => unfold find_peer
  simp [get_recovery_type, hc, h1, h2, h3]

/-- When exactly one peer of the list counts as another primary, the second
loop of `check_BS` stops at that peer. -/
theorem find_peer_of_unique (local_node_id : Int) (peer : PeerProbe) :
    ∀ (l : List PeerProbe), peer ∈ l → is_other_primary local_node_id peer = true →
      (l.filter (is_other_primary local_node_id)).length = 1 →
      find_peer local_node_id l
        = if peer.record_found = true then .ok (some peer) else .error () := by
  intro l
  induction l with
  | nil => intro h; simp at h
  | cons p rest ih =>
    intro hmem hp hcount
    by_cases hh : is_other_primary local_node_id p = true
    · have hrest : ∀ a ∈ rest, is_other_primary local_node_id a = false := by
        simpa [List.filter, hh] using hcount
      have : peer = p := by
        rcases List.mem_cons.mp hmem with h | h
        · exact h
        · exfalso
          rw [hrest peer h] at hp
          exact Bool.noConfusion hp
      subst this
      exact find_peer_hit local_node_id peer rest hh
    · simp only [Bool.not_eq_true] at hh
      rw [find_peer_skip local_node_id p rest hh]
      apply ih
      · rcases List.mem_cons.mp hmem with h | h
        · subst h
          rw [hp] at hh
          exact Bool.noConfusion hh
        · exact h
      · exact hp
      · simpa [List.filter, hh] using hcount

/-- The decision of `check_BS` when exactly one peer counts as another
primary and its node record can be read. -/
theorem check_BS_of_unique (local_node_info : t_node_info) (local_tli : Nat)
    (l : List PeerProbe) (peer : PeerProbe)
    (hmem : peer ∈ l) (hp : is_other_primary local_node_info.node_id peer = true)
    (hcount : (l.filter (is_other_primary local_node_info.node_id)).length = 1)
    (hrec : peer.record_found = true) :
    check_BS local_node_info local_tli l =
      match check_timeline local_tli peer with
      | .TL_LOW => .DO_REJOIN
      | .TL_HIGH => .DO_NOTHING
      | .TL_UNKNOWN => .DO_NOTHING
      | .TL_SAME =>
        if local_node_info.priority < peer.node_info.priority then .DO_REJOIN
        else if local_node_info.priority > peer.node_info.priority then .DO_NOTHING
        else if local_node_info.node_id < peer.node_info.node_id then .DO_NOTHING
        else .DO_REJOIN := by
  unfold check_BS
  have hc : count_other_primaries local_node_info.node_id l 0 = 1 := by
    rw [count_other_primaries_eq, hcount]
    simp
  have hf := find_peer_of_unique local_node_info.node_id peer l hmem hp hcount
  simp only [hrec, if_true] at hf
  simp only [hc, hf]
  simp

/-- C4. Split-brain with two primaries resolves to one. Let A and B be
primaries with distinct node ids. Each sees the other as the only other
primary of its node list and can determine its timeline (the peer's record
is read, the replication connection opens and IDENTIFY_SYSTEM answers), and
each sees the other's real timeline and priority. Then exactly one of the
two runs of `check_BS` returns DO_REJOIN and the other returns DO_NOTHING;
with equal timelines and priorities the higher node id is the one that
rejoins. -/
theorem check_BS_two_primaries_one_rejoins (a b : t_node_info) (tliA tliB : Nat)
    (lA lB : List PeerProbe) (pA pB : PeerProbe)
    (hid : a.node_id ≠ b.node_id)
    (hBmem : pB ∈ lA) (hBid : pB.node_info.node_id = b.node_id)
    (hBprim : is_other_primary a.node_id pB = true)
    (hBonly : (lA.filter (is_other_primary a.node_id)).length = 1)
    (hBrec : pB.record_found = true) (hBconn : pB.repl_conn_ok = true)
    (hBtli : pB.identify_system = some tliB)
    (hBprio : pB.node_info.priority = b.priority)
    (hAmem : pA ∈ lB) (hAid : pA.node_info.node_id = a.node_id)
    (hAprim : is_other_primary b.node_id pA = true)
    (hAonly : (lB.filter (is_other_primary b.node_id)).length = 1)
    (hArec : pA.record_found = true) (hAconn : pA.repl_conn_ok = true)
    (hAtli : pA.identify_system = some tliA)
    (hAprio : pA.node_info.priority = a.priority) :
    ((check_BS a tliA lA = BS_ACTION.DO_REJOIN ∧ check_BS b tliB lB = BS_ACTION.DO_NOTHING)
        ∨ (check_BS a tliA lA = BS_ACTION.DO_NOTHING ∧ check_BS b tliB lB = BS_ACTION.DO_REJOIN))
      ∧ (tliA = tliB → a.priority = b.priority → a.node_id < b.node_id →
          check_BS a tliA lA = BS_ACTION.DO_NOTHING ∧ check_BS b tliB lB = BS_ACTION.DO_REJOIN) := by
  rw [check_BS_of_unique a tliA lA pB hBmem hBprim hBonly hBrec,
    check_BS_of_unique b tliB lB pA hAmem hAprim hAonly hArec]
  simp only [check_timeline, hBconn, hAconn, hBtli, hAtli, hBprio, hAprio, hBid, hAid]
  simp only [Bool.true_eq_false, if_false]
  constructor
  · split_ifs <;> simp <;> omega
  · intro h1 h2 h3
    split_ifs <;> simp <;> omega

/-- Witness for C4: scenario 6 of the specification, nodes 1 and 4 both
primary on timeline 7 with priority 100. -/
theorem check_BS_two_primaries_one_rejoins_witness :
    check_BS (primary_record 1 100) 7 two_primaries = BS_ACTION.DO_NOTHING
      ∧ check_BS (primary_record 4 100) 7 two_primaries = BS_ACTION.DO_REJOIN :=
  (check_BS_two_primaries_one_rejoins (primary_record 1 100) (primary_record 4 100) 7 7
    two_primaries two_primaries (primary_peer 1 100 7) (primary_peer 4 100 7)
    (by decide) (by decide) (by decide) (by decide) (by decide) (by decide) (by decide)
    (by decide) (by decide) (by decide) (by decide) (by decide) (by decide) (by decide)
    (by decide) (by decide) (by decide)).2 rfl (by decide) (by decide)

/-- C5. When `check_BS` finds exactly one other primary, can read its node
record and can read its timeline, the result is decided in this order:
local timeline < remote gives DO_REJOIN, local timeline > remote gives
DO_NOTHING; with equal timelines, local priority < remote priority gives
DO_REJOIN and local priority > remote priority gives DO_NOTHING; with equal
timelines and priorities, local node id > remote node id gives DO_REJOIN and
local node id < remote node id gives DO_NOTHING. -/
theorem check_BS_one_other_primary_order (local_node_info : t_node_info) (local_tli : Nat)
    (l : List PeerProbe) (peer : PeerProbe) (remote_tli : Nat)
    (hmem : peer ∈ l)
    (hprim : is_other_primary local_node_info.node_id peer = true)
    (honly : (l.filter (is_other_primary local_node_info.node_id)).length = 1)
    (hrec : peer.record_found = true)
    (hconn : peer.repl_conn_ok = true)
    (htli : peer.identify_system = some remote_tli) :
    (local_tli < remote_tli → check_BS local_node_info local_tli l = BS_ACTION.DO_REJOIN)
      ∧ (local_tli > remote_tli → check_BS local_node_info local_tli l = BS_ACTION.DO_NOTHING)
      ∧ (local_tli = remote_tli → local_node_info.priority < peer.node_info.priority →
          check_BS local_node_info local_tli l = BS_ACTION.DO_REJOIN)
      ∧ (local_tli = remote_tli → local_node_info.priority > peer.node_info.priority →
          check_BS local_node_info local_tli l = BS_ACTION.DO_NOTHING)
      ∧ (local_tli = remote_tli → local_node_info.priority = peer.node_info.priority →
          local_node_info.node_id > peer.node_info.node_id →
          check_BS local_node_info local_tli l = BS_ACTION.DO_REJOIN)
      ∧ (local_tli = remote_tli → local_node_info.priority = peer.node_info.priority →
          local_node_info.node_id < peer.node_info.node_id →
          check_BS local_node_info local_tli l = BS_ACTION.DO_NOTHING) := by
  rw [check_BS_of_unique local_node_info local_tli l peer hmem hprim honly hrec]
  simp only [check_timeline, hconn, htli]
  simp only [Bool.true_eq_false, if_false]
  refine ⟨?_, ?_, ?_, ?_, ?_, ?_⟩ <;> intros <;> split_ifs <;> first | rfl | omega

/-- Witness for C5: node 4 (timeline 7, priority 100) finds node 1 (timeline
7, priority 100) as the only other primary and, having the higher id,
rejoins. -/
theorem check_BS_one_other_primary_order_witness :
    check_BS (primary_record 4 100) 7 two_primaries = BS_ACTION.DO_REJOIN :=
  (check_BS_one_other_primary_order (primary_record 4 100) 7 two_primaries
    (primary_peer 1 100 7) 7 (by decide) (by decide) (by decide) (by decide) (by decide)
    (by decide)).2.2.2.2.1 rfl (by decide) (by decide)

/-- C6. For every node list the counter of `check_BS` is exactly the number
of reachable peers that report recovery type PRIMARY, witnesses and the
local node excluded; `check_BS` returns DO_NOTHING when that number is zero
and DO_STOP when it is two or more; and on DO_STOP the primary monitor
releases the virtual IP, stops the local database and exits with
ERR_BRAIN_SPLIT. -/
theorem check_BS_counts_other_primaries (local_tli : Nat) (l : List PeerProbe)
    (primary_notification_timeout : Int) (st : DaemonState) :
    count_other_primaries st.local_node_info.node_id l 0
        = ((l.filter (is_other_primary st.local_node_info.node_id)).length : Int)
      ∧ ((l.filter (is_other_primary st.local_node_info.node_id)).length = 0 →
          check_BS st.local_node_info local_tli l = BS_ACTION.DO_NOTHING)
      ∧ (2 ≤ (l.filter (is_other_primary st.local_node_info.node_id)).length →
          check_BS st.local_node_info local_tli l = BS_ACTION.DO_STOP)
      ∧ (check_BS st.local_node_info local_tli l = BS_ACTION.DO_STOP →
          (primary_monitor_check_brain_split local_tli l primary_notification_timeout st).actions
            = st.actions ++ [Action.unbind_virtual_ip, Action.sleep 5,
                Action.stop_database false, Action.sleep 2,
                Action.terminate ExitCode.ERR_BRAIN_SPLIT]) := by
  have hc := count_other_primaries_eq st.local_node_info.node_id l 0
  simp only [zero_add] at hc
  refine ⟨hc, ?_, ?_, ?_⟩
  · intro h0
    unfold check_BS
    simp [hc, h0]
  · intro h2
    unfold check_BS
    simp only [hc]
    have h3 : ¬ ((l.filter (is_other_primary st.local_node_info.node_id)).length : Int) = 0 := by
      omega
    have h4 : ((l.filter (is_other_primary st.local_node_info.node_id)).length : Int) > 1 := by
      omega
    simp [h3, h4]
  · intro hs
    simp [primary_monitor_check_brain_split, primary_monitor_on_brain_split, hs]

/-- Witness for C6: scenario 7 of the specification. With three nodes
primary at once, node 1 counts two other primaries, `check_BS` returns
DO_STOP, and the monitor stops the database and exits with
ERR_BRAIN_SPLIT. -/
theorem check_BS_counts_other_primaries_witness :
    count_other_primaries 1 three_primaries 0 = 2
      ∧ check_BS (primary_record 1 100) 7 three_primaries = BS_ACTION.DO_STOP
      ∧ (primary_monitor_check_brain_split 7 three_primaries 60
            (idle_state (primary_record 1 100))).actions
          = [Action.unbind_virtual_ip, Action.sleep 5, Action.stop_database false,
              Action.sleep 2, Action.terminate ExitCode.ERR_BRAIN_SPLIT] :=
  ⟨(check_BS_counts_other_primaries 7 three_primaries 60 (idle_state (primary_record 1 100))).1,
    (check_BS_counts_other_primaries 7 three_primaries 60
      (idle_state (primary_record 1 100))).2.2.1 (by decide),
    (check_BS_counts_other_primaries 7 three_primaries 60
      (idle_state (primary_record 1 100))).2.2.2 (by decide)⟩

/-- The function `promote_self` increments the electoral term exactly once
when it returns FAILOVER_STATE_PROMOTED and leaves it unchanged on every
other return. -/
theorem promote_self_term (env : PromoteEnv) (st : DaemonState) :
    ((promote_self env st).1 = FailoverState.FAILOVER_STATE_PROMOTED →
        (promote_self env st).2.electoral_term = st.electoral_term + 1
          ∧ (promote_self env st).2.actions.count Action.increment_current_term
              = st.actions.count Action.increment_current_term + 1)
      ∧ ((promote_self env st).1 ≠ FailoverState.FAILOVER_STATE_PROMOTED →
        (promote_self env st).2.electoral_term = st.electoral_term
          ∧ (promote_self env st).2.actions.count Action.increment_current_term
              = st.actions.count Action.increment_current_term) := by
  unfold promote_self
  cases hfp : env.failed_primary with
  | none =>
    simp only
    split_ifs <;> simp [DaemonState.record, List.count_append]
  | some fp =>
    cases hown : env.own_record <;>
      simp only <;>
      split_ifs <;>
      simp [DaemonState.record, List.count_append, increment_current_term,
        refresh_local_node_info, hown]

/-- C7, the run on which the code departs from the property. Node 2 wins
the election of scenario 1 and its promote command returns a non-zero
status: `do_primary_failover` leaves FAILOVER_STATE_PROMOTION_FAILED in
degraded monitoring with the electoral term still 1. The promotion did
complete, so the next degraded-monitoring pass finds the local node primary,
records the promotion, notifies sibling 3 to follow node 2 and hands over to
primary monitoring, and the electoral term is still 1: no step of the run
incremented it. -/
theorem degraded_promotion_recovery_keeps_term :
    promotion_failed_state.failover_state = FailoverState.FAILOVER_STATE_PROMOTION_FAILED
      ∧ promotion_failed_state.monitoring_state = MonitoringState.MS_DEGRADED
      ∧ promotion_failed_state.electoral_term = 1
      ∧ (standby_degraded_check_local_promoted promoted_after_all promotion_failed_state).2 = true
      ∧ Action.notify_followers [3] 2 ∈
          (standby_degraded_check_local_promoted promoted_after_all
            promotion_failed_state).1.actions
      ∧ Action.event "repmgrd_failover_promote" ∈
          (standby_degraded_check_local_promoted promoted_after_all
            promotion_failed_state).1.actions
      ∧ Action.increment_current_term ∉
          (standby_degraded_check_local_promoted promoted_after_all
            promotion_failed_state).1.actions
      ∧ (standby_degraded_check_local_promoted promoted_after_all
            promotion_failed_state).1.electoral_term = 1 := by
  refine ⟨by decide, by decide, by decide, by decide, by decide, by decide, by decide, by decide⟩

/-- C8 (as amended). Eligibility gate: in every election in which the
electoral term can be read, `do_election` returns ELECTION_NOT_CANDIDATE
when the node is in manual failover mode, and ELECTION_LOST when it is in
automatic failover mode with priority ≤ 0. -/
theorem eligibility_gate (env : ElectionEnv) (ms : MonitoringState) (npi : Int)
    (hterm : env.electoral_term ≠ -1) :
    (env.failover = t_failover_mode.FAILOVER_MANUAL →
        (do_election env ms npi).result = ElectionResult.ELECTION_NOT_CANDIDATE)
      ∧ (env.failover ≠ t_failover_mode.FAILOVER_MANUAL → env.local_node_info.priority ≤ 0 →
        (do_election env ms npi).result = ElectionResult.ELECTION_LOST) := by
  constructor
  · intro hm
    unfold do_election
    simp [hterm, hm]
  · intro ha hp
    unfold do_election
    simp [hterm, ha, hp]

/-- Witness for C8: node 2 in manual failover mode is not a candidate, and
with priority 0 in automatic mode it loses. -/
theorem eligibility_gate_witness :
    (do_election { three_node_env 2 200 200 100 100 with failover := .FAILOVER_MANUAL }
        .MS_NORMAL UNKNOWN_NODE_ID).result = ElectionResult.ELECTION_NOT_CANDIDATE
      ∧ (do_election zero_priority_env .MS_NORMAL UNKNOWN_NODE_ID).result
        = ElectionResult.ELECTION_LOST :=
  ⟨(eligibility_gate { three_node_env 2 200 200 100 100 with failover := .FAILOVER_MANUAL }
      .MS_NORMAL UNKNOWN_NODE_ID (by decide)).1 rfl,
    (eligibility_gate zero_priority_env .MS_NORMAL UNKNOWN_NODE_ID (by decide)).2
      (by decide) (by decide)⟩

/-- Counterexample to C8 as stated: the electoral term is readable and the
priority is 0, yet the result is ELECTION_LOST, not
ELECTION_NOT_CANDIDATE. -/
theorem zero_priority_is_lost_not_not_candidate :
    zero_priority_env.electoral_term ≠ -1
      ∧ zero_priority_env.local_node_info.priority ≤ 0
      ∧ (do_election zero_priority_env .MS_NORMAL UNKNOWN_NODE_ID).result
          = ElectionResult.ELECTION_LOST
      ∧ (do_election zero_priority_env .MS_NORMAL UNKNOWN_NODE_ID).result
          ≠ ElectionResult.ELECTION_NOT_CANDIDATE := by
  refine ⟨by decide, by decide, by decide, by decide⟩

theorem election_loop_body_location (loc : String) (mis : Int) (st st1 : ElectionLoopState)
    (s : SiblingProbe) (h : election_loop_body loc mis st s = .ok st1)
    (hs : s.conn_ok = true → s.node_info.location ≠ loc)
    (hst : st.primary_location_seen = false) :
    st1.primary_location_seen = false := by
  unfold election_loop_body at h
  rcases s with ⟨ni, conn, pid, ri, cf⟩
  cases conn
  · simp at h
    simp [← h, hst]
  · have hl : ¬ ni.location = loc := hs rfl
    rcases ri with _ | ri
    · simp only [Bool.true_eq_false, if_false] at h
      split_ifs at h <;> simp at h <;> simp [← h, hst, hl]
    · simp only [Bool.true_eq_false, if_false] at h
      split_ifs at h <;> simp at h <;> simp [← h, hst, hl]

theorem election_loop_location (loc : String) (mis : Int) :
    ∀ (l : List SiblingProbe) (st st1 : ElectionLoopState),
      election_loop loc mis st l = .ok st1 →
      (∀ s ∈ l, s.conn_ok = true → s.node_info.location ≠ loc) →
      st.primary_location_seen = false →
      st1.primary_location_seen = false := by
  intro l
  induction l with
  | nil =>
    intro st st1 h _ hst
    simp [election_loop] at h
    rw [← h]
    exact hst
  | cons s rest ih =>
    intro st st1 h hs hst
    simp only [election_loop] at h
    cases hb : election_loop_body loc mis st s with
    | error e => simp [hb] at h
    | ok st2 =>
      simp [hb] at h
      exact ih st2 st1 h (fun s' hs' => hs s' (List.mem_cons_of_mem _ hs'))
        (election_loop_body_location loc mis st st2 s hb (hs s (List.mem_cons_self _ _)) hst)

/-- C9 (as amended). Location gate: in every election in which the local
node's location differs from the failed primary's and no reachable sibling
is in the primary's location, `do_election` returns neither ELECTION_WON nor
ELECTION_RERUN. A sole node that passes the eligibility gates gets
ELECTION_NOT_CANDIDATE and enters degraded monitoring; a node with siblings
that reaches the sibling loop gets ELECTION_CANCELLED. -/
theorem location_gate (env : ElectionEnv) (ms : MonitoringState) (npi : Int)
    (hloc : env.upstream_node_info.location ≠ env.local_node_info.location)
    (hnone : ∀ s ∈ election_siblings env, s.conn_ok = true →
      s.node_info.location ≠ env.upstream_node_info.location) :
    (do_election env ms npi).result ≠ ElectionResult.ELECTION_WON
      ∧ (do_election env ms npi).result ≠ ElectionResult.ELECTION_RERUN
      ∧ (election_siblings env = [] → env.electoral_term ≠ -1 →
          env.failover ≠ t_failover_mode.FAILOVER_MANUAL → 0 < env.local_node_info.priority →
          (do_election env ms npi).result = ElectionResult.ELECTION_NOT_CANDIDATE
            ∧ (do_election env ms npi).monitoring_state = MonitoringState.MS_DEGRADED)
      ∧ (reaches_sibling_loop env = true →
          (do_election env ms npi).result = ElectionResult.ELECTION_CANCELLED) := by
  have hnot : ¬ ((do_election env ms npi).result = ElectionResult.ELECTION_WON
      ∨ (do_election env ms npi).result = ElectionResult.ELECTION_RERUN) := by
    intro h
    obtain ⟨_, _, _, hcase⟩ := do_election_won_rerun_inv env ms npi h
    rcases hcase with ⟨_, hl⟩ | ⟨lri, st, _, hloop, hpls, _⟩
    · exact hloc hl
    · have := election_loop_location _ _ _ _ _ hloop hnone (by simp [election_loop_init, hloc])
      rw [this] at hpls
      exact Bool.noConfusion hpls
  refine ⟨fun h => hnot (Or.inl h), fun h => hnot (Or.inr h), ?_, ?_⟩
  · intro hnil hterm hauto hprio
    have hp : ¬ env.local_node_info.priority ≤ 0 := by omega
    have hnil2 : get_active_sibling_node_records env.nodes env.local_node_info.node_id
        env.upstream_node_info.node_id = [] := hnil
    unfold do_election
    simp [hterm, hauto, hp, hnil2, hloc]
  · intro hgates
    obtain ⟨hterm, hauto, hprio, hsib, lri, hlri, hres⟩ := reaches_sibling_loop_inv env hgates
    cases hloop : election_loop env.upstream_node_info.location env.monitor_interval_secs
        (election_loop_init env lri) (election_siblings env) with
    | error id =>
      exact (do_election_loop_cancelled env ms npi lri id hterm hauto hprio hsib hlri hres
        hloop).1
    | ok st =>
      rw [do_election_after_loop env ms npi lri st hterm hauto hprio hsib hlri hres hloop]
      have := election_loop_location _ _ _ _ _ hloop hnone (by simp [election_loop_init, hloc])
      simp [this]

/-- Witness for C9: node 2 and its only sibling are both away from the
primary's location, and the election is cancelled. -/
theorem location_gate_witness :
    (do_election split_location_env .MS_NORMAL UNKNOWN_NODE_ID).result
      = ElectionResult.ELECTION_CANCELLED :=
  (location_gate split_location_env .MS_NORMAL UNKNOWN_NODE_ID (by decide) (by decide)).2.2.2
    (by decide)

/-- Counterexample to C9 as stated. (a) Node 2 is in a different location
than the failed primary and has a sibling, which is reachable and in the
primary's location: `do_election` returns ELECTION_WON. (b) A sole node in a
different location is not promoted: it gets ELECTION_NOT_CANDIDATE. -/
theorem other_location_node_can_win :
    other_location_env.upstream_node_info.location ≠ other_location_env.local_node_info.location
      ∧ (election_siblings other_location_env).length = 1
      ∧ (do_election other_location_env .MS_NORMAL UNKNOWN_NODE_ID).result
          = ElectionResult.ELECTION_WON
      ∧ election_siblings sole_other_location_env = []
      ∧ (do_election sole_other_location_env .MS_NORMAL UNKNOWN_NODE_ID).result
          = ElectionResult.ELECTION_NOT_CANDIDATE := by
  refine ⟨by decide, by decide, by decide, by decide, by decide⟩

theorem loop_visited_subset : ∀ (l : List SiblingProbe) (s : SiblingProbe),
    s ∈ loop_visited l → s ∈ l := by
  intro l
  induction l with
  | nil => intro s h; simp [loop_visited] at h
  | cons a rest ih =>
    intro s h
    unfold loop_visited at h
    split_ifs at h
    · simp at h
      simp [h]
    · rcases List.mem_cons.mp h with h1 | h1
      · simp [h1]
      · exact List.mem_cons_of_mem _ (ih s h1)

theorem probed_siblings_inv (env : ElectionEnv) (s : SiblingProbe)
    (h : s ∈ probed_siblings env) :
    reaches_sibling_loop env = true ∧ s ∈ election_siblings env := by
  unfold probed_siblings at h
  split_ifs at h with hg
  · exact ⟨hg, loop_visited_subset _ s h⟩
  · simp at h

theorem election_loop_body_ends (loc : String) (mis : Int) (st : ElectionLoopState)
    (s : SiblingProbe) :
    (ends_election s = true → election_loop_body loc mis st s = .error s.node_info.node_id)
      ∧ (ends_election s = false → ∃ st1, election_loop_body loc mis st s = .ok st1) := by
  unfold election_loop_body ends_election
  rcases s with ⟨ni, conn, pid, ri, cf⟩
  cases conn
  · simp
  · rcases ri with _ | ri
    · simp only [Bool.true_eq_false, if_false]
      constructor
      · simp
      · intro _
        split_ifs <;> exact ⟨_, rfl⟩
    · simp only [Bool.true_eq_false, if_false]
      constructor
      · intro h
        simp only [Bool.and_eq_true, decide_eq_true_eq, Bool.not_eq_true', Bool.true_and] at h
        simp [h.1, h.2.1, h.2.2]
      · intro h
        simp only [Bool.true_and, Bool.and_eq_false_iff, decide_eq_false_iff_not,
          Bool.not_eq_false', not_not] at h
        split_ifs <;> first | exact ⟨_, rfl⟩ | (exfalso; simp_all)

/-- The sibling loop returns at the first visited cell that ends the
election, with that cell's node id. -/
theorem election_loop_ends (loc : String) (mis : Int) (S : SiblingProbe) :
    ∀ (l : List SiblingProbe) (st : ElectionLoopState),
      S ∈ loop_visited l → ends_election S = true →
      election_loop loc mis st l = .error S.node_info.node_id := by
  intro l
  induction l with
  | nil => intro st h; simp [loop_visited] at h
  | cons a rest ih =>
    intro st hmem hends
    unfold loop_visited at hmem
    by_cases ha : ends_election a = true
    · simp only [ha, if_true, List.mem_singleton] at hmem
      subst hmem
      simp only [election_loop, (election_loop_body_ends loc mis st S).1 ha]
    · simp only [ha] at hmem
      simp only [Bool.not_eq_true] at ha
      obtain ⟨st1, hst1⟩ := (election_loop_body_ends loc mis st a).2 ha
      simp only [election_loop, hst1]
      apply ih
      · simp only [Bool.false_eq_true, if_false] at hmem
        rcases List.mem_cons.mp hmem with h | h
        · subst h
          rw [hends] at ha
          exact Bool.noConfusion ha
        · exact h
      · exact hends

/-- What `do_primary_failover` does after a cancelled election that found a
new primary: it calls `follow_new_primary` for that id, once, and does not
run the promote command. -/
theorem do_primary_failover_follows_detour (fenv : FailoverEnv) (st : DaemonState) (id : Int)
    (hres : (do_election fenv.election st.monitoring_state UNKNOWN_NODE_ID).result
      = ElectionResult.ELECTION_CANCELLED)
    (hnew : (do_election fenv.election st.monitoring_state UNKNOWN_NODE_ID).new_primary_id = id)
    (hid : id ≠ UNKNOWN_NODE_ID) :
    ∃ tail, (do_primary_failover fenv st).1.actions
        = st.actions ++ Action.follow_new_primary id :: tail
      ∧ (∀ j, Action.follow_new_primary j ∉ tail)
      ∧ Action.promote_command ∉ tail := by
  unfold do_primary_failover
  simp only [failover_election_dispatch, hres, hnew, hid, if_false]
  simp only [failover_follow_or_wait, if_true]
  cases hf : fenv.follow_new_primary id <;>
    simp [failover_resolve, DaemonState.record, hf]

/-- C11. Unexpected-primary detour: in every election, if a sibling that the
election probes (reachable, repmgrd running, replication info read) reports
`in_recovery = false` and `check_node_can_follow` accepts it, `do_election`
returns ELECTION_CANCELLED with `new_primary_id` set to that sibling's node
id, and `do_primary_failover` then runs `follow_new_primary` for exactly
that id and does not run the promote command. Node ids are valid ids, at
least `MIN_NODE_ID`. -/
theorem unexpected_primary_detour (fenv : FailoverEnv) (st : DaemonState)
    (S : SiblingProbe) (ri : ReplInfo)
    (hprobed : S ∈ probed_siblings fenv.election)
    (hconn : S.conn_ok = true)
    (hpid : S.repmgrd_pid ≠ UNKNOWN_PID)
    (hri : S.repl_info = some ri)
    (hrec : ri.in_recovery = false)
    (hfollow : S.can_follow = true)
    (hid : MIN_NODE_ID ≤ S.node_info.node_id) :
    (∀ (ms : MonitoringState) (npi : Int),
        (do_election fenv.election ms npi).result = ElectionResult.ELECTION_CANCELLED
          ∧ (do_election fenv.election ms npi).new_primary_id = S.node_info.node_id)
      ∧ ∃ tail, (do_primary_failover fenv st).1.actions
          = st.actions ++ Action.follow_new_primary S.node_info.node_id :: tail
        ∧ (∀ j, Action.follow_new_primary j ∉ tail)
        ∧ Action.promote_command ∉ tail := by
  have hends : ends_election S = true := by
    unfold ends_election
    simp [hconn, hpid, hri, hrec, hfollow]
  have hgates : reaches_sibling_loop fenv.election = true := (probed_siblings_inv _ S hprobed).1
  have hvis : S ∈ loop_visited (election_siblings fenv.election) := by
    unfold probed_siblings at hprobed
    simpa [hgates] using hprobed
  obtain ⟨hterm, hauto, hprio, hsib, lri, hlri, hres⟩ :=
    reaches_sibling_loop_inv fenv.election hgates
  have hloop := election_loop_ends fenv.election.upstream_node_info.location
    fenv.election.monitor_interval_secs S (election_siblings fenv.election)
    (election_loop_init fenv.election lri) hvis hends
  have hel : ∀ (ms : MonitoringState) (npi : Int),
      (do_election fenv.election ms npi).result = ElectionResult.ELECTION_CANCELLED
        ∧ (do_election fenv.election ms npi).new_primary_id = S.node_info.node_id :=
    fun ms npi => do_election_loop_cancelled fenv.election ms npi lri _ hterm hauto hprio hsib
      hlri hres hloop
  refine ⟨hel, ?_⟩
  apply do_primary_failover_follows_detour fenv st _ (hel _ _).1 (hel _ _).2
  unfold MIN_NODE_ID at hid
  unfold UNKNOWN_NODE_ID
  omega

/-- Witness for C11: node 2 finds sibling 3 out of recovery and able to be
followed; the election is cancelled with `new_primary_id = 3` and the
failover follows node 3. -/
theorem unexpected_primary_detour_witness :
    (do_election detour_env .MS_NORMAL UNKNOWN_NODE_ID).result
        = ElectionResult.ELECTION_CANCELLED
      ∧ (do_election detour_env .MS_NORMAL UNKNOWN_NODE_ID).new_primary_id = 3
      ∧ (do_primary_failover (failover_env detour_env none)
          (idle_state detour_env.local_node_info)).1.actions = [Action.follow_new_primary 3] := by
  obtain ⟨h1, tail, h2, _, _⟩ :=
    unexpected_primary_detour (failover_env detour_env none)
      (idle_state detour_env.local_node_info) (promoted_sibling 3 100 200)
      ⟨false, 200, 200, false, -1⟩ (by decide) (by decide) (by decide) rfl rfl (by decide)
      (by decide)
  exact ⟨(h1 .MS_NORMAL UNKNOWN_NODE_ID).1, (h1 .MS_NORMAL UNKNOWN_NODE_ID).2, by decide⟩

/-- The final decision of `do_election` as a function of the selected
candidate. -/
theorem do_election_of_selected (env : ElectionEnv) (ms : MonitoringState) (npi : Int)
    (c : t_node_info) (h : selected_candidate env = some c) :
    (do_election env ms npi).result =
      if c.node_id = env.local_node_info.node_id then
        if env.failover_validation_command ≠ "" then
          execute_failover_validation_command env.validation_run
        else ElectionResult.ELECTION_WON
      else ElectionResult.ELECTION_LOST := by
  unfold selected_candidate at h
  split_ifs at h with h1 h2 h3 h4 h5
  · simp only [Option.some.injEq] at h
    subst h
    unfold do_election
    have h4' : (get_active_sibling_node_records env.nodes env.local_node_info.node_id
        env.upstream_node_info.node_id).length = 0 := h4
    simp only [h1, h2, h3, h4', h5, if_true, if_false]
    split_ifs <;> rfl
  · cases hl : env.local_replication_info with
    | none => simp [hl] at h
    | some lri =>
      simp only [hl] at h
      split_ifs at h with h6
      cases hloop : election_loop env.upstream_node_info.location env.monitor_interval_secs
          (election_loop_init env lri) (election_siblings env) with
      | error id => simp [hloop] at h
      | ok st =>
        simp only [hloop] at h
        split_ifs at h with h7 h8 h9
        simp only [Option.some.injEq] at h
        subst h
        have hres : lri.wal_replay_paused = true → env.resume_wal_replay = true := by
          intro hp
          by_contra hr
          simp only [Bool.not_eq_true] at hr
          exact h6 ⟨hp, hr⟩
        have hsib : election_siblings env ≠ [] := by
          intro hnil
          exact h4 (by rw [hnil]; rfl)
        rw [do_election_after_loop env ms npi lri st h1 h2 (by omega) hsib hl hres hloop]
        simp only [h7, h8, if_false]
        rw [if_neg h9]
        simp

/-- The validation command decides between WON and RERUN on its exit
status alone; a command that could not be run leaves the status at -1. -/
theorem execute_failover_validation_command_won (run : LocalCommandRun) :
    (execute_failover_validation_command run = ElectionResult.ELECTION_WON
        ↔ run.popen_ok = true ∧ WEXITSTATUS run.pclose_status = 0)
      ∧ (¬ (run.popen_ok = true ∧ WEXITSTATUS run.pclose_status = 0) →
          execute_failover_validation_command run = ElectionResult.ELECTION_RERUN) := by
  unfold execute_failover_validation_command local_command_return_value
  rcases run with ⟨ok, status⟩
  cases ok <;> simp

/-- What decides the final election result. When the selected candidate is
the local node and `failover_validation_command` is set, the result is
ELECTION_WON if and only if the command ran and `WEXITSTATUS` of the wait
status that `pclose` returned is zero, whether or not the command exited,
and ELECTION_RERUN otherwise, a command that could not be run included; when
the command is not set the result is ELECTION_WON; when the selected
candidate is another node the result is ELECTION_LOST. -/
theorem final_election_result (env : ElectionEnv) (ms : MonitoringState) (npi : Int)
    (c : t_node_info) (h : selected_candidate env = some c) :
    (c.node_id = env.local_node_info.node_id → env.failover_validation_command ≠ "" →
        ((do_election env ms npi).result = ElectionResult.ELECTION_WON
            ↔ env.validation_run.popen_ok = true
              ∧ WEXITSTATUS env.validation_run.pclose_status = 0)
          ∧ (¬ (env.validation_run.popen_ok = true
                ∧ WEXITSTATUS env.validation_run.pclose_status = 0) →
              (do_election env ms npi).result = ElectionResult.ELECTION_RERUN))
      ∧ (c.node_id = env.local_node_info.node_id → env.failover_validation_command = "" →
          (do_election env ms npi).result = ElectionResult.ELECTION_WON)
      ∧ (c.node_id ≠ env.local_node_info.node_id →
          (do_election env ms npi).result = ElectionResult.ELECTION_LOST) := by
  rw [do_election_of_selected env ms npi c h]
  refine ⟨?_, ?_, ?_⟩
  · intro hc hcmd
    simp only [hc, hcmd, if_true, ne_eq, not_false_eq_true]
    exact execute_failover_validation_command_won env.validation_run
  · intro hc hcmd
    simp [hc, hcmd]
  · intro hc
    simp [hc]

/-- The sole node 2 with a validation command wins when the command exits
with status 0, and reruns the election when it exits with status 1 or cannot
be run. -/
theorem final_election_result_witness :
    (do_election (validated_env ⟨true, 0⟩) .MS_NORMAL UNKNOWN_NODE_ID).result
        = ElectionResult.ELECTION_WON
      ∧ (do_election (validated_env ⟨true, 256⟩) .MS_NORMAL UNKNOWN_NODE_ID).result
        = ElectionResult.ELECTION_RERUN
      ∧ (do_election (validated_env ⟨false, 0⟩) .MS_NORMAL UNKNOWN_NODE_ID).result
        = ElectionResult.ELECTION_RERUN :=
  ⟨((final_election_result (validated_env ⟨true, 0⟩) .MS_NORMAL UNKNOWN_NODE_ID
        (standby_node 2 100 "default") (by decide)).1 (by decide) (by decide)).1.mpr (by decide),
    ((final_election_result (validated_env ⟨true, 256⟩) .MS_NORMAL UNKNOWN_NODE_ID
        (standby_node 2 100 "default") (by decide)).1 (by decide) (by decide)).2 (by decide),
    ((final_election_result (validated_env ⟨false, 0⟩) .MS_NORMAL UNKNOWN_NODE_ID
        (standby_node 2 100 "default") (by decide)).1 (by decide) (by decide)).2 (by decide)⟩

/-- C12, the run on which the code departs from the property. The sole node
2 runs its `failover_validation_command`, and the command is killed by
signal 9: `pclose` returns the wait status 9, which is not the status of a
process that exited. `_local_command` applies `WEXITSTATUS` to it without
testing `WIFEXITED` and stores 0 in `return_value`, so
`execute_failover_validation_command` and with it `do_election` return
ELECTION_WON, and `do_primary_failover` runs the promote command, although
the validation command did not exit with status zero. The same wait status
returned by the promote command, which is tested as it is, counts as a
failure. -/
theorem validation_command_killed_by_signal_wins :
    WIFEXITED 9 = false
      ∧ WTERMSIG 9 = 9
      ∧ WEXITSTATUS 9 = 0
      ∧ local_command_return_value ⟨true, 9⟩ (-1) = (true, 0)
      ∧ execute_failover_validation_command ⟨true, 9⟩ = ElectionResult.ELECTION_WON
      ∧ (do_election (validated_env ⟨true, 9⟩) .MS_NORMAL UNKNOWN_NODE_ID).result
          = ElectionResult.ELECTION_WON
      ∧ Action.promote_command ∈
          (do_primary_failover (failover_env (validated_env ⟨true, 9⟩) none)
            (idle_state (standby_node 2 100 "default"))).1.actions
      ∧ (promote_self { promote_ok with promote_command_status := 9 }
            (idle_state (standby_node 2 100 "default"))).1
          = FailoverState.FAILOVER_STATE_PROMOTION_FAILED := by
  refine ⟨by decide, by decide, by decide, by decide, by decide, by decide, by decide,
    by decide⟩

/-- The function `do_primary_failover` is its final switch applied to the
state resolved before it. -/
theorem do_primary_failover_eq (env : FailoverEnv) (st : DaemonState) :
    do_primary_failover env st =
      match failover_before_resolve env st with
      | none => (after_election env st, false)
      | some r => failover_resolve env r.2 r.1 := by
  unfold do_primary_failover failover_before_resolve
  simp only
  split <;> simp_all

/-- After a lost election, or for a node that is not a candidate,
`do_primary_failover` waits for a notification. -/
theorem failover_before_resolve_waiting (env : FailoverEnv) (st : DaemonState)
    (hres : (do_election env.election st.monitoring_state UNKNOWN_NODE_ID).result
        = ElectionResult.ELECTION_LOST
      ∨ (do_election env.election st.monitoring_state UNKNOWN_NODE_ID).result
        = ElectionResult.ELECTION_NOT_CANDIDATE) :
    failover_before_resolve env st =
      some (failover_follow_or_wait env
        (do_election env.election st.monitoring_state UNKNOWN_NODE_ID).sibling_nodes
        (do_election env.election st.monitoring_state UNKNOWN_NODE_ID).new_primary_id
        (waiting_state env st)) := by
  unfold failover_before_resolve waiting_state
  rcases hres with h | h <;> simp [failover_election_dispatch, h]

/-- C13 (as amended). Notification dispatch. After an election result of
LOST or NOT_CANDIDATE, `do_primary_failover` resolves a received target id
`t`, testing in this order: `t` = original upstream id gives
FOLLOWING_ORIGINAL_PRIMARY; `t` = own node id runs `promote_self`; `t` =
ELECTION_RERUN_NOTIFICATION gives ELECTION_RERUN; for every other `t` a node
in manual failover mode gives REQUIRES_MANUAL_FAILOVER without following,
and a node in automatic failover mode runs `follow_new_primary (t)`. When no
notification arrives the state is NO_NEW_PRIMARY, in degraded monitoring. -/
theorem notification_dispatch (env : FailoverEnv) (st : DaemonState)
    (hres : (do_election env.election st.monitoring_state UNKNOWN_NODE_ID).result
        = ElectionResult.ELECTION_LOST
      ∨ (do_election env.election st.monitoring_state UNKNOWN_NODE_ID).result
        = ElectionResult.ELECTION_NOT_CANDIDATE) :
    ∃ r, failover_before_resolve env st = some r ∧
      (∀ t, env.notification = some t →
        (t = env.election.upstream_node_info.node_id →
            r.1.failover_state = FailoverState.FAILOVER_STATE_FOLLOWING_ORIGINAL_PRIMARY
              ∧ r.1.actions = st.actions)
          ∧ (t ≠ env.election.upstream_node_info.node_id → t = st.local_node_info.node_id →
            r.1.failover_state = (promote_self env.promote (waiting_state env st)).1
              ∧ r.1.actions = (promote_self env.promote (waiting_state env st)).2.actions)
          ∧ (t ≠ env.election.upstream_node_info.node_id → t ≠ st.local_node_info.node_id →
            t = ELECTION_RERUN_NOTIFICATION →
            r.1.failover_state = FailoverState.FAILOVER_STATE_ELECTION_RERUN
              ∧ r.1.actions = st.actions)
          ∧ (t ≠ env.election.upstream_node_info.node_id → t ≠ st.local_node_info.node_id →
            t ≠ ELECTION_RERUN_NOTIFICATION →
            env.election.failover = t_failover_mode.FAILOVER_MANUAL →
            r.1.failover_state = FailoverState.FAILOVER_STATE_REQUIRES_MANUAL_FAILOVER
              ∧ ∀ j, Action.follow_new_primary j ∈ r.1.actions →
                  Action.follow_new_primary j ∈ st.actions)
          ∧ (t ≠ env.election.upstream_node_info.node_id → t ≠ st.local_node_info.node_id →
            t ≠ ELECTION_RERUN_NOTIFICATION →
            env.election.failover ≠ t_failover_mode.FAILOVER_MANUAL →
            r.1.failover_state = env.follow_new_primary t
              ∧ r.1.actions = st.actions ++ [Action.follow_new_primary t]))
      ∧ (env.notification = none →
          r.1.failover_state = FailoverState.FAILOVER_STATE_NO_NEW_PRIMARY
            ∧ r.1.monitoring_state = MonitoringState.MS_DEGRADED
            ∧ r.1.actions = st.actions) := by
  refine ⟨_, failover_before_resolve_waiting env st hres, ?_, ?_⟩
  · intro t ht
    refine ⟨?_, ?_, ?_, ?_, ?_⟩
    · intro h1
      simp [failover_follow_or_wait, waiting_state, ht, h1]
    · intro h1 h2
      subst h2
      simp [failover_follow_or_wait, waiting_state, ht, h1]
    · intro h1 h2 h3
      subst h3
      simp only [failover_follow_or_wait, waiting_state, ht]
      simp [h1, h2]
    · intro h1 h2 h3 h4
      simp only [failover_follow_or_wait, waiting_state, ht]
      by_cases hrec : env.new_primary_record_found = true <;>
        simp [h1, h2, h3, h4, hrec, DaemonState.record]
    · intro h1 h2 h3 h4
      simp only [failover_follow_or_wait, waiting_state, ht]
      simp [h1, h2, h3, h4, DaemonState.record]
  · intro hn
    simp [failover_follow_or_wait, waiting_state, hn]

/-- Witness for C13: node 3 loses the election of scenario 1 and is then
notified to follow node 2. -/
theorem notification_dispatch_witness :
    ∃ r, failover_before_resolve (failover_env (three_node_env 3 200 200 100 100) (some 2))
        (idle_state (standby_node 3 100 "default")) = some r
      ∧ r.1.failover_state = FailoverState.FAILOVER_STATE_FOLLOWED_NEW_PRIMARY
      ∧ r.1.actions = [Action.follow_new_primary 2] := by
  obtain ⟨r, hr, hsome, _⟩ :=
    notification_dispatch (failover_env (three_node_env 3 200 200 100 100) (some 2))
      (idle_state (standby_node 3 100 "default")) (Or.inl (by decide))
  have h := (hsome 2 rfl).2.2.2.2 (by decide) (by decide) (by decide) (by decide)
  exact ⟨r, hr, h.1, h.2⟩

/-- Counterexample to C13 as stated: node 3 is in manual failover mode, its
election returns ELECTION_NOT_CANDIDATE and it is notified of the new primary
2 (neither the original upstream 1, nor itself, nor the rerun signal); it
resolves to REQUIRES_MANUAL_FAILOVER and `follow_new_primary` is not run. -/
theorem manual_node_does_not_follow :
    (do_election manual_env .MS_NORMAL UNKNOWN_NODE_ID).result
        = ElectionResult.ELECTION_NOT_CANDIDATE
      ∧ (failover_before_resolve (failover_env manual_env (some 2))
          (idle_state (standby_node 3 100 "default"))).map (fun r => r.1.failover_state)
        = some FailoverState.FAILOVER_STATE_REQUIRES_MANUAL_FAILOVER
      ∧ Action.follow_new_primary 2 ∉
          (do_primary_failover (failover_env manual_env (some 2))
            (idle_state (standby_node 3 100 "default"))).1.actions := by
  refine ⟨by decide, by decide, by decide⟩

theorem follow_new_primary_results (env : FollowEnv) :
    follow_new_primary env = .FAILOVER_STATE_FOLLOW_FAIL
      ∨ follow_new_primary env = .FAILOVER_STATE_PRIMARY_REAPPEARED
      ∨ follow_new_primary env = .FAILOVER_STATE_FOLLOWED_NEW_PRIMARY := by
  unfold follow_new_primary
  split_ifs <;> simp

theorem refresh_local_node_info_congr (o : Option t_node_info) (s1 s2 : DaemonState)
    (h : s1.local_node_info = s2.local_node_info) :
    (refresh_local_node_info o s1).local_node_info
      = (refresh_local_node_info o s2).local_node_info := by
  unfold refresh_local_node_info
  cases o <;> simp [h]

/-- What `promote_self` leaves behind: it never notifies followers itself,
it keeps the node id, it returns one of four states, and when it returns
FAILOVER_STATE_PROMOTED the promote command was run with status zero and the
local node record was re-read after it. -/
theorem promote_self_inv (env : PromoteEnv) (st st0 : DaemonState)
    (h0 : st.local_node_info = st0.local_node_info) :
    (∀ l id, Action.notify_followers l id ∈ (promote_self env st).2.actions →
        Action.notify_followers l id ∈ st.actions)
      ∧ (promote_self env st).2.local_node_info.node_id = st0.local_node_info.node_id
      ∧ ((promote_self env st).1 = .FAILOVER_STATE_PROMOTION_FAILED
          ∨ (promote_self env st).1 = .FAILOVER_STATE_LOCAL_NODE_FAILURE
          ∨ (promote_self env st).1 = .FAILOVER_STATE_PRIMARY_REAPPEARED
          ∨ (promote_self env st).1 = .FAILOVER_STATE_PROMOTED)
      ∧ ((promote_self env st).1 = .FAILOVER_STATE_PROMOTED →
          env.promote_command_status = 0
            ∧ Action.promote_command ∈ (promote_self env st).2.actions
            ∧ (promote_self env st).2.local_node_info
                = (refresh_local_node_info env.own_record st0).local_node_info) := by
  rw [← refresh_local_node_info_congr env.own_record st st0 h0, ← h0]
  unfold promote_self
  cases hfp : env.failed_primary with
  | none =>
    simp only
    split_ifs <;> simp [DaemonState.record]
  | some fp =>
    cases hown : env.own_record <;>
      simp only <;>
      split_ifs <;>
      simp_all [DaemonState.record, increment_current_term, refresh_local_node_info]

theorem failover_env_follows_as_coded (election : ElectionEnv) (notification : Option Int) :
    follows_as_coded (failover_env election notification) :=
  ⟨fun _ => ⟨true, true, true, .RECTYPE_PRIMARY, 0, false, .RECTYPE_UNKNOWN, true, true, true⟩,
    fun _ => rfl⟩

theorem sub_uint64_of_le (a b : Nat) (ha : a < UINT64_SIZE) (hb : b ≤ a) :
    sub_uint64 a b = a - b := by
  unfold sub_uint64
  unfold UINT64_SIZE at *
  have h1 : b % 18446744073709551616 = b := Nat.mod_eq_of_lt (by omega)
  rw [h1]
  omega

/-- C15. For all 64-bit LSN values `primary_lsn`, `recv_lsn` and
`replay_lsn`: when `primary_lsn` is valid (non-zero), both connections are
up and the replication info is read, `update_monitoring_history` writes a
row whose `replication_lag_bytes` is `max (0, primary_lsn - recv_lsn)` and
whose `apply_lag_bytes` is `max (0, recv_lsn - replay_lsn)`, both computed
without unsigned wrap-around and hence non-negative; when `primary_lsn` is
invalid no row is written. -/
theorem monitoring_lag_non_negative (env : MonitoringEnv) (ri : ReplInfo)
    (hri : env.replication_info = some ri)
    (hprimary : env.primary_last_wal_location < UINT64_SIZE)
    (hrecv : ri.last_wal_receive_lsn < UINT64_SIZE) :
    (env.primary_last_wal_location = InvalidXLogRecPtr → update_monitoring_history env = none)
      ∧ (env.primary_last_wal_location ≠ InvalidXLogRecPtr → env.primary_conn_ok = true →
          env.local_conn_ok = true →
          ∃ row, update_monitoring_history env = some row)
      ∧ (∀ row, update_monitoring_history env = some row →
          (row.replication_lag_bytes : Int)
              = max 0 ((env.primary_last_wal_location : Int) - (ri.last_wal_receive_lsn : Int))
            ∧ (row.apply_lag_bytes : Int)
              = max 0 ((ri.last_wal_receive_lsn : Int) - (ri.last_wal_replay_lsn : Int))
            ∧ (0 : Int) ≤ row.replication_lag_bytes ∧ (0 : Int) ≤ row.apply_lag_bytes) := by
  refine ⟨?_, ?_, ?_⟩
  · intro h0
    unfold update_monitoring_history
    simp [hri, h0]
  · intro h0 h1 h2
    unfold update_monitoring_history
    simp [hri, h0, h1, h2]
  · intro row hrow
    unfold update_monitoring_history at hrow
    simp only [hri] at hrow
    split_ifs at hrow <;>
      simp only [Option.some.injEq] at hrow <;>
      subst hrow <;>
      simp only <;>
      refine ⟨?_, ?_, by omega, by omega⟩ <;>
      first
        | (rw [sub_uint64_of_le _ _ (by assumption) (by omega)]; omega)
        | omega

/-- Witness for C15: the primary is at LSN 300, the standby received up to
250 and replayed up to 200; the row holds a replication lag of 50 bytes and
an apply lag of 50 bytes. -/
theorem monitoring_lag_non_negative_witness :
    update_monitoring_history ⟨true, true, some ⟨true, 250, 200, false, 0⟩, 300⟩
        = some ⟨300, 250, 50, 50⟩
      ∧ update_monitoring_history ⟨true, true, some ⟨true, 250, 200, false, 0⟩, 0⟩ = none := by
  obtain ⟨h1, _, _⟩ :=
    monitoring_lag_non_negative ⟨true, true, some ⟨true, 250, 200, false, 0⟩, 0⟩
      ⟨true, 250, 200, false, 0⟩ rfl (by decide) (by decide)
  exact ⟨by decide, h1 rfl⟩

theorem primary_degraded_timeout (env : PrimaryDegradedEnv)
    (h1 : env.degraded_monitoring_timeout > 0)
    (h2 : env.degraded_monitoring_elapsed > env.degraded_monitoring_timeout) :
    monitor_streaming_primary_degraded_block env .MS_DEGRADED
      = .terminates .ERR_MONITORING_TIMEOUT := by
  unfold monitor_streaming_primary_degraded_block
  simp [h1, h2]

theorem standby_degraded_timeout (env : StandbyDegradedEnv)
    (h1 : env.degraded_monitoring_timeout > 0)
    (h2 : env.degraded_monitoring_elapsed > env.degraded_monitoring_timeout) :
    monitor_streaming_standby_degraded_block env .MS_DEGRADED
      = .terminates .ERR_MONITORING_TIMEOUT := by
  unfold monitor_streaming_standby_degraded_block
  simp [h1, h2]

theorem witness_degraded_never_terminates (env : WitnessDegradedEnv)
    (monitoring_state : MonitoringState) (code : ExitCode) :
    (monitor_streaming_witness_degraded_block env monitoring_state).1 ≠ .terminates code := by
  unfold monitor_streaming_witness_degraded_block
  dsimp only
  split_ifs <;> simp

/-- C16, the run on which the code departs from the property. With
`degraded_monitoring_timeout` set to 10 seconds and 100 seconds elapsed in
degraded monitoring, the degraded block of the primary loop and that of the
standby loop end in `terminate (ERR_MONITORING_TIMEOUT)`; the degraded block
of the witness loop, in monitoring state DEGRADED with the same timeout and
the same time elapsed, scans its siblings and falls through to the rest of
the loop: the daemon keeps running. -/
theorem degraded_timeout_missing_on_witness :
    monitor_streaming_primary_degraded_block timed_out_primary .MS_DEGRADED
        = .terminates .ERR_MONITORING_TIMEOUT
      ∧ monitor_streaming_standby_degraded_block timed_out_standby .MS_DEGRADED
        = .terminates .ERR_MONITORING_TIMEOUT
      ∧ timed_out_witness.degraded_monitoring_timeout > 0
      ∧ timed_out_witness.degraded_monitoring_elapsed
          > timed_out_witness.degraded_monitoring_timeout
      ∧ monitor_streaming_witness_degraded_block timed_out_witness .MS_DEGRADED
        = (.falls_through, []) := by
  refine ⟨by decide, by decide, by decide, by decide, by decide⟩

theorem witness_follow_new_primary_calls (env : WitnessFollowEnv) (local_node_id id : Int) :
    DaemonCall.do_election ∉ (witness_follow_new_primary env local_node_id id).2
      ∧ DaemonCall.promote_self ∉ (witness_follow_new_primary env local_node_id id).2 := by
  unfold witness_follow_new_primary
  dsimp only
  split_ifs <;> simp

theorem witness_follow_new_primary_result (env : WitnessFollowEnv) (local_node_id id : Int) :
    ((witness_follow_new_primary env local_node_id id).1
          = FailoverState.FAILOVER_STATE_FOLLOWED_NEW_PRIMARY
        ∧ env.new_primary_record_found = true ∧ env.upstream_conn_ok = true
        ∧ env.primary_recovery_type = RecoveryType.RECTYPE_PRIMARY
        ∧ env.upstream_record_found = true ∧ env.local_record_found = true)
      ∨ ((witness_follow_new_primary env local_node_id id).1
          = FailoverState.FAILOVER_STATE_FOLLOW_FAIL
        ∧ ¬ (env.new_primary_record_found = true ∧ env.upstream_conn_ok = true
          ∧ env.primary_recovery_type = RecoveryType.RECTYPE_PRIMARY
          ∧ env.upstream_record_found = true ∧ env.local_record_found = true)) := by
  unfold witness_follow_new_primary
  rcases env with ⟨a, b, c, d, e⟩
  cases a <;> cases b <;> cases c <;> cases d <;> cases e <;> simp

theorem witness_follow_new_primary_update (env : WitnessFollowEnv) (local_node_id id : Int) :
    DaemonCall.update_node_record_set_upstream local_node_id id
        ∈ (witness_follow_new_primary env local_node_id id).2
      ↔ (env.new_primary_record_found = true ∧ env.upstream_conn_ok = true
          ∧ env.primary_recovery_type = RecoveryType.RECTYPE_PRIMARY) := by
  unfold witness_follow_new_primary
  rcases env with ⟨a, b, c, d, e⟩
  cases a <;> cases b <;> cases c <;> cases d <;> cases e <;> simp

/-- C17 (as amended). A witness never votes or promotes: whatever the wait
for a notification delivers, `do_witness_failover` calls neither
`do_election` nor `promote_self`. A notification equal to the original
upstream id gives FOLLOWING_ORIGINAL_PRIMARY. Any other notified id is handed
to `witness_follow_new_primary`: `upstream_node_id` is set to that id on the
new primary exactly when the witness finds the node's record in its local
copy and the node is a reachable primary, and the state is
FOLLOWED_NEW_PRIMARY exactly when in addition the records of the new primary
and of the witness are read back from the new primary; otherwise it is
FOLLOW_FAIL. A timeout gives NO_NEW_PRIMARY. The function returns true
exactly in the FOLLOWING_ORIGINAL_PRIMARY and FOLLOWED_NEW_PRIMARY cases. -/
theorem witness_never_votes (env : WitnessFailoverEnv) (ms : MonitoringState) :
    DaemonCall.do_election ∉ (do_witness_failover env ms).calls
      ∧ DaemonCall.promote_self ∉ (do_witness_failover env ms).calls
      ∧ (env.notification = some env.upstream_node_id →
          (do_witness_failover env ms).reached
            = FailoverState.FAILOVER_STATE_FOLLOWING_ORIGINAL_PRIMARY)
      ∧ (∀ id, env.notification = some id → id ≠ env.upstream_node_id →
          DaemonCall.witness_follow_new_primary id ∈ (do_witness_failover env ms).calls
            ∧ (DaemonCall.update_node_record_set_upstream env.local_node_id id
                  ∈ (do_witness_failover env ms).calls
                ↔ (env.follow.new_primary_record_found = true
                  ∧ env.follow.upstream_conn_ok = true
                  ∧ env.follow.primary_recovery_type = RecoveryType.RECTYPE_PRIMARY))
            ∧ ((do_witness_failover env ms).reached
                  = FailoverState.FAILOVER_STATE_FOLLOWED_NEW_PRIMARY
                ↔ (env.follow.new_primary_record_found = true
                  ∧ env.follow.upstream_conn_ok = true
                  ∧ env.follow.primary_recovery_type = RecoveryType.RECTYPE_PRIMARY
                  ∧ env.follow.upstream_record_found = true
                  ∧ env.follow.local_record_found = true))
            ∧ ((do_witness_failover env ms).reached
                  = FailoverState.FAILOVER_STATE_FOLLOWED_NEW_PRIMARY
                ∨ (do_witness_failover env ms).reached
                  = FailoverState.FAILOVER_STATE_FOLLOW_FAIL))
      ∧ (env.notification = none →
          (do_witness_failover env ms).reached = FailoverState.FAILOVER_STATE_NO_NEW_PRIMARY)
      ∧ ((do_witness_failover env ms).result = true
          ↔ ((do_witness_failover env ms).reached
                = FailoverState.FAILOVER_STATE_FOLLOWING_ORIGINAL_PRIMARY
              ∨ (do_witness_failover env ms).reached
                = FailoverState.FAILOVER_STATE_FOLLOWED_NEW_PRIMARY)) := by
  have hreached : (do_witness_failover env ms).reached = (witness_failover_wait env ms).1 := by
    unfold do_witness_failover
    dsimp only
    split <;> rfl
  have hcalls : (do_witness_failover env ms).calls = (witness_failover_wait env ms).2.2 := by
    unfold do_witness_failover
    dsimp only
    split <;> rfl
  have hwait : (witness_failover_wait env ms).1
        ≠ FailoverState.FAILOVER_STATE_PRIMARY_REAPPEARED := by
    unfold witness_failover_wait
    cases hn : env.notification with
    | none => simp
    | some id =>
      by_cases hid : id = env.upstream_node_id
      · simp [hid]
      · rcases witness_follow_new_primary_result env.follow env.local_node_id id with h | h
        · simp [hid, h.1]
        · simp [hid, h.1]
  have hresult : (do_witness_failover env ms).result = true
      ↔ ((witness_failover_wait env ms).1
            = FailoverState.FAILOVER_STATE_FOLLOWING_ORIGINAL_PRIMARY
          ∨ (witness_failover_wait env ms).1
            = FailoverState.FAILOVER_STATE_FOLLOWED_NEW_PRIMARY) := by
    unfold do_witness_failover
    dsimp only
    generalize (witness_failover_wait env ms).1 = r at hwait
    cases r <;> simp at hwait ⊢
  rw [hreached, hcalls]
  refine ⟨?_, ?_, ?_, ?_, ?_, hresult⟩
  · unfold witness_failover_wait
    cases hn : env.notification with
    | none => simp
    | some id =>
      by_cases hid : id = env.upstream_node_id
      · simp [hid]
      · simp [hid, (witness_follow_new_primary_calls env.follow env.local_node_id id).1]
  · unfold witness_failover_wait
    cases hn : env.notification with
    | none => simp
    | some id =>
      by_cases hid : id = env.upstream_node_id
      · simp [hid]
      · simp [hid, (witness_follow_new_primary_calls env.follow env.local_node_id id).2]
  · intro h
    unfold witness_failover_wait
    simp [h]
  · intro id h hne
    unfold witness_failover_wait
    simp only [h, if_neg hne]
    refine ⟨by simp, ?_, ?_, ?_⟩
    · rw [← witness_follow_new_primary_update env.follow env.local_node_id id]
      simp
    · rcases witness_follow_new_primary_result env.follow env.local_node_id id with h1 | h1
      · simp [h1]
      · constructor
        · intro h2
          rw [h1.1] at h2
          cases h2
        · intro h2
          exact absurd h2 h1.2
    · rcases witness_follow_new_primary_result env.follow env.local_node_id id with h1 | h1
      · exact Or.inl h1.1
      · exact Or.inr h1.1
  · intro h
    unfold witness_failover_wait
    simp [h]

/-- Witness for C17: witness 9 is notified of the new primary 3 after the
failure of primary 1, and follows it. -/
theorem witness_never_votes_witness :
    (witness_env (some 3)).notification = some 3
      ∧ (3 : Int) ≠ (witness_env (some 3)).upstream_node_id
      ∧ (do_witness_failover (witness_env (some 3)) .MS_NORMAL).reached
          = FailoverState.FAILOVER_STATE_FOLLOWED_NEW_PRIMARY
      ∧ (do_witness_failover (witness_env (some 3)) .MS_NORMAL).result = true
      ∧ DaemonCall.update_node_record_set_upstream 9 3
          ∈ (do_witness_failover (witness_env (some 3)) .MS_NORMAL).calls := by
  obtain ⟨_, _, _, h, _, hres⟩ := witness_never_votes (witness_env (some 3)) .MS_NORMAL
  obtain ⟨_, hupd, hfol, _⟩ := h 3 rfl (by decide)
  have h1 := hfol.2 (by decide)
  exact ⟨rfl, by decide, h1, hres.2 (Or.inr h1), hupd.2 (by decide)⟩

/-- C17, the run on which the property as first stated fails. Witness 9 is
notified of the new primary 3, a node that is reachable and answers as a
primary, but whose record is not in the witness's local copy of the node
records: `witness_follow_new_primary` gives FOLLOW_FAIL without updating
`upstream_node_id`, and `do_witness_failover` returns false in degraded
monitoring. -/
theorem witness_follow_fails_on_reachable_primary :
    witness_stale_records_env.notification = some 3
      ∧ witness_stale_records_env.follow.upstream_conn_ok = true
      ∧ witness_stale_records_env.follow.primary_recovery_type = RecoveryType.RECTYPE_PRIMARY
      ∧ (do_witness_failover witness_stale_records_env .MS_NORMAL).reached
          = FailoverState.FAILOVER_STATE_FOLLOW_FAIL
      ∧ DaemonCall.update_node_record_set_upstream 9 3
          ∉ (do_witness_failover witness_stale_records_env .MS_NORMAL).calls
      ∧ (do_witness_failover witness_stale_records_env .MS_NORMAL).result = false
      ∧ (do_witness_failover witness_stale_records_env .MS_NORMAL).monitoring_state
          = MonitoringState.MS_DEGRADED := by
  refine ⟨by decide, by decide, by decide, by decide, by decide, by decide, by decide⟩

theorem char_at_append (p s : List Char) (i : Nat) :
    char_at (p ++ s) (p.length + i) = char_at s i := by
  unfold char_at
  rw [List.append_assoc]
  simp [List.getD_eq_getElem?_getD, List.getElem?_append_right]

theorem char_at_nil (i : Nat) : char_at [] i = '\x00' := by
  unfold char_at
  cases i <;> simp [List.getD_eq_getElem?_getD]

theorem char_at_cons_zero (c : Char) (s : List Char) : char_at (c :: s) 0 = c := by
  unfold char_at
  simp [List.getD_eq_getElem?_getD]

theorem char_at_cons_succ (c : Char) (s : List Char) (i : Nat) :
    char_at (c :: s) (i + 1) = char_at s i := by
  unfold char_at
  simp [List.getD_eq_getElem?_getD]

theorem parse_failover_validation_command_loop_eq (node_info : t_node_info) :
    ∀ (n : Nat) (s p out : List Char) (fuel : Nat), s.length ≤ n →
      '\x00' ∉ s → s.length < fuel →
      parse_failover_validation_command_loop (p ++ s) node_info fuel p.length out
        = some (out ++ substitute_placeholders node_info s) := by
  intro n
  induction n using Nat.strong_induction_on with
  | _ n ih =>
    intro s p out fuel hn hnul hfuel
    cases fuel with
    | zero => omega
    | succ fuel =>
      have h0 : char_at (p ++ s) p.length = char_at s 0 := by
        simpa using char_at_append p s 0
      have h1 : char_at (p ++ s) (p.length + 1) = char_at s 1 := char_at_append p s 1
      unfold parse_failover_validation_command_loop
      rw [h0, h1]
      match s, hn, hnul, hfuel with
      | [], _, _, _ =>
        simp [char_at_nil, substitute_placeholders]
      | [c], hn, hnul, hfuel =>
        have hc : c ≠ '\x00' := by
          intro h
          apply hnul
          simp [h]
        have hstep := ih 0 (by simp at hn; omega) [] (p ++ [c]) (out ++ [c]) fuel
          (by simp) (by simp) (by simp at hfuel ⊢; omega)
        simp only [List.append_assoc, List.singleton_append, List.length_append,
          List.length_singleton, substitute_placeholders, List.append_nil] at hstep
        simp only [char_at_cons_zero, char_at_cons_succ, char_at_nil, if_neg hc]
        have hn0 : ¬ ('\x00' = '%') := by decide
        have hn1 : ¬ ('\x00' = 'n') := by decide
        have hn2 : ¬ ('\x00' = 'a') := by decide
        simp only [if_neg hn0, if_neg hn1, if_neg hn2, ite_self, substitute_placeholders]
        exact hstep
      | c :: d :: rest, hn, hnul, hfuel =>
        have hc : c ≠ '\x00' := by
          intro h
          apply hnul
          simp [h]
        have hrest : '\x00' ∉ rest := by
          intro h
          apply hnul
          simp [h]
        have hdrest : '\x00' ∉ d :: rest := by
          intro h
          apply hnul
          exact List.mem_cons_of_mem _ h
        simp only [List.length_cons] at hn hfuel
        have hstep1 := ih (rest.length + 1) (by omega) (d :: rest) (p ++ [c])
          (out ++ [c]) fuel (by simp) hdrest (by simp; omega)
        have hstep2 := fun o => ih rest.length (by omega) rest (p ++ [c, d]) o fuel
          (le_refl _) hrest (by omega)
        simp only [List.append_assoc, List.singleton_append, List.length_append,
          List.length_singleton, List.cons_append, List.nil_append, List.length_cons,
          List.length_nil] at hstep1 hstep2
        simp only [char_at_cons_zero, char_at_cons_succ, if_neg hc]
        unfold substitute_placeholders
        by_cases hp : c = '%'
        · subst hp
          by_cases h1 : d = '%'
          · subst h1
            simp [hstep2]
          · by_cases h2 : d = 'n'
            · subst h2
              simp [hstep2]
            · by_cases h3 : d = 'a'
              · subst h3
                simp [hstep2]
              · simp [h1, h2, h3, hstep1]
        · simp [hp, hstep1]

theorem substitute_placeholders_no_percent (node_info : t_node_info) :
    ∀ (n : Nat) (s : List Char), s.length ≤ n → '%' ∉ s →
      substitute_placeholders node_info s = s := by
  intro n
  induction n with
  | zero =>
    intro s hn _
    have : s = [] := List.length_eq_zero.mp (by omega)
    subst this
    simp [substitute_placeholders]
  | succ n ih =>
    intro s hn hp
    match s, hn, hp with
    | [], _, _ => simp [substitute_placeholders]
    | [c], _, _ => simp [substitute_placeholders]
    | c :: d :: rest, hn, hp =>
      have hc : c ≠ '%' := by
        intro h
        apply hp
        simp [h]
      have hdrest : '%' ∉ d :: rest := by
        intro h
        apply hp
        exact List.mem_cons_of_mem _ h
      unfold substitute_placeholders
      simp only [List.length_cons] at hn
      simp [hc, ih (d :: rest) (by simp; omega) hdrest]

/-- C18. For every template string (a sequence of characters other than
NUL) and every node, `parse_failover_validation_command` returns, and its
output is the template with each `%n` replaced by the node id in decimal,
each `%a` by the node name, each `%%` by a single `%`, and every other
character copied unchanged and in order, a `%` followed by any other
character or standing at the end of the string included; a template without
`%` is returned unchanged. -/
theorem parse_failover_validation_command_substitutes (template : List Char)
    (node_info : t_node_info) (hnul : '\x00' ∉ template) :
    parse_failover_validation_command template node_info
        = some (substitute_placeholders node_info template)
      ∧ ('%' ∉ template → parse_failover_validation_command template node_info = some template)
      ∧ (∀ c, c ≠ '%' → c ≠ 'n' → c ≠ 'a' → ∀ rest,
          substitute_placeholders node_info ('%' :: c :: rest)
            = '%' :: substitute_placeholders node_info (c :: rest))
      ∧ substitute_placeholders node_info ['%'] = ['%'] := by
  have h := parse_failover_validation_command_loop_eq node_info template.length template []
    [] (template.length + 1) (le_refl _) hnul (by omega)
  simp only [List.nil_append, List.length_nil] at h
  refine ⟨h, ?_, ?_, ?_⟩
  · intro hp
    unfold parse_failover_validation_command
    rw [h, substitute_placeholders_no_percent node_info template.length template (le_refl _) hp]
  · intro c h1 h2 h3 rest
    rw [substitute_placeholders]
    simp [h1, h2, h3]
  · simp [substitute_placeholders]

/-- Witness for C18: the template `check %n %a 100%% %x %` for node 2 named
`node` becomes `check 2 node 100% %x %`. -/
theorem parse_failover_validation_command_substitutes_witness :
    parse_failover_validation_command "check %n %a 100%% %x %".toList
        (standby_node 2 100 "default")
      = some "check 2 node 100% %x %".toList := by
  have h := (parse_failover_validation_command_substitutes "check %n %a 100%% %x %".toList
    (standby_node 2 100 "default") (by decide)).1
  rw [h]
  decide

theorem set_node_status_ids (c s : Int) (l : List t_node_status_rec) :
    (set_node_status c s l).map (fun rec => rec.node_id) = l.map (fun rec => rec.node_id) := by
  induction l with
  | nil => rfl
  | cons a rest ih =>
    unfold set_node_status
    split_ifs <;> simp [ih]

theorem set_node_status_valid (c s : Int) (hs : valid_status s) (l : List t_node_status_rec)
    (hl : ∀ rec ∈ l, valid_status rec.node_status) :
    ∀ rec ∈ set_node_status c s l, valid_status rec.node_status := by
  induction l with
  | nil => simp [set_node_status]
  | cons a rest ih =>
    unfold set_node_status
    split_ifs
    · intro rec hrec
      rcases List.mem_cons.mp hrec with h | h
      · subst h
        exact hs
      · exact hl rec (List.mem_cons_of_mem _ h)
    · intro rec hrec
      rcases List.mem_cons.mp hrec with h | h
      · subst h
        exact hl _ (List.mem_cons_self _ _)
      · exact ih (fun r hr => hl r (List.mem_cons_of_mem _ hr)) rec h

theorem matrix_set_node_status_over (n c s : Int) (hs : valid_status s) (ids : List Int) :
    ∀ (ids0 : List Int) (m : List t_node_matrix_rec),
      m.map (fun row => row.node_id) = ids0 →
      (∀ row ∈ m, row.node_status_list.map (fun rec => rec.node_id) = ids
          ∧ ∀ rec ∈ row.node_status_list, valid_status rec.node_status) →
      (matrix_set_node_status m n c s).map (fun row => row.node_id) = ids0
        ∧ ∀ row ∈ matrix_set_node_status m n c s,
            row.node_status_list.map (fun rec => rec.node_id) = ids
              ∧ ∀ rec ∈ row.node_status_list, valid_status rec.node_status := by
  intro ids0 m
  induction m generalizing ids0 with
  | nil =>
    intro h1 _
    simpa [matrix_set_node_status] using h1
  | cons a rest ih =>
    intro h1 h2
    unfold matrix_set_node_status
    split_ifs
    · refine ⟨by simpa using h1, ?_⟩
      intro row hrow
      rcases List.mem_cons.mp hrow with h | h
      · subst h
        have ha := h2 a (List.mem_cons_self _ _)
        exact ⟨by simpa [set_node_status_ids] using ha.1,
          set_node_status_valid c s hs _ ha.2⟩
      · exact h2 row (List.mem_cons_of_mem _ h)
    · have hr := ih (rest.map (fun row => row.node_id)) rfl
        (fun r hr => h2 r (List.mem_cons_of_mem _ hr))
      refine ⟨?_, ?_⟩
      · simp only [List.map_cons] at h1 ⊢
        rw [hr.1]
        exact h1
      · intro row hrow
        rcases List.mem_cons.mp hrow with h | h
        · subst h
          exact h2 _ (List.mem_cons_self _ _)
        · exact hr.2 row h

theorem matrix_set_node_status_matrix_over (n c s : Int) (hs : valid_status s) (ids : List Int)
    (m : List t_node_matrix_rec) (h : matrix_over ids m) :
    matrix_over ids (matrix_set_node_status m n c s) :=
  matrix_set_node_status_over n c s hs ids ids m h.1 h.2

theorem parse_cluster_show_over (c : Int) (ids : List Int) :
    ∀ (k : Nat) (lines : List ScanResult) (x : Int) (m : List t_node_matrix_rec),
      matrix_over ids m → matrix_over ids (parse_cluster_show c k lines x m) := by
  intro k
  induction k with
  | zero =>
    intro lines x m h
    simpa [parse_cluster_show] using h
  | succ k ih =>
    intro lines x m h
    unfold parse_cluster_show
    split
    · apply ih
      apply matrix_set_node_status_matrix_over _ _ _ _ _ _ h
      unfold valid_status
      split_ifs <;> simp
    · apply ih
      exact matrix_set_node_status_matrix_over _ _ _ (Or.inl rfl) _ _ h
    · apply ih
      exact matrix_set_node_status_matrix_over _ _ _ (Or.inl rfl) _ _ h

theorem fill_matrix_over (local_node_id : Int) (node_count : Nat) (ids : List Int) :
    ∀ (cells : List MatrixNodeProbe) (m : List t_node_matrix_rec),
      matrix_over ids m → matrix_over ids (fill_matrix local_node_id node_count cells m) := by
  intro cells
  induction cells with
  | nil =>
    intro m h
    simpa [fill_matrix] using h
  | cons cell rest ih =>
    intro m h
    unfold fill_matrix
    have hset : matrix_over ids
        (matrix_set_node_status m local_node_id cell.node_id
          (if cell.conn_ok = true then 0 else -1)) := by
      apply matrix_set_node_status_matrix_over _ _ _ _ _ _ h
      unfold valid_status
      split_ifs <;> simp
    dsimp only
    generalize (if cell.conn_ok = true then (0 : Int) else -1) = connection_status at hset
    split_ifs
    · exact ih _ hset
    · exact ih _ hset
    · exact ih _ hset
    · exact ih _ (parse_cluster_show_over _ _ _ _ _ _ hset)

theorem init_matrix_over (nodes : List MatrixNodeProbe) :
    matrix_over (nodes.map (fun cell => cell.node_id)) (init_matrix nodes) := by
  unfold matrix_over init_matrix
  refine ⟨by simp [Function.comp_def], ?_⟩
  intro row hrow
  rcases List.mem_map.mp hrow with ⟨cell, _, hcell⟩
  subst hcell
  refine ⟨by simp [Function.comp_def], ?_⟩
  intro rec hrec
  rcases List.mem_map.mp hrec with ⟨cj, _, hcj⟩
  subst hcj
  exact Or.inl rfl

theorem print_matrix_csv_length (ids : List Int) :
    ∀ (m : List t_node_matrix_rec),
      (∀ row ∈ m, row.node_status_list.map (fun rec => rec.node_id) = ids) →
      (print_matrix_csv m).length = m.length * ids.length := by
  intro m
  induction m with
  | nil => simp [print_matrix_csv]
  | cons a rest ih =>
    intro h
    unfold print_matrix_csv
    have ha : a.node_status_list.length = ids.length := by
      have := congrArg List.length (h a (List.mem_cons_self _ _))
      simpa using this
    rw [List.length_append, List.length_map, ha,
      ih (fun r hr => h r (List.mem_cons_of_mem _ hr)), List.length_cons]
    ring

theorem print_matrix_csv_lines :
    ∀ (m : List t_node_matrix_rec) (line : String), line ∈ print_matrix_csv m →
      ∃ row ∈ m, ∃ rec ∈ row.node_status_list,
        line = csv_line row.node_id rec.node_id rec.node_status := by
  intro m
  induction m with
  | nil => simp [print_matrix_csv]
  | cons a rest ih =>
    intro line hline
    unfold print_matrix_csv at hline
    rcases List.mem_append.mp hline with h | h
    · rcases List.mem_map.mp h with ⟨rec, hrec, hl⟩
      exact ⟨a, List.mem_cons_self _ _, rec, hrec, hl.symm⟩
    · rcases ih line h with ⟨row, hrow, rec, hrec, hl⟩
      exact ⟨row, List.mem_cons_of_mem _ hrow, rec, hrec, hl⟩

/-- C19. For every node list of size n, all connection results and all
outputs of the remote `cluster show --csv`: `build_cluster_matrix` builds a
matrix of n rows of n cells, one per node in the order of the list, in which
every cell holds a status in `{-2, -1, 0}`, and `cluster matrix --csv` prints
exactly n * n lines, each of the form `source_id,target_id,status` with
source and target ids of the node list and a status in `{-2, -1, 0}`. -/
theorem cluster_matrix_statuses (env : MatrixEnv) (nodes : List MatrixNodeProbe)
    (hnodes : env.nodes = some nodes) :
    (nodes ≠ [] → ∃ m, build_cluster_matrix env = .ok m)
      ∧ (∀ m, build_cluster_matrix env = .ok m →
          m.length = nodes.length
            ∧ m.map (fun row => row.node_id) = nodes.map (fun cell => cell.node_id)
            ∧ ∀ row ∈ m, row.node_status_list.length = nodes.length
                ∧ row.node_status_list.map (fun rec => rec.node_id)
                    = nodes.map (fun cell => cell.node_id)
                ∧ ∀ rec ∈ row.node_status_list,
                    rec.node_status = -2 ∨ rec.node_status = -1 ∨ rec.node_status = 0)
      ∧ (do_cluster_matrix env).length = nodes.length * nodes.length
      ∧ ∀ line ∈ do_cluster_matrix env,
          ∃ source_id target_id status,
            line = csv_line source_id target_id status
              ∧ source_id ∈ nodes.map (fun cell => cell.node_id)
              ∧ target_id ∈ nodes.map (fun cell => cell.node_id)
              ∧ (status = -2 ∨ status = -1 ∨ status = 0) := by
  have hover := fill_matrix_over env.local_node_id nodes.length _ nodes _ (init_matrix_over nodes)
  have hlen : (fill_matrix env.local_node_id nodes.length nodes (init_matrix nodes)).length
      = nodes.length := by
    have := congrArg List.length hover.1
    simpa using this
  by_cases hempty : nodes.length = 0
  · have hnil : nodes = [] := List.length_eq_zero.mp hempty
    have hbuild : build_cluster_matrix env = .error .ERR_BAD_CONFIG := by
      unfold build_cluster_matrix
      simp [hnodes, hnil]
    refine ⟨fun h => absurd hnil h, ?_, ?_, ?_⟩
    · intro m hm
      rw [hbuild] at hm
      cases hm
    · unfold do_cluster_matrix
      rw [hbuild]
      simp [hnil]
    · unfold do_cluster_matrix
      rw [hbuild]
      simp
  · have hbuild : build_cluster_matrix env
        = .ok (fill_matrix env.local_node_id nodes.length nodes (init_matrix nodes)) := by
      unfold build_cluster_matrix
      simp [hnodes, hempty]
    refine ⟨fun _ => ⟨_, hbuild⟩, ?_, ?_, ?_⟩
    · intro m hm
      rw [hbuild] at hm
      cases hm
      refine ⟨hlen, hover.1, ?_⟩
      intro row hrow
      have hr := hover.2 row hrow
      refine ⟨?_, hr.1, hr.2⟩
      have := congrArg List.length hr.1
      simpa using this
    · unfold do_cluster_matrix
      rw [hbuild]
      dsimp only
      rw [print_matrix_csv_length (nodes.map (fun cell => cell.node_id)) _
        (fun row hrow => (hover.2 row hrow).1), hlen]
      simp
    · intro line hline
      unfold do_cluster_matrix at hline
      rw [hbuild] at hline
      rcases print_matrix_csv_lines _ line hline with ⟨row, hrow, rec, hrec, hl⟩
      refine ⟨row.node_id, rec.node_id, rec.node_status, hl, ?_, ?_, (hover.2 row hrow).2 rec hrec⟩
      · rw [← hover.1]
        exact List.mem_map.mpr ⟨row, hrow, rfl⟩
      · rw [← (hover.2 row hrow).1]
        exact List.mem_map.mpr ⟨rec, hrec, rfl⟩

/-- Witness for C19: three nodes seen from node 1, of which node 2 answers
and reports node 3 down and node 3 does not answer; nine lines are printed. -/
theorem cluster_matrix_statuses_witness :
    (do_cluster_matrix matrix_env).length = 3 * 3
      ∧ do_cluster_matrix matrix_env
        = ["1,1,0", "1,2,0", "1,3,-1", "2,1,0", "2,2,0", "2,3,-1", "3,1,-2", "3,2,-2", "3,3,-2"] := by
  have h := (cluster_matrix_statuses matrix_env _ rfl).2.2.1
  exact ⟨h, by decide⟩

/-- C20. Whenever `do_election` returns ELECTION_WON or ELECTION_RERUN,
failover mode is automatic, the local priority is greater than 0, and either
there are no siblings and the node shares the failed primary's location, or
strictly more than half of the nodes were visible
(`2 * visible_nodes > total_nodes`, with `total_nodes` the active siblings
plus one and `visible_nodes` the local node plus the siblings connected to)
and at least one visible node, the local node included, is in the primary's
location. -/
theorem won_or_rerun_needs_majority_and_location (env : ElectionEnv) (ms : MonitoringState)
    (npi : Int)
    (h : (do_election env ms npi).result = ElectionResult.ELECTION_WON
      ∨ (do_election env ms npi).result = ElectionResult.ELECTION_RERUN) :
    env.failover = t_failover_mode.FAILOVER_AUTOMATIC
      ∧ 0 < env.local_node_info.priority
      ∧ ((election_siblings env = []
            ∧ env.local_node_info.location = env.upstream_node_info.location)
          ∨ (2 * reachable_nodes env > total_nodes env
            ∧ (env.local_node_info.location = env.upstream_node_info.location
              ∨ ∃ s ∈ election_siblings env,
                  s.conn_ok = true
                    ∧ s.node_info.location = env.upstream_node_info.location))) := by
  obtain ⟨_, hmode, hprio, hrest⟩ := do_election_won_rerun_inv env ms npi h
  refine ⟨?_, hprio, ?_⟩
  · cases hf : env.failover with
    | FAILOVER_MANUAL => exact absurd hf hmode
    | FAILOVER_AUTOMATIC => rfl
  · rcases hrest with ⟨hnil, hloc⟩ | ⟨lri, st, _, hloop, hseen, _, hquorum, _⟩
    · exact Or.inl ⟨hnil, hloc.symm⟩
    · right
      have hvis := election_loop_visible _ _ _ _ _ hloop
      constructor
      · unfold reachable_nodes total_nodes
        simp only [election_loop_init] at hvis
        rw [hvis] at hquorum
        simp only [election_siblings]
        omega
      · by_contra hnone
        simp only [not_or, not_exists, not_and] at hnone
        have hfalse := election_loop_location _ _ _ _ _ hloop
          (fun s hs hconn => hnone.2 s hs hconn)
          (by
            simp only [election_loop_init, decide_eq_false_iff_not]
            exact fun heq => hnone.1 heq.symm)
        rw [hfalse] at hseen
        cases hseen

/-- Witness for C20: node 2 of scenario 1 wins the election; it sees itself
and its sibling 3, both nodes of the election, in the primary's location. -/
theorem won_or_rerun_needs_majority_and_location_witness :
    (do_election (three_node_env 2 200 200 100 100) .MS_NORMAL UNKNOWN_NODE_ID).result
        = ElectionResult.ELECTION_WON
      ∧ 2 * reachable_nodes (three_node_env 2 200 200 100 100)
          > total_nodes (three_node_env 2 200 200 100 100) :=
  ⟨by decide,
    ((won_or_rerun_needs_majority_and_location (three_node_env 2 200 200 100 100) .MS_NORMAL
        UNKNOWN_NODE_ID (Or.inl (by decide))).2.2.resolve_left (by decide)).1⟩

/-- The state that `do_election` leaves when the sibling loop ran to its end
and one of the three cancelling tests fires: degraded monitoring, with
`*new_primary_id` as it was. -/
theorem do_election_after_loop_cancelled (env : ElectionEnv) (ms : MonitoringState) (npi : Int)
    (lri : ReplInfo) (st : ElectionLoopState)
    (hterm : env.electoral_term ≠ -1)
    (hauto : env.failover ≠ t_failover_mode.FAILOVER_MANUAL)
    (hprio : 0 < env.local_node_info.priority)
    (hsib : election_siblings env ≠ [])
    (hlri : env.local_replication_info = some lri)
    (hresume : lri.wal_replay_paused = true → env.resume_wal_replay = true)
    (hloop : election_loop env.upstream_node_info.location env.monitor_interval_secs
      (election_loop_init env lri) (election_siblings env) = .ok st)
    (hcancel : st.primary_location_seen = false
      ∨ (st.nodes_with_primary_still_visible > 0 ∧ env.primary_visibility_consensus = true)
      ∨ 2 * st.visible_nodes ≤ ((election_siblings env).length : Int) + 1) :
    (do_election env ms npi).result = ElectionResult.ELECTION_CANCELLED
      ∧ (do_election env ms npi).monitoring_state = MonitoringState.MS_DEGRADED
      ∧ (do_election env ms npi).new_primary_id = npi := by
  have hlen : ¬ (get_active_sibling_node_records env.nodes env.local_node_info.node_id
      env.upstream_node_info.node_id).length = 0 := by
    intro h
    exact hsib (List.length_eq_zero.mp h)
  have hp : ¬ env.local_node_info.priority ≤ 0 := by omega
  have hr : ¬ (lri.wal_replay_paused = true ∧ env.resume_wal_replay = false) := by
    rintro ⟨a, b⟩
    rw [hresume a] at b
    exact Bool.noConfusion b
  simp only [election_siblings] at hloop hcancel
  unfold do_election
  simp only [hterm, hauto, hp, hlen, hlri, hr, hloop, if_false]
  by_cases h1 : st.primary_location_seen = false
  · simp [h1]
  · by_cases h2 : st.nodes_with_primary_still_visible > 0
        ∧ env.primary_visibility_consensus = true
    · simp only [h1, h2, if_false]
      simp
    · have h3 : 2 * st.visible_nodes ≤ ((get_active_sibling_node_records env.nodes
          env.local_node_info.node_id env.upstream_node_info.node_id).length : Int) + 1 := by
        rcases hcancel with h | h | h
        · exact absurd h h1
        · exact absurd h h2
        · exact h
      simp only [h1, h2, h3, if_false, if_true]
      simp

/-- The state that `do_election` leaves when the sibling loop returns early:
the monitoring state is the one on entry. -/
theorem do_election_loop_cancelled_state (env : ElectionEnv) (ms : MonitoringState) (npi : Int)
    (lri : ReplInfo) (id : Int)
    (hterm : env.electoral_term ≠ -1)
    (hauto : env.failover ≠ t_failover_mode.FAILOVER_MANUAL)
    (hprio : 0 < env.local_node_info.priority)
    (hsib : election_siblings env ≠ [])
    (hlri : env.local_replication_info = some lri)
    (hresume : lri.wal_replay_paused = true → env.resume_wal_replay = true)
    (hloop : election_loop env.upstream_node_info.location env.monitor_interval_secs
      (election_loop_init env lri) (election_siblings env) = .error id) :
    (do_election env ms npi).monitoring_state = ms := by
  have hlen : ¬ (get_active_sibling_node_records env.nodes env.local_node_info.node_id
      env.upstream_node_info.node_id).length = 0 := by
    intro h
    exact hsib (List.length_eq_zero.mp h)
  have hp : ¬ env.local_node_info.priority ≤ 0 := by omega
  have hr : ¬ (lri.wal_replay_paused = true ∧ env.resume_wal_replay = false) := by
    rintro ⟨a, b⟩
    rw [hresume a] at b
    exact Bool.noConfusion b
  simp only [election_siblings] at hloop
  unfold do_election
  simp only [hterm, hauto, hp, hlen, hlri, hr, hloop, if_false]

/-- The sibling loop runs to its end when no sibling ends the election. -/
theorem election_loop_no_detour (loc : String) (mis : Int) :
    ∀ (l : List SiblingProbe) (st : ElectionLoopState),
      (∀ s ∈ l, ends_election s = false) → ∃ st1, election_loop loc mis st l = .ok st1 := by
  intro l
  induction l with
  | nil => intro st _; exact ⟨st, by simp [election_loop]⟩
  | cons a rest ih =>
    intro st h
    obtain ⟨st1, hst1⟩ := (election_loop_body_ends loc mis st a).2 (h a (List.mem_cons_self _ _))
    obtain ⟨st2, hst2⟩ := ih st1 (fun s hs => h s (List.mem_cons_of_mem _ hs))
    exact ⟨st2, by simp only [election_loop, hst1, hst2]⟩

/-- C21 (as amended). A candidate node (one that passed every gate before
the sibling loop) with `visible_nodes <= total_nodes / 2` always gets
ELECTION_CANCELLED, but the unexpected-primary detour is taken inside the
sibling loop, before the quorum rule: when no sibling ends the election (none
is reachable, runs repmgrd, reports out of recovery and can be followed) the
monitoring state is set to DEGRADED and `new_primary_id` is left as it was;
when a sibling that the loop visits ends the election, `new_primary_id` is
that sibling's id and the monitoring state is left as it was. -/
theorem quorum_rule_after_detour (env : ElectionEnv) (ms : MonitoringState) (npi : Int)
    (hgates : reaches_sibling_loop env = true)
    (hminor : 2 * reachable_nodes env ≤ total_nodes env) :
    (do_election env ms npi).result = ElectionResult.ELECTION_CANCELLED
      ∧ ((∀ s ∈ election_siblings env, ends_election s = false) →
          (do_election env ms npi).monitoring_state = MonitoringState.MS_DEGRADED
            ∧ (do_election env ms npi).new_primary_id = npi)
      ∧ (∀ S ∈ loop_visited (election_siblings env), ends_election S = true →
          (do_election env ms npi).monitoring_state = ms
            ∧ (do_election env ms npi).new_primary_id = S.node_info.node_id) := by
  obtain ⟨hterm, hauto, hprio, hsib, lri, hlri, hres⟩ := reaches_sibling_loop_inv env hgates
  have hquorum : ∀ st, election_loop env.upstream_node_info.location env.monitor_interval_secs
      (election_loop_init env lri) (election_siblings env) = .ok st →
      2 * st.visible_nodes ≤ ((election_siblings env).length : Int) + 1 := by
    intro st hloop
    have hvis := election_loop_visible _ _ _ _ _ hloop
    rw [hvis]
    simp only [election_loop_init]
    unfold reachable_nodes total_nodes at hminor
    omega
  refine ⟨?_, ?_, ?_⟩
  · cases hloop : election_loop env.upstream_node_info.location env.monitor_interval_secs
        (election_loop_init env lri) (election_siblings env) with
    | error id =>
      exact (do_election_loop_cancelled env ms npi lri id hterm hauto hprio hsib hlri hres
        hloop).1
    | ok st =>
      exact (do_election_after_loop_cancelled env ms npi lri st hterm hauto hprio hsib hlri hres
        hloop (Or.inr (Or.inr (hquorum st hloop)))).1
  · intro hnone
    obtain ⟨st, hloop⟩ := election_loop_no_detour env.upstream_node_info.location
      env.monitor_interval_secs (election_siblings env) (election_loop_init env lri) hnone
    exact (do_election_after_loop_cancelled env ms npi lri st hterm hauto hprio hsib hlri hres
      hloop (Or.inr (Or.inr (hquorum st hloop)))).2
  · intro S hS hends
    have hloop := election_loop_ends env.upstream_node_info.location
      env.monitor_interval_secs S (election_siblings env) (election_loop_init env lri) hS hends
    exact ⟨do_election_loop_cancelled_state env ms npi lri _ hterm hauto hprio hsib hlri hres
        hloop,
      (do_election_loop_cancelled env ms npi lri _ hterm hauto hprio hsib hlri hres hloop).2⟩

/-- Witness for C21: scenario 4 of the specification, a candidate that sees
itself and one of four siblings; the election is cancelled, in degraded
monitoring, without a new primary. -/
theorem quorum_rule_after_detour_witness :
    (do_election minority_env .MS_NORMAL UNKNOWN_NODE_ID).result
        = ElectionResult.ELECTION_CANCELLED
      ∧ (do_election minority_env .MS_NORMAL UNKNOWN_NODE_ID).monitoring_state
        = MonitoringState.MS_DEGRADED
      ∧ (do_election minority_env .MS_NORMAL UNKNOWN_NODE_ID).new_primary_id
        = UNKNOWN_NODE_ID := by
  obtain ⟨h1, h2, _⟩ :=
    quorum_rule_after_detour minority_env .MS_NORMAL UNKNOWN_NODE_ID (by decide) (by decide)
  exact ⟨h1, h2 (by decide)⟩

/-- C21, the run on which the property as first stated fails. The candidate
of scenario 4 reaches 2 of 5 nodes, so `visible_nodes <= total_nodes / 2`,
and its one reachable sibling, node 3, is out of recovery and can be
followed: `do_election` returns from inside the sibling loop with
`new_primary_id` set to 3 and the monitoring state still NORMAL, and
`do_primary_failover` goes on to follow node 3. -/
theorem detour_precedes_quorum_rule :
    reaches_sibling_loop minority_detour_env = true
      ∧ 2 * reachable_nodes minority_detour_env ≤ total_nodes minority_detour_env
      ∧ (do_election minority_detour_env .MS_NORMAL UNKNOWN_NODE_ID).result
          = ElectionResult.ELECTION_CANCELLED
      ∧ (do_election minority_detour_env .MS_NORMAL UNKNOWN_NODE_ID).new_primary_id = 3
      ∧ (do_election minority_detour_env .MS_NORMAL UNKNOWN_NODE_ID).monitoring_state
          = MonitoringState.MS_NORMAL
      ∧ Action.follow_new_primary 3 ∈
          (do_primary_failover (failover_env minority_detour_env none)
            (idle_state minority_detour_env.local_node_info)).1.actions := by
  refine ⟨by decide, by decide, by decide, by decide, by decide, by decide⟩

theorem follows_as_coded_results (env : FailoverEnv) (h : follows_as_coded env) (id : Int) :
    env.follow_new_primary id = .FAILOVER_STATE_FOLLOW_FAIL
      ∨ env.follow_new_primary id = .FAILOVER_STATE_PRIMARY_REAPPEARED
      ∨ env.follow_new_primary id = .FAILOVER_STATE_FOLLOWED_NEW_PRIMARY := by
  obtain ⟨f, hf⟩ := h
  rw [hf id]
  exact follow_new_primary_results (f id)

/-- The wait for a notification ends in FAILOVER_STATE_NO_NEW_PRIMARY only on
a timeout, in degraded monitoring, and in FAILOVER_STATE_ELECTION_RERUN only
on the rerun signal, with nothing done. -/
theorem failover_wait_states (env : FailoverEnv) (w : DaemonState)
    (sib : List SiblingProbe) (npi : Int)
    (hcoded : follows_as_coded env)
    (hw1 : w.failover_state = .FAILOVER_STATE_WAITING_NEW_PRIMARY) :
    ((failover_follow_or_wait env sib npi w).1.failover_state = .FAILOVER_STATE_NO_NEW_PRIMARY →
        (failover_follow_or_wait env sib npi w).1.monitoring_state = .MS_DEGRADED)
      ∧ ((failover_follow_or_wait env sib npi w).1.failover_state
            = .FAILOVER_STATE_ELECTION_RERUN →
          env.notification = some ELECTION_RERUN_NOTIFICATION
            ∧ (failover_follow_or_wait env sib npi w).1.actions = w.actions
            ∧ (failover_follow_or_wait env sib npi w).1.upstream_node_status
                = w.upstream_node_status) := by
  unfold failover_follow_or_wait
  simp only [hw1, if_true]
  have hne : ¬ (FailoverState.FAILOVER_STATE_WAITING_NEW_PRIMARY
      = FailoverState.FAILOVER_STATE_FOLLOW_NEW_PRIMARY) := by decide
  simp only [hne, if_false]
  cases hn : env.notification with
  | none => simp
  | some t =>
    simp only
    have hp := (promote_self_inv env.promote w w rfl).2.2.1
    generalize promote_self env.promote w = ps at hp ⊢
    have hf := follows_as_coded_results env hcoded t
    by_cases h1 : t = env.election.upstream_node_info.node_id
    · simp [h1]
    · simp only [h1, if_false]
      by_cases h2 : t = w.local_node_info.node_id
      · simp only [h2, if_true]
        rcases hp with h | h | h | h <;> simp [h]
      · simp only [h2, if_false]
        by_cases h3 : t = ELECTION_RERUN_NOTIFICATION
        · simp [h3]
        · simp only [h3, if_false]
          by_cases h4 : env.election.failover = t_failover_mode.FAILOVER_MANUAL
          · simp only [h4, if_true]
            simp
          · simp only [h4, if_false]
            rcases hf with h | h | h <;> simp [h]

/-- How `do_primary_failover` can reach its final switch in
FAILOVER_STATE_NO_NEW_PRIMARY or FAILOVER_STATE_ELECTION_RERUN. -/
theorem failover_before_resolve_states (env : FailoverEnv) (st : DaemonState)
    (r : DaemonState × List SiblingProbe)
    (hcoded : follows_as_coded env)
    (h : failover_before_resolve env st = some r) :
    (r.1.failover_state = .FAILOVER_STATE_NO_NEW_PRIMARY →
        r.1.monitoring_state = .MS_DEGRADED)
      ∧ (r.1.failover_state = .FAILOVER_STATE_ELECTION_RERUN →
          r.1.upstream_node_status = st.upstream_node_status
            ∧ (((do_election env.election st.monitoring_state UNKNOWN_NODE_ID).result
                  = ElectionResult.ELECTION_RERUN
                ∧ r.1.actions = st.actions ++
                    [Action.notify_followers
                      (node_ids (do_election env.election st.monitoring_state
                        UNKNOWN_NODE_ID).sibling_nodes)
                      ELECTION_RERUN_NOTIFICATION])
              ∨ (((do_election env.election st.monitoring_state UNKNOWN_NODE_ID).result
                    = ElectionResult.ELECTION_LOST
                  ∨ (do_election env.election st.monitoring_state UNKNOWN_NODE_ID).result
                    = ElectionResult.ELECTION_NOT_CANDIDATE)
                ∧ env.notification = some ELECTION_RERUN_NOTIFICATION
                ∧ r.1.actions = st.actions))) := by
  unfold failover_before_resolve at h
  simp only at h
  generalize do_election env.election st.monitoring_state UNKNOWN_NODE_ID = e at h ⊢
  rcases e with ⟨res, npi, ms, sib⟩
  cases res
  · -- ELECTION_NOT_CANDIDATE
    simp only [failover_election_dispatch, Option.some.injEq] at h
    subst h
    obtain ⟨h1, h2⟩ := failover_wait_states env
      { after_election env st with failover_state := .FAILOVER_STATE_WAITING_NEW_PRIMARY }
      sib npi hcoded rfl
    refine ⟨h1, fun hr => ?_⟩
    obtain ⟨h3, h4, h5⟩ := h2 hr
    exact ⟨by simpa using h5, Or.inr ⟨Or.inr rfl, h3, by simpa using h4⟩⟩
  · -- ELECTION_WON
    simp only [failover_election_dispatch] at h
    have hp := (promote_self_inv env.promote (after_election env st) (after_election env st)
      rfl).2.2.1
    generalize promote_self env.promote (after_election env st) = ps at hp h
    split_ifs at h with hv
    · simp only [Option.some.injEq] at h
      subst h
      simp [failover_follow_or_wait, DaemonState.record, hv.1]
    · simp only [Option.some.injEq] at h
      subst h
      rcases hp with hq | hq | hq | hq <;> simp [failover_follow_or_wait, hq]
  · -- ELECTION_LOST
    simp only [failover_election_dispatch, Option.some.injEq] at h
    subst h
    obtain ⟨h1, h2⟩ := failover_wait_states env
      { after_election env st with failover_state := .FAILOVER_STATE_WAITING_NEW_PRIMARY }
      sib npi hcoded rfl
    refine ⟨h1, fun hr => ?_⟩
    obtain ⟨h3, h4, h5⟩ := h2 hr
    exact ⟨by simpa using h5, Or.inr ⟨Or.inl rfl, h3, by simpa using h4⟩⟩
  · -- ELECTION_CANCELLED
    simp only [failover_election_dispatch] at h
    split_ifs at h
    simp only [Option.some.injEq] at h
    subst h
    rcases follows_as_coded_results env hcoded npi with hq | hq | hq <;>
      simp [failover_follow_or_wait, DaemonState.record, hq]
  · -- ELECTION_RERUN
    simp only [failover_election_dispatch, Option.some.injEq] at h
    subst h
    simp [failover_follow_or_wait, DaemonState.record]

/-- C22. The function `do_primary_failover` returns true if and only if the
failover state it resolved to is one of PROMOTED, PRIMARY_REAPPEARED,
FOLLOWED_NEW_PRIMARY or FOLLOWING_ORIGINAL_PRIMARY, and whenever it returns
true the stored `failover_state` has been reset to FAILOVER_STATE_NONE. -/
theorem do_primary_failover_true_iff (env : FailoverEnv) (st : DaemonState) :
    ((do_primary_failover env st).2 = true ↔
        (resolved_failover_state env st = .FAILOVER_STATE_PROMOTED
          ∨ resolved_failover_state env st = .FAILOVER_STATE_PRIMARY_REAPPEARED
          ∨ resolved_failover_state env st = .FAILOVER_STATE_FOLLOWED_NEW_PRIMARY
          ∨ resolved_failover_state env st = .FAILOVER_STATE_FOLLOWING_ORIGINAL_PRIMARY))
      ∧ ((do_primary_failover env st).2 = true →
          (do_primary_failover env st).1.failover_state = .FAILOVER_STATE_NONE) := by
  rw [do_primary_failover_eq]
  unfold resolved_failover_state
  cases hb : failover_before_resolve env st with
  | none => simp
  | some r =>
    simp only
    unfold failover_resolve
    cases hfs : r.1.failover_state <;> simp [DaemonState.record]

/-- Witness for C22: node 2 wins the election of scenario 1 and promotes
itself; `do_primary_failover` returns true with the failover state reset. -/
theorem do_primary_failover_true_iff_witness :
    (do_primary_failover (failover_env (three_node_env 2 200 200 100 100) none)
        (idle_state (standby_node 2 100 "default"))).2 = true
      ∧ (do_primary_failover (failover_env (three_node_env 2 200 200 100 100) none)
        (idle_state (standby_node 2 100 "default"))).1.failover_state
          = FailoverState.FAILOVER_STATE_NONE := by
  have h := do_primary_failover_true_iff (failover_env (three_node_env 2 200 200 100 100) none)
    (idle_state (standby_node 2 100 "default"))
  have h1 := h.1.mpr (Or.inl (by decide))
  exact ⟨h1, h.2 h1⟩

/-- C23. Whenever `do_primary_failover` resolves to NO_NEW_PRIMARY,
REQUIRES_MANUAL_FAILOVER, PROMOTION_FAILED or FOLLOW_FAIL, it returns false
with the monitoring state set to DEGRADED; in the PROMOTION_FAILED case the
stored `failover_state` stays PROMOTION_FAILED. The follow results are those
of the function `follow_new_primary`. -/
theorem do_primary_failover_degraded (env : FailoverEnv) (st : DaemonState)
    (hcoded : follows_as_coded env) :
    ((resolved_failover_state env st = .FAILOVER_STATE_NO_NEW_PRIMARY
        ∨ resolved_failover_state env st = .FAILOVER_STATE_REQUIRES_MANUAL_FAILOVER
        ∨ resolved_failover_state env st = .FAILOVER_STATE_PROMOTION_FAILED
        ∨ resolved_failover_state env st = .FAILOVER_STATE_FOLLOW_FAIL) →
        (do_primary_failover env st).2 = false
          ∧ (do_primary_failover env st).1.monitoring_state = .MS_DEGRADED)
      ∧ (resolved_failover_state env st = .FAILOVER_STATE_PROMOTION_FAILED →
          (do_primary_failover env st).1.failover_state = .FAILOVER_STATE_PROMOTION_FAILED) := by
  rw [do_primary_failover_eq]
  unfold resolved_failover_state
  cases hb : failover_before_resolve env st with
  | none => simp
  | some r =>
    simp only
    have hno := (failover_before_resolve_states env st r hcoded hb).1
    unfold failover_resolve
    cases hfs : r.1.failover_state <;> simp_all

/-- Witness for C23: node 2 wins the election of scenario 1 and its promote
command returns a non-zero status; `do_primary_failover` returns false in
degraded monitoring and keeps FAILOVER_STATE_PROMOTION_FAILED. -/
theorem do_primary_failover_degraded_witness :
    (do_primary_failover
        { failover_env (three_node_env 2 200 200 100 100) none with promote := promote_timed_out }
        (idle_state (standby_node 2 100 "default"))).2 = false
      ∧ (do_primary_failover
        { failover_env (three_node_env 2 200 200 100 100) none with promote := promote_timed_out }
        (idle_state (standby_node 2 100 "default"))).1.monitoring_state
          = MonitoringState.MS_DEGRADED
      ∧ (do_primary_failover
        { failover_env (three_node_env 2 200 200 100 100) none with promote := promote_timed_out }
        (idle_state (standby_node 2 100 "default"))).1.failover_state
          = FailoverState.FAILOVER_STATE_PROMOTION_FAILED := by
  have h := do_primary_failover_degraded
    { failover_env (three_node_env 2 200 200 100 100) none with promote := promote_timed_out }
    (idle_state (standby_node 2 100 "default"))
    ⟨fun _ => ⟨true, true, true, .RECTYPE_PRIMARY, 0, false, .RECTYPE_UNKNOWN, true, true, true⟩,
      fun _ => rfl⟩
  have h1 := h.1 (Or.inr (Or.inr (Or.inl (by decide))))
  exact ⟨h1.1, h1.2, h.2 (by decide)⟩

/-- C24 (as amended). Whenever `do_primary_failover` reaches
FAILOVER_STATE_ELECTION_RERUN it sleeps `election_rerun_interval`, sets the
upstream node status back to UP, resets `failover_state` to NONE and returns
false, without running the promote or follow command. It reaches that state
in two ways: from its own election result RERUN, and then it has notified
the siblings with ELECTION_RERUN_NOTIFICATION before; or, after a lost
election or as a non-candidate, from a received ELECTION_RERUN_NOTIFICATION,
and then it notifies nobody. The follow results are those of the function
`follow_new_primary`. -/
theorem election_rerun_path (env : FailoverEnv) (st : DaemonState)
    (hcoded : follows_as_coded env)
    (hrerun : resolved_failover_state env st = .FAILOVER_STATE_ELECTION_RERUN) :
    (do_primary_failover env st).2 = false
      ∧ (do_primary_failover env st).1.failover_state = .FAILOVER_STATE_NONE
      ∧ (do_primary_failover env st).1.upstream_node_status = .NODE_STATUS_UP
      ∧ (((do_election env.election st.monitoring_state UNKNOWN_NODE_ID).result
              = ElectionResult.ELECTION_RERUN
            ∧ (do_primary_failover env st).1.actions = st.actions ++
                [Action.notify_followers
                    (node_ids (do_election env.election st.monitoring_state
                      UNKNOWN_NODE_ID).sibling_nodes)
                    ELECTION_RERUN_NOTIFICATION,
                  Action.sleep env.election_rerun_interval])
          ∨ (((do_election env.election st.monitoring_state UNKNOWN_NODE_ID).result
                = ElectionResult.ELECTION_LOST
              ∨ (do_election env.election st.monitoring_state UNKNOWN_NODE_ID).result
                = ElectionResult.ELECTION_NOT_CANDIDATE)
            ∧ env.notification = some ELECTION_RERUN_NOTIFICATION
            ∧ (do_primary_failover env st).1.actions
                = st.actions ++ [Action.sleep env.election_rerun_interval])) := by
  unfold resolved_failover_state at hrerun
  rw [do_primary_failover_eq]
  cases hb : failover_before_resolve env st with
  | none => simp [hb] at hrerun
  | some r =>
    simp only [hb] at hrerun ⊢
    obtain ⟨_, hways⟩ := (failover_before_resolve_states env st r hcoded hb).2 hrerun
    unfold failover_resolve
    simp only [hrerun]
    refine ⟨trivial, trivial, trivial, ?_⟩
    rcases hways with ⟨h1, h2⟩ | ⟨h1, h2, h3⟩
    · left
      exact ⟨h1, by simp [DaemonState.record, h2]⟩
    · right
      exact ⟨h1, h2, by simp [DaemonState.record, h3]⟩

/-- Witness for C24: node 2 is the candidate of scenario 1 and its
validation command fails; it tells sibling 3 to rerun the election, sleeps
and returns false. -/
theorem election_rerun_path_witness :
    (do_primary_failover (failover_env rerun_env none)
        (idle_state (standby_node 2 100 "default"))).2 = false
      ∧ (do_primary_failover (failover_env rerun_env none)
        (idle_state (standby_node 2 100 "default"))).1.actions
          = [Action.notify_followers [3] (-2), Action.sleep 15] := by
  obtain ⟨h1, _, _, h4⟩ := election_rerun_path (failover_env rerun_env none)
    (idle_state (standby_node 2 100 "default")) (failover_env_follows_as_coded _ _) (by decide)
  exact ⟨h1, by decide⟩

/-- C24, the run on which the property as first stated fails. Node 3 loses
the election of scenario 1 and then receives ELECTION_RERUN_NOTIFICATION: it
reaches FAILOVER_STATE_ELECTION_RERUN, sleeps, and returns false with the
upstream status UP, but it notifies no sibling. -/
theorem rerun_notification_is_not_forwarded :
    (do_election (three_node_env 3 200 200 100 100) .MS_NORMAL UNKNOWN_NODE_ID).result
        = ElectionResult.ELECTION_LOST
      ∧ resolved_failover_state
          (failover_env (three_node_env 3 200 200 100 100) (some ELECTION_RERUN_NOTIFICATION))
          (idle_state (standby_node 3 100 "default"))
        = FailoverState.FAILOVER_STATE_ELECTION_RERUN
      ∧ (do_primary_failover
          (failover_env (three_node_env 3 200 200 100 100) (some ELECTION_RERUN_NOTIFICATION))
          (idle_state (standby_node 3 100 "default"))).1.actions = [Action.sleep 15]
      ∧ (do_primary_failover
          (failover_env (three_node_env 3 200 200 100 100) (some ELECTION_RERUN_NOTIFICATION))
          (idle_state (standby_node 3 100 "default"))).1.upstream_node_status
        = NodeStatus.NODE_STATUS_UP
      ∧ (do_primary_failover
          (failover_env (three_node_env 3 200 200 100 100) (some ELECTION_RERUN_NOTIFICATION))
          (idle_state (standby_node 3 100 "default"))).2 = false := by
  refine ⟨by decide, by decide, by decide, by decide, by decide⟩

/-- C25. Given that both replication connections and both IDENTIFY_SYSTEM
calls succeed, `check_node_can_follow` returns true if and only if the two
system identifiers are equal and either the target timeline equals the local
timeline, both LSNs are valid and the local LSN is at most the target's
current LSN, or the target timeline is greater than the local timeline, the
target's timeline history is available and the local LSN is at most the fork
point at which the target left the local timeline; it returns false whenever
the target timeline is lower than the local one. -/
theorem check_node_can_follow_iff (env : CanFollowEnv) (local_xlogpos : Nat)
    (li fi : t_system_identification)
    (hlocal_conn : env.local_repl_conn_ok = true)
    (hlocal : env.local_identification = some li)
    (htarget_conn : env.follow_target_repl_conn_ok = true)
    (htarget : env.follow_target_identification = some fi) :
    (check_node_can_follow env local_xlogpos = true ↔
        fi.system_identifier = li.system_identifier
          ∧ ((fi.timeline = li.timeline ∧ local_xlogpos ≠ InvalidXLogRecPtr
                ∧ env.follow_target_xlogpos ≠ InvalidXLogRecPtr
                ∧ local_xlogpos ≤ env.follow_target_xlogpos)
            ∨ (fi.timeline > li.timeline
                ∧ ∃ history, env.get_timeline_history (li.timeline + 1) = some history
                    ∧ local_xlogpos ≤ history.end_lsn)))
      ∧ (fi.timeline < li.timeline → check_node_can_follow env local_xlogpos = false) := by
  refine ⟨?_, ?_⟩
  · unfold check_node_can_follow
    simp only [hlocal_conn, hlocal, htarget_conn, htarget, Bool.true_eq_false, if_false]
    by_cases hsys : fi.system_identifier = li.system_identifier
    · simp only [hsys, ne_eq, not_true_eq_false, if_false, true_and]
      by_cases hlow : fi.timeline < li.timeline
      · simp only [hlow, if_true]
        constructor
        · intro h
          cases h
        · rintro (⟨h, _⟩ | ⟨h, _⟩) <;> omega
      · simp only [hlow, if_false]
        by_cases heq : fi.timeline = li.timeline
        · simp only [heq, if_true, gt_iff_lt, lt_self_iff_false, false_and, or_false, true_and]
          by_cases hinv : local_xlogpos = InvalidXLogRecPtr
              ∨ env.follow_target_xlogpos = InvalidXLogRecPtr
          · simp only [hinv, if_true]
            constructor
            · intro h
              cases h
            · rintro ⟨h1, h2, _⟩
              rcases hinv with h | h
              · exact absurd h h1
              · exact absurd h h2
          · simp only [hinv, if_false]
            simp only [not_or] at hinv
            by_cases hle : local_xlogpos ≤ env.follow_target_xlogpos
            · simp [hle, hinv.1, hinv.2]
            · simp [hle]
        · simp only [heq, if_false, false_and, false_or]
          have hgt : fi.timeline > li.timeline := by omega
          cases hh : env.get_timeline_history (li.timeline + 1) with
          | none => simp
          | some history =>
            by_cases hle : local_xlogpos ≤ history.end_lsn
            · have : ¬ local_xlogpos > history.end_lsn := by omega
              simp [this, hgt, hle]
            · have : local_xlogpos > history.end_lsn := by omega
              simp [this, hle]
    · simp [hsys]
  · intro hlow
    unfold check_node_can_follow
    simp only [hlocal_conn, hlocal, htarget_conn, htarget, Bool.true_eq_false, if_false]
    by_cases hsys : fi.system_identifier = li.system_identifier
    · simp [hsys, hlow]
    · simp [hsys]

/-- Witness for C25: the target forked off timeline 7 at LSN 5000; a local
node at LSN 4000 can follow it, a local node at LSN 6000 cannot. -/
theorem check_node_can_follow_iff_witness :
    check_node_can_follow forked_target_env 4000 = true
      ∧ check_node_can_follow forked_target_env 6000 = false := by
  have h := fun x => (check_node_can_follow_iff forked_target_env x ⟨6912, 7⟩ ⟨6912, 8⟩
    rfl rfl rfl rfl).1
  refine ⟨(h 4000).mpr ⟨rfl, Or.inr ⟨by decide, ⟨7, 5000⟩, rfl, by decide⟩⟩, ?_⟩
  cases hc : check_node_can_follow forked_target_env 6000 with
  | false => rfl
  | true =>
    rcases (h 6000).mp hc with ⟨_, ⟨h1, _⟩ | ⟨_, history, h2, h3⟩⟩
    · exact absurd h1 (by decide)
    · have : history = ⟨7, 5000⟩ := by
        have h4 : forked_target_env.get_timeline_history 8 = some ⟨7, 5000⟩ := rfl
        rw [show (⟨6912, 7⟩ : t_system_identification).timeline + 1 = 8 from rfl] at h2
        rw [h4] at h2
        exact (Option.some.inj h2).symm
      subst this
      exact absurd h3 (by decide)

/-- C26 (as amended). For every sibling that the loop of `do_election`
probes (reachable, repmgrd running, replication info available, in recovery)
and every value of its `upstream_last_seen`, the loop body goes on and counts
the sibling as still seeing the primary if and only if
`0 <= upstream_last_seen < 2 * monitor_interval_secs`; a sibling that reports
`-1` (the primary was never seen) is not counted. -/
theorem still_sees_primary_iff (loc : String) (mis : Int) (st : ElectionLoopState)
    (s : SiblingProbe) (ri : ReplInfo)
    (hconn : s.conn_ok = true)
    (hpid : s.repmgrd_pid ≠ UNKNOWN_PID)
    (hri : s.repl_info = some ri)
    (hrec : ri.in_recovery = true) :
    ∃ st1, election_loop_body loc mis st s = .ok st1
      ∧ (st1.nodes_with_primary_still_visible = st.nodes_with_primary_still_visible + 1 ↔
          (0 ≤ ri.upstream_last_seen ∧ ri.upstream_last_seen < 2 * mis))
      ∧ (¬ (0 ≤ ri.upstream_last_seen ∧ ri.upstream_last_seen < 2 * mis) →
          st1.nodes_with_primary_still_visible = st.nodes_with_primary_still_visible)
      ∧ (ri.upstream_last_seen = -1 →
          st1.nodes_with_primary_still_visible = st.nodes_with_primary_still_visible) := by
  have hends : ends_election s = false := by
    unfold ends_election
    simp [hri, hrec]
  obtain ⟨st1, hst1⟩ := (election_loop_body_ends loc mis st s).2 hends
  refine ⟨st1, hst1, ?_⟩
  unfold election_loop_body at hst1
  rcases s with ⟨ni, conn, pid, sri, cf⟩
  simp only at hconn hpid hri
  subst hconn
  subst hri
  simp only [Bool.true_eq_false, if_false, hpid, hrec] at hst1
  by_cases hseen : ri.upstream_last_seen ≥ 0 ∧ ri.upstream_last_seen < mis * 2
  · simp only [hseen, and_self, if_true] at hst1
    have hc : st1.nodes_with_primary_still_visible
        = st.nodes_with_primary_still_visible + 1 := by
      split_ifs at hst1 <;> simp at hst1 <;> subst hst1 <;> rfl
    refine ⟨?_, ?_, ?_⟩
    · constructor
      · intro _
        omega
      · intro _
        exact hc
    · intro h
      omega
    · intro h
      omega
  · simp only [hseen, if_false] at hst1
    have hc : st1.nodes_with_primary_still_visible = st.nodes_with_primary_still_visible := by
      split_ifs at hst1 <;> simp at hst1 <;> subst hst1 <;> rfl
    refine ⟨?_, ?_, ?_⟩
    · constructor
      · intro h
        omega
      · intro h
        exfalso
        apply hseen
        omega
    · intro _
      exact hc
    · intro _
      exact hc

/-- Witness for C26: sibling 3 saw the primary one second ago, with a
monitoring interval of two seconds; it is counted. -/
theorem still_sees_primary_iff_witness :
    ∃ st1,
      election_loop_body "default" 2 ⟨standby_node 2 100 "default", 1, true, 0⟩
          { healthy_sibling 3 100 200 with repl_info := some ⟨true, 200, 200, false, 1⟩ }
        = .ok st1
      ∧ st1.nodes_with_primary_still_visible = 1 := by
  obtain ⟨st1, h1, h2, _⟩ := still_sees_primary_iff "default" 2
    ⟨standby_node 2 100 "default", 1, true, 0⟩
    { healthy_sibling 3 100 200 with repl_info := some ⟨true, 200, 200, false, 1⟩ }
    ⟨true, 200, 200, false, 1⟩ rfl (by decide) rfl rfl
  exact ⟨st1, h1, by simpa using h2.mpr (by decide)⟩

/-- C26, the run on which the property as first stated fails. Sibling 3 of
scenario 1 reports `upstream_last_seen = -1`, which is less than
`2 * monitor_interval_secs = 4`, yet the loop body does not count it as
seeing the primary, and with `primary_visibility_consensus` set the election
is not cancelled: node 2 wins. -/
theorem never_seen_is_not_still_visible :
    (healthy_sibling 3 100 200).repl_info.map (fun ri => ri.upstream_last_seen) = some (-1)
      ∧ ((-1 : Int) < 2 * 2)
      ∧ (election_loop_body "default" 2 ⟨standby_node 2 100 "default", 1, true, 0⟩
          (healthy_sibling 3 100 200)).toOption.map
            (fun st1 => st1.nodes_with_primary_still_visible)
        = some 0
      ∧ (do_election
          { three_node_env 2 200 200 100 100 with primary_visibility_consensus := true }
          .MS_NORMAL UNKNOWN_NODE_ID).result = ElectionResult.ELECTION_WON := by
  refine ⟨by decide, by decide, by decide, by decide⟩

/-- C27 (as amended). The function `check_primary_status` returns true (keep
monitoring as primary) whenever the local node's recovery type is PRIMARY.
When the recovery type is STANDBY it returns false (hand control back so that
the monitor restarts in standby mode) exactly when a new primary can be
reached, the lookup of the node's own record on it does not report "not
found" (the record is found, or the lookup fails in another way), and either
the local copy of the record does not show type PRIMARY or the record was
set to standby and found when read again; it returns true exactly when no
new primary can be reached, or the lookup does not report "not found", the
local copy shows type PRIMARY and the update to standby or the second read
fails; and it ends the daemon, with exit code ERR_BAD_CONFIG and no other,
exactly when a new primary can be reached and reports that it has no record
of the node. -/
theorem check_primary_status_result (env : PrimaryStatusEnv) (elapsed : Int)
    (ms : MonitoringState) :
    (env.recovery_type = RecoveryType.RECTYPE_PRIMARY →
        (check_primary_status env elapsed ms).result = .returns true)
      ∧ (env.recovery_type = RecoveryType.RECTYPE_STANDBY →
          ((check_primary_status env elapsed ms).result = .returns false ↔
              (env.new_primary_conn_ok = true
                ∧ env.record_status ≠ RecordStatus.RECORD_NOT_FOUND
                ∧ (env.local_node_type ≠ t_server_type.PRIMARY
                  ∨ (env.update_ok = true
                    ∧ env.refreshed_record_status = RecordStatus.RECORD_FOUND))))
            ∧ ((check_primary_status env elapsed ms).result = .returns true ↔
                (env.new_primary_conn_ok = false
                  ∨ (env.record_status ≠ RecordStatus.RECORD_NOT_FOUND
                    ∧ env.local_node_type = t_server_type.PRIMARY
                    ∧ (env.update_ok = false
                      ∨ env.refreshed_record_status ≠ RecordStatus.RECORD_FOUND))))
            ∧ ((check_primary_status env elapsed ms).result = .terminates .ERR_BAD_CONFIG ↔
                (env.new_primary_conn_ok = true
                  ∧ env.record_status = RecordStatus.RECORD_NOT_FOUND))
            ∧ (∀ code, (check_primary_status env elapsed ms).result = .terminates code →
                code = ExitCode.ERR_BAD_CONFIG)) := by
  constructor
  · intro h
    unfold check_primary_status
    simp only [h]
    split_ifs <;> simp_all
  · intro h
    unfold check_primary_status
    rcases env with ⟨rt, conn, rs, ty, upd, rrs⟩
    simp only at h
    subst h
    cases conn <;> cases upd <;> cases rs <;> cases rrs <;> cases ty <;>
      simp <;> split_ifs <;> simp

/-- Witness for C27: the former primary is now a standby of a reachable new
primary that holds its record; `check_primary_status` returns false. -/
theorem check_primary_status_result_witness :
    (check_primary_status standby_of_new_primary NO_DEGRADED_MONITORING_ELAPSED .MS_NORMAL).result
      = .returns false :=
  ((check_primary_status_result standby_of_new_primary NO_DEGRADED_MONITORING_ELAPSED
      .MS_NORMAL).2 rfl).1.mpr (by decide)

/-- C27, the run on which the property as first stated fails. The local
node's recovery type is STANDBY but no node can be reached as the new
primary: `check_primary_status` returns true, and the daemon keeps monitoring
the node as a primary. -/
theorem standby_without_primary_keeps_primary_monitoring :
    standby_without_primary.recovery_type = RecoveryType.RECTYPE_STANDBY
      ∧ (check_primary_status standby_without_primary NO_DEGRADED_MONITORING_ELAPSED
          .MS_NORMAL).result = .returns true
      ∧ (check_primary_status standby_without_primary 42 .MS_DEGRADED).result = .returns true
      ∧ (check_primary_status standby_without_primary 42 .MS_DEGRADED).monitoring_state
          = MonitoringState.MS_DEGRADED := by
  refine ⟨by decide, by decide, by decide, by decide⟩

theorem sync_names_has_paren_true (s : List Char) :
    ∀ (k i : Nat), sync_names_has_paren s k i true = true := by
  intro k
  induction k with
  | zero => intro i; rfl
  | succ k ih =>
    intro i
    unfold sync_names_has_paren
    split_ifs <;> exact ih _

theorem sync_names_has_paren_found (p rest : List Char) :
    ∀ (q : List Char) (k : Nat) (r : Bool), p.length < q.length + k →
      q.length ≤ p.length →
      sync_names_has_paren (p ++ '(' :: rest) k q.length r = true := by
  intro q k
  induction k generalizing q with
  | zero => intro r h1 h2; omega
  | succ k ih =>
    intro r h1 h2
    unfold sync_names_has_paren
    by_cases hq : q.length = p.length
    · have hc : char_at (p ++ '(' :: rest) q.length = '(' := by
        rw [hq]
        have := char_at_append p ('(' :: rest) 0
        simpa [char_at_cons_zero] using this
      simp only [hc, if_true]
      exact sync_names_has_paren_true _ _ _
    · have hstep := fun r1 => ih (q ++ ['x']) r1
        (by simp only [List.length_append, List.length_singleton]; omega)
        (by simp only [List.length_append, List.length_singleton]; omega)
      simp only [List.length_append, List.length_singleton] at hstep
      split_ifs
      · exact sync_names_has_paren_true _ _ _
      · exact hstep r

theorem sync_names_scan_binary (p rest : List Char)
    (hp : ∀ c ∈ p, c = '0' ∨ c = '1' ∨ c = ' ') :
    ∀ (k : Nat) (q t : List Char), p = q ++ t → t.length < k →
      sync_names_scan (p ++ '(' :: rest) true k q.length = true := by
  intro k
  induction k with
  | zero => intro q t _ h; omega
  | succ k ih =>
    intro q t hqt hlen
    unfold sync_names_scan
    simp only [Bool.true_eq_false, if_false]
    cases t with
    | nil =>
      have hq : p = q := by simpa using hqt
      have hc : char_at (p ++ '(' :: rest) q.length = '(' := by
        rw [← hq]
        have := char_at_append p ('(' :: rest) 0
        simpa [char_at_cons_zero] using this
      simp [hc]
    | cons c t1 =>
      have hc : char_at (p ++ '(' :: rest) q.length = c := by
        rw [hqt, List.append_assoc]
        have := char_at_append q (c :: t1 ++ '(' :: rest) 0
        simpa [char_at_cons_zero] using this
      have hmem : c ∈ p := by
        rw [hqt]
        simp
      have hstep := ih (q ++ [c]) t1 (by simp [hqt]) (by simp at hlen; omega)
      simp only [List.length_append, List.length_singleton] at hstep
      rw [hc]
      rcases hp c hmem with h | h | h <;> subst h <;> simp [hstep]

/-- Every setting `N (names)` whose number `N` is written with the digits 0
and 1 only is taken for a setting with one synchronous standby. -/
theorem only_one_sync_node_binary (p rest : List Char)
    (hp : ∀ c ∈ p, c = '0' ∨ c = '1' ∨ c = ' ') :
    only_one_sync_node (p ++ '(' :: rest) = true := by
  unfold only_one_sync_node
  have hlen : ¬ (p ++ '(' :: rest).length = 0 := by simp
  simp only [hlen, if_false]
  have hr := sync_names_has_paren_found p rest [] ((p ++ '(' :: rest).length + 1) false
    (by simp; omega) (by simp)
  simp only [List.length_nil] at hr
  rw [hr]
  have := sync_names_scan_binary p rest hp ((p ++ '(' :: rest).length + 1) [] p (by simp)
    (by simp; omega)
  simpa using this

/-- C28, the inputs on which the code departs from the property. For the
listed forms with `N` omitted, `N = 1` and `N` from 2 to 9 the function
`only_one_sync_node` answers as stated, and it returns false for the empty
string; but for `N = 10` it returns true in each of the three forms with a
number, although such a setting asks for ten synchronous standbys. -/
theorem only_one_sync_node_accepts_ten :
    only_one_sync_node "s1, s2".toList = true
      ∧ only_one_sync_node "(s1, s2)".toList = true
      ∧ only_one_sync_node "1 (s1, s2)".toList = true
      ∧ only_one_sync_node "FIRST 1 (s1, s2)".toList = true
      ∧ only_one_sync_node "ANY 1 (s1, s2)".toList = true
      ∧ only_one_sync_node "2 (s1, s2)".toList = false
      ∧ only_one_sync_node "FIRST 2 (s1, s2)".toList = false
      ∧ only_one_sync_node "ANY 9 (s1, s2)".toList = false
      ∧ only_one_sync_node "".toList = false
      ∧ only_one_sync_node "10 (s1, s2)".toList = true
      ∧ only_one_sync_node "FIRST 10 (s1, s2)".toList = true
      ∧ only_one_sync_node "ANY 10 (s1, s2)".toList = true
      ∧ only_one_sync_node
          "FIRST 11 (s1, s2, s3, s4, s5, s6, s7, s8, s9, s10, s11, s12)".toList = true := by
  refine ⟨by decide, by decide, by decide, by decide, by decide, by decide, by decide, by decide,
    by decide, by decide, by decide, by decide, by decide⟩

theorem poll_sibling_wal_receivers_true : ∀ (round : List Int),
    poll_sibling_wal_receivers round true = true := by
  intro round
  induction round with
  | nil => rfl
  | cons a rest ih =>
    unfold poll_sibling_wal_receivers
    split_ifs <;> exact ih

theorem poll_sibling_wal_receivers_false : ∀ (round : List Int),
    poll_sibling_wal_receivers round false = !no_receiver_running round := by
  intro round
  induction round with
  | nil => rfl
  | cons a rest ih =>
    unfold poll_sibling_wal_receivers no_receiver_running
    unfold UNKNOWN_PID
    by_cases h1 : a = -1
    · subst h1
      simp only [if_true]
      rw [ih]
      simp [no_receiver_running]
    · simp only [h1, if_false]
      by_cases h2 : a > 0
      · have h3 : ¬ a ≤ 0 := by omega
        simp [h2, h3, poll_sibling_wal_receivers_true]
      · have h3 : a ≤ 0 := by omega
        simp only [h2, if_false]
        rw [ih]
        simp [no_receiver_running, h3]

/-- The wait performs at most as many rounds as are left. -/
theorem wait_sibling_wal_receivers_bound (pids : Nat → List Int) :
    ∀ (remaining i : Nat) (flag : Bool),
      (wait_sibling_wal_receivers pids remaining i flag).rounds ≤ i + remaining := by
  intro remaining
  induction remaining with
  | zero => intro i flag; simp [wait_sibling_wal_receivers]
  | succ k ih =>
    intro i flag
    unfold wait_sibling_wal_receivers
    dsimp only
    split_ifs
    · simp
    · have := ih (i + 1) (poll_sibling_wal_receivers (pids i) flag)
      omega

/-- Once the flag is set the wait is never left early. -/
theorem wait_sibling_wal_receivers_stuck (pids : Nat → List Int) :
    ∀ (remaining i : Nat),
      wait_sibling_wal_receivers pids remaining i true = ⟨i + remaining, i + remaining, true⟩ := by
  intro remaining
  induction remaining with
  | zero => intro i; simp [wait_sibling_wal_receivers]
  | succ k ih =>
    intro i
    unfold wait_sibling_wal_receivers
    simp only [poll_sibling_wal_receivers_true, Bool.true_eq_false, if_false]
    rw [ih (i + 1)]
    simp
    omega

/-- The wait always performs at most `sibling_nodes_disconnect_timeout`
rounds; it stops after the first round when no receiver runs in it; and when
a receiver runs in the first round it goes on for all
`sibling_nodes_disconnect_timeout` rounds, whatever the later rounds show. -/
theorem sibling_wal_receiver_wait_rounds (timeout : Nat) (pids : Nat → List Int) :
    (sibling_wal_receiver_wait timeout pids).rounds ≤ timeout
      ∧ (0 < timeout → no_receiver_running (pids 0) = true →
          sibling_wal_receiver_wait timeout pids = ⟨1, 0, false⟩)
      ∧ (0 < timeout → no_receiver_running (pids 0) = false →
          sibling_wal_receiver_wait timeout pids = ⟨timeout, timeout, true⟩) := by
  unfold sibling_wal_receiver_wait
  simp only [Int.toNat_ofNat]
  refine ⟨?_, ?_, ?_⟩
  · have := wait_sibling_wal_receivers_bound pids timeout 0 false
    omega
  · intro h0 h
    cases timeout with
    | zero => omega
    | succ k =>
      unfold wait_sibling_wal_receivers
      simp [poll_sibling_wal_receivers_false, h]
  · intro h0 h
    cases timeout with
    | zero => omega
    | succ k =>
      unfold wait_sibling_wal_receivers
      simp only [poll_sibling_wal_receivers_false, h, Bool.not_false, Bool.true_eq_false,
        if_false]
      rw [wait_sibling_wal_receivers_stuck]
      simp
      omega

/-- C29, the run on which the code departs from the property. With
`sibling_nodes_disconnect_timeout = 30` and one sibling whose WAL receiver
runs in the first round and is gone from the second round on, the second
round is the first in which no sibling reports a running WAL receiver, but
the wait does not stop there: the flag set in the first round is never
reset, and the wait performs all 30 rounds and sleeps 30 times. Had the
receiver been gone in the first round, the wait would have stopped after
that round. -/
theorem sibling_wait_never_stops_early :
    no_receiver_running (receiver_stops_after_first_round 0) = false
      ∧ no_receiver_running (receiver_stops_after_first_round 1) = true
      ∧ sibling_wal_receiver_wait 30 receiver_stops_after_first_round = ⟨30, 30, true⟩
      ∧ sibling_wal_receiver_wait 30 (fun _ => [0]) = ⟨1, 0, false⟩ := by
  refine ⟨by decide, by decide, by decide, by decide⟩

/-- C30 (as amended). Disabling and re-enabling the WAL receiver is a round
trip on `wal_retrieve_retry_interval`: for every original value `v` with
`1 <= v < 86400000` on a standby reached with a superuser connection, on
which the WAL receiver PID can be read and the statements that read and
alter the setting succeed, `disable_wal_receiver` sets the setting to
`v + 86400000`, a second `disable_wal_receiver` leaves it there, and a
following `enable_wal_receiver` restores it to exactly `v`. When the WAL
receiver PID cannot be read, `disable_wal_receiver` leaves the setting as it
is. The function `enable_wal_receiver` never changes a value that is
`<= 86400000`. -/
theorem wal_receiver_round_trip (v : Int) (first second third : WalReceiverEnv)
    (wait_startup : Bool)
    (hv1 : 1 ≤ v) (hv2 : v < WALRECEIVER_DISABLE_TIMEOUT_VALUE)
    (hsuper : first.is_superuser = true ∧ second.is_superuser = true
      ∧ third.is_superuser = true)
    (hstandby : first.recovery_type ≠ RecoveryType.RECTYPE_PRIMARY
      ∧ second.recovery_type ≠ RecoveryType.RECTYPE_PRIMARY
      ∧ third.recovery_type ≠ RecoveryType.RECTYPE_PRIMARY)
    (hpid : first.wal_receiver_pid ≠ UNKNOWN_PID ∧ second.wal_receiver_pid ≠ UNKNOWN_PID)
    (hread : first.get_pg_setting_ok = true ∧ second.get_pg_setting_ok = true
      ∧ third.get_pg_setting_ok = true)
    (halter : first.alter_system_ok = true ∧ third.alter_system_ok = true) :
    (disable_wal_receiver first v).2 = v + WALRECEIVER_DISABLE_TIMEOUT_VALUE
      ∧ (disable_wal_receiver second (disable_wal_receiver first v).2).2
          = v + WALRECEIVER_DISABLE_TIMEOUT_VALUE
      ∧ (enable_wal_receiver third wait_startup
          (disable_wal_receiver second (disable_wal_receiver first v).2).2).2 = v
      ∧ (∀ (env : WalReceiverEnv) (setting : Int), env.wal_receiver_pid = UNKNOWN_PID →
          (disable_wal_receiver env setting).2 = setting)
      ∧ (∀ (env : WalReceiverEnv) (w : Bool) (setting : Int),
          setting ≤ WALRECEIVER_DISABLE_TIMEOUT_VALUE →
          (enable_wal_receiver env w setting).2 = setting) := by
  have h1 : (disable_wal_receiver first v).2 = v + WALRECEIVER_DISABLE_TIMEOUT_VALUE := by
    unfold disable_wal_receiver
    simp only [hsuper.1, hstandby.1, hpid.1, hread.1, halter.1, hv2, Bool.true_eq_false,
      if_false, if_true]
    split_ifs <;> rfl
  have h2 : (disable_wal_receiver second (v + WALRECEIVER_DISABLE_TIMEOUT_VALUE)).2
      = v + WALRECEIVER_DISABLE_TIMEOUT_VALUE := by
    unfold disable_wal_receiver
    have hge : ¬ (v + WALRECEIVER_DISABLE_TIMEOUT_VALUE < WALRECEIVER_DISABLE_TIMEOUT_VALUE) := by
      omega
    simp only [hsuper.2.1, hstandby.2.1, hpid.2, hread.2.1, hge, Bool.true_eq_false,
      if_false, if_true]
    split_ifs <;> rfl
  have h3 : (enable_wal_receiver third wait_startup
      (v + WALRECEIVER_DISABLE_TIMEOUT_VALUE)).2 = v := by
    unfold enable_wal_receiver
    have hgt : v + WALRECEIVER_DISABLE_TIMEOUT_VALUE > WALRECEIVER_DISABLE_TIMEOUT_VALUE := by
      omega
    simp only [hsuper.2.2, hstandby.2.2, hread.2.2, halter.2, hgt, Bool.true_eq_false,
      if_false, if_true, and_false]
    split_ifs <;> simp
  refine ⟨h1, ?_, ?_, ?_, ?_⟩
  · rw [h1, h2]
  · rw [h1, h2, h3]
  · intro env setting hunknown
    unfold disable_wal_receiver
    simp only [hunknown, if_true]
    split_ifs <;> rfl
  · intro env w setting hle
    unfold enable_wal_receiver
    have hng : ¬ (setting > WALRECEIVER_DISABLE_TIMEOUT_VALUE) := by omega
    simp only [hng, false_and, if_false]
    split_ifs <;> rfl

/-- Witness for C30: with `wal_retrieve_retry_interval` at 5000 ms, the
first `disable_wal_receiver` sets 86405000, the second leaves it, and
`enable_wal_receiver` restores 5000. -/
theorem wal_receiver_round_trip_witness :
    (disable_wal_receiver (standby_conn 4711) 5000).2 = 86405000
      ∧ (disable_wal_receiver (standby_conn 0) 86405000).2 = 86405000
      ∧ (enable_wal_receiver (standby_conn 0) false 86405000).2 = 5000 := by
  obtain ⟨h1, h2, h3, _⟩ := wal_receiver_round_trip 5000 (standby_conn 4711) (standby_conn 0)
    (standby_conn 0) false (by decide) (by decide) (by decide) (by decide) (by decide)
    (by decide) (by decide)
  rw [h1] at h2 h3
  rw [h2] at h3
  exact ⟨h1, h2, h3⟩

/-- C30, the run on which the property as first stated fails. On a standby
reached with a superuser connection whose WAL receiver PID cannot be read,
`disable_wal_receiver` returns before it touches the setting:
`wal_retrieve_retry_interval` stays at 5000 ms instead of 86405000. -/
theorem disable_wal_receiver_without_pid :
    (standby_conn UNKNOWN_PID).is_superuser = true
      ∧ (standby_conn UNKNOWN_PID).recovery_type = RecoveryType.RECTYPE_STANDBY
      ∧ disable_wal_receiver (standby_conn UNKNOWN_PID) 5000 = (UNKNOWN_PID, 5000) := by
  refine ⟨by decide, by decide, by decide⟩

end Repmgr
